import Mathlib

/-!
# vpcctl: the lifecycle orchestrator of `pkg/vpc`

A shallow embedding of `src/pkg/vpc/{vpc,create,get,delete}.go`.

* The EC2 client is a `Provider`: a deterministic oracle that answers a `Call`
  given the log of every earlier call together with the answer it got.
* Every function of the package is a state-passing computation `M α` over that
  log (`Trace`).  A Go run-time panic (nil dereference, index out of range) is
  the outcome `Outcome.crash`; a Go `(value, error)` pair is a Lean pair whose
  components are `Option`s (`nil` is `none`).
* A successful call hands back its output with the descriptor in it.  SDK
  pointer fields that the package dereferences unconditionally (identifiers,
  `CidrBlock`, `MapPublicIpOnLaunch`, tag keys and values) are plain values: a
  descriptor returned by a successful call carries them.  Pointer fields that
  the package only forwards or tests against `nil` are `Option`s.  Pointers
  the package itself may leave `nil` (a missing map entry, a `nil` result
  next to an error, the fields of `Details`) are `Option`s, and reading
  through one that is `none` is a panic.
* `log.Printf` calls have no effect on results or provider calls and are left
  out.
-/

namespace Vpcctl

/-! ## Data model -/

/-- Go `error` values: either handed back by the provider (or a waiter), or
built inside the package with `fmt.Errorf`. -/
inductive Error where
  | provider (msg : String)
  | errorf (msg : String)
  deriving DecidableEq, Repr

structure Tag where
  Key : String
  Value : String
  deriving DecidableEq, Repr

structure Filter where
  Name : String
  Values : List String
  deriving DecidableEq, Repr

structure Vpc where
  VpcId : String
  CidrBlock : String := ""
  Tags : List Tag := []
  deriving DecidableEq, Repr

structure Subnet where
  SubnetId : String
  VpcId : Option String := none
  AvailabilityZone : String := ""
  CidrBlock : String := ""
  MapPublicIpOnLaunch : Bool := false
  Tags : List Tag := []
  deriving DecidableEq, Repr

structure Route where
  DestinationCidrBlock : Option String := none
  GatewayId : Option String := none
  NatGatewayId : Option String := none
  deriving DecidableEq, Repr

structure RouteTableAssociation where
  RouteTableAssociationId : Option String := none
  SubnetId : Option String := none
  deriving DecidableEq, Repr

structure RouteTable where
  RouteTableId : String
  VpcId : Option String := none
  Routes : List Route := []
  Associations : List RouteTableAssociation := []
  Tags : List Tag := []
  deriving DecidableEq, Repr

structure InternetGateway where
  InternetGatewayId : String
  Tags : List Tag := []
  deriving DecidableEq, Repr

structure NatGatewayAddress where
  AllocationId : Option String := none
  deriving DecidableEq, Repr

structure NatGateway where
  NatGatewayId : String
  SubnetId : Option String := none
  VpcId : Option String := none
  NatGatewayAddresses : List NatGatewayAddress := []
  Tags : List Tag := []
  deriving DecidableEq, Repr

/-- Output of `AllocateAddress`; only `AllocationId` is read (and forwarded). -/
structure AllocateAddressOutput where
  AllocationId : Option String := none
  deriving DecidableEq, Repr

def SubnetTypePublic : String := "PUBLIC"
def SubnetTypePrivate : String := "PRIVATE"
def CreatedByTagKey : String := "CreatedBy"
def CreatedByTagValue : String := "vpcctl"

def defaultTags : List Tag := [⟨CreatedByTagKey, CreatedByTagValue⟩]

structure CreateSubnetOptions where
  AZ : String
  CIDR : String
  Public : Bool
  deriving DecidableEq, Repr

/-- `CreateOptions`.  `Tags` is the `map[string]string` of user tags that
`userTags` reads and `cmd/create.go` fills in; it is kept as the list of its
entries in the order `lo.MapToSlice` visits them. -/
structure CreateOptions where
  Name : String
  CIDR : String
  Subnets : List CreateSubnetOptions
  Tags : List (String × String) := []
  deriving DecidableEq, Repr

structure DeleteOptions where
  Name : String
  DeleteUnownedResources : Bool := false
  deriving DecidableEq, Repr

structure GetOptions where
  Name : String
  deriving DecidableEq, Repr

/-- `Details`: every field is a nil-able pointer or slice. -/
structure Details where
  VPC : Option Vpc := none
  Subnets : List Subnet := []
  RouteTables : List RouteTable := []
  InternetGateway : Option InternetGateway := none
  NATGateway : Option NatGateway := none
  deriving DecidableEq, Repr

/-! ## The provider -/

/-- One request to the EC2 client, with the input fields the package sets.
`TagSpecifications` always holds one entry whose resource type is fixed by the
call, so only its tag list is kept.  The two waiters are calls of their own. -/
inductive Call where
  | CreateVpc (CidrBlock : String) (Tags : List Tag)
  | CreateSubnet (VpcId AvailabilityZone CidrBlock : String) (Tags : List Tag)
  | ModifySubnetAttribute (SubnetId : String) (MapPublicIpOnLaunch : Bool)
  | CreateRouteTable (VpcId : Option String) (Tags : List Tag)
  | AssociateRouteTable (RouteTableId SubnetId : String)
  | CreateInternetGateway (Tags : List Tag)
  | AttachInternetGateway (InternetGatewayId VpcId : String)
  | CreateRoute (RouteTableId DestinationCidrBlock : String) (GatewayId NatGatewayId : Option String)
  | AllocateAddress (Tags : List Tag)
  | CreateNatGateway (AllocationId : Option String) (SubnetId : String) (Tags : List Tag)
  | WaitNatGatewayAvailable (NatGatewayId : String)
  | DescribeVpcs (Filters : List Filter)
  | DescribeSubnets (Filters : List Filter)
  | DescribeRouteTables (Filters : List Filter)
  | DescribeInternetGateways (Filters : List Filter)
  | DescribeNatGateways (Filters : List Filter)
  | DeleteNatGateway (NatGatewayId : String)
  | WaitNatGatewayDeleted (NatGatewayId : String)
  | ReleaseAddress (AllocationId : Option String)
  | DetachInternetGateway (InternetGatewayId VpcId : String)
  | DeleteInternetGateway (InternetGatewayId : String)
  | DeleteRoute (RouteTableId : String) (DestinationCidrBlock : Option String)
  | DisassociateRouteTable (AssociationId : Option String)
  | DeleteRouteTable (RouteTableId : String)
  | DeleteSubnet (SubnetId : String)
  | DeleteVpc (VpcId : String)
  deriving DecidableEq, Repr

/-- The descriptor a successful call hands back. -/
@[reducible] def Call.Resp : Call → Type
  | .CreateVpc _ _ => Vpc
  | .CreateSubnet _ _ _ _ => Subnet
  | .CreateRouteTable _ _ => RouteTable
  | .CreateInternetGateway _ => InternetGateway
  | .AllocateAddress _ => AllocateAddressOutput
  | .CreateNatGateway _ _ _ => NatGateway
  | .DescribeVpcs _ => List Vpc
  | .DescribeSubnets _ => List Subnet
  | .DescribeRouteTables _ => List RouteTable
  | .DescribeInternetGateways _ => List InternetGateway
  | .DescribeNatGateways _ => List NatGateway
  | .ModifySubnetAttribute _ _ => Unit
  | .AssociateRouteTable _ _ => Unit
  | .AttachInternetGateway _ _ => Unit
  | .CreateRoute _ _ _ _ => Unit
  | .WaitNatGatewayAvailable _ => Unit
  | .DeleteNatGateway _ => Unit
  | .WaitNatGatewayDeleted _ => Unit
  | .ReleaseAddress _ => Unit
  | .DetachInternetGateway _ _ => Unit
  | .DeleteInternetGateway _ => Unit
  | .DeleteRoute _ _ => Unit
  | .DisassociateRouteTable _ => Unit
  | .DeleteRouteTable _ => Unit
  | .DeleteSubnet _ => Unit
  | .DeleteVpc _ => Unit

/-- A provider call that was issued, with the answer it got. -/
structure Event where
  call : Call
  result : Except Error call.Resp

/-- The log of provider calls issued so far, oldest first. -/
abbrev Trace := List Event

/-- The EC2 client: its answer to a call may depend on everything that was
asked and answered before. -/
structure Provider where
  respond : Trace → (c : Call) → Except Error c.Resp

/-- `Client`: the configured region and the EC2 client. -/
structure Client where
  Region : String
  ec2Client : Provider

/-! ## Computations -/

/-- How a Go function call ends: it returns, or it panics. -/
inductive Outcome (α : Type) where
  | ret (a : α)
  | crash
  deriving DecidableEq, Repr

/-- A computation that issues provider calls: from the log so far to an
outcome and the extended log. -/
def M (α : Type) : Type := Trace → Outcome α × Trace

def M.pure {α : Type} (a : α) : M α := fun t => (.ret a, t)

def M.bind {α β : Type} (m : M α) (f : α → M β) : M β := fun t =>
  match m t with
  | (.ret a, t1) => f a t1
  | (.crash, t1) => (.crash, t1)

instance : Monad M where
  pure := M.pure
  bind := M.bind

/-- A run-time panic. -/
def crash {α : Type} : M α := fun t => (.crash, t)

/-- Issue one call on the EC2 client and log it with its answer. -/
def ec2 (v : Client) (c : Call) : M (Except Error c.Resp) := fun t =>
  (.ret (v.ec2Client.respond t c), t ++ [⟨c, v.ec2Client.respond t c⟩])

/-- Calls of a log, answers dropped. -/
def calls (t : Trace) : List Call := t.map Event.call

/-! ## vpc.go: DefaultSubnets -/

def DefaultSubnets (region : String) : List CreateSubnetOptions :=
  [ { AZ := region ++ "a", CIDR := "10.0.0.0/18", Public := false },
    { AZ := region ++ "b", CIDR := "10.0.64.0/18", Public := false },
    { AZ := region ++ "c", CIDR := "10.0.128.0/18", Public := false },
    { AZ := region ++ "a", CIDR := "10.0.192.0/20", Public := true },
    { AZ := region ++ "b", CIDR := "10.0.208.0/20", Public := true },
    { AZ := region ++ "c", CIDR := "10.0.224.0/20", Public := true } ]

/-! ## create.go -/

def userTags (opts : CreateOptions) : List Tag :=
  opts.Tags.map (fun kv => { Key := kv.1, Value := kv.2 })

/-- The tag list `lo.Flatten([defaultTags, extra, userTags(opts)])`. -/
def flattenTags (extra : List Tag) (opts : CreateOptions) : List Tag :=
  defaultTags ++ extra ++ userTags opts

def createVPC (v : Client) (opts : CreateOptions) : M (Option Vpc × Option Error) := do
  let r ← ec2 v (.CreateVpc opts.CIDR (flattenTags [⟨"Name", opts.Name⟩] opts))
  match r with
  | .error err => return (none, some err)
  | .ok vpcOut => return (some vpcOut, none)

/-- First loop of `createSubnets`: one `CreateSubnet` per spec entry; `outs`
is `subnetOutputs` so far.  The first failure ends the function. -/
def createSubnetsLoop (v : Client) (vpcID : String) (opts : CreateOptions) :
    List CreateSubnetOptions → List Subnet → M (Except Error (List Subnet))
  | [], outs => pure (.ok outs)
  | subnet :: rest, outs => do
    let subnetType := if subnet.Public then SubnetTypePublic else SubnetTypePrivate
    let r ← ec2 v (.CreateSubnet vpcID subnet.AZ subnet.CIDR
      (flattenTags [⟨"Name", opts.Name ++ "-" ++ subnet.AZ ++ "-" ++ subnetType⟩,
                    ⟨"Type", subnetType⟩] opts))
    match r with
    | .error err => return .error err
    | .ok subnetOutput =>
      let subnetOutput : Subnet :=
        if subnetType == SubnetTypePublic then
          { subnetOutput with MapPublicIpOnLaunch := true }
        else subnetOutput
      createSubnetsLoop v vpcID opts rest (outs ++ [subnetOutput])

/-- Second loop of `createSubnets`: look the spec entry up by the address
block the provider reported, and set the attribute on public subnets. -/
def modifySubnetsLoop (v : Client) (opts : CreateOptions) : List Subnet → M (Option Error)
  | [] => pure none
  | subnet :: rest => do
    match opts.Subnets.find? (fun subnetOpts => subnetOpts.CIDR == subnet.CidrBlock) with
    | none =>
      return some (.errorf ("unable to find SubnetCreationOptions for subnet " ++
        subnet.AvailabilityZone ++ " - " ++ subnet.CidrBlock))
    | some subnetOpts =>
      if subnetOpts.Public then
        let r ← ec2 v (.ModifySubnetAttribute subnet.SubnetId true)
        match r with
        | .error err => return some err
        | .ok _ => modifySubnetsLoop v opts rest
      else
        modifySubnetsLoop v opts rest

def createSubnets (v : Client) (vpcID : String) (opts : CreateOptions) :
    M (List Subnet × Option Error) := do
  let r ← createSubnetsLoop v vpcID opts opts.Subnets []
  match r with
  | .error err => return ([], some err)
  | .ok subnetOutputs =>
    let e ← modifySubnetsLoop v opts subnetOutputs
    match e with
    | some err => return ([], some err)
    | none => return (subnetOutputs, none)

/-- The Go `map[string]*types.RouteTable`, as its entries. -/
abbrev RouteTableMap := List (String × RouteTable)

/-- The Go map read `routeTables[key]`: `nil` when the key is missing. -/
def RouteTableMap.get (m : RouteTableMap) (key : String) : Option RouteTable :=
  (m.find? (fun kv => kv.1 == key)).map Prod.snd

/-- The Go map write `routeTables[key] = rt`. -/
def RouteTableMap.set (m : RouteTableMap) (key : String) (rt : RouteTable) : RouteTableMap :=
  m.filter (fun kv => !(kv.1 == key)) ++ [(key, rt)]

/-- One of the two loops of `createRouteTables` (they differ in the subnet
type only): at index 0 create the table and store it under `subnetType`, then
associate the subnet.  `i` is the loop index, `out` the `*CreateRouteTableOutput`
variable, `m` the map.  An error ends `createRouteTables` with a nil map. -/
def routeTableLoop (v : Client) (opts : CreateOptions) (subnetType : String) :
    Nat → List Subnet → Option RouteTable → RouteTableMap → M (Except Error RouteTableMap)
  | _, [], _, m => pure (.ok m)
  | i, subnet :: rest, out, m => do
    let r ← (if i == 0 then do
        let r ← ec2 v (.CreateRouteTable subnet.VpcId
          (flattenTags [⟨"Name", opts.Name ++ "-" ++ subnetType⟩] opts))
        match r with
        | .error err => return .error err
        | .ok rtOut => return .ok (some rtOut, m.set subnetType rtOut)
      else return .ok (out, m) : M (Except Error (Option RouteTable × RouteTableMap)))
    match r with
    | .error err => return .error err
    | .ok (out, m) =>
      match out with
      | none => crash
      | some routeTable =>
        let r ← ec2 v (.AssociateRouteTable routeTable.RouteTableId subnet.SubnetId)
        match r with
        | .error err => return .error err
        | .ok _ => routeTableLoop v opts subnetType (i + 1) rest (some routeTable) m

def createRouteTables (v : Client) (subnets : List Subnet) (opts : CreateOptions) :
    M (RouteTableMap × Option Error) := do
  let privateSubnets := subnets.filter (fun subnet => !subnet.MapPublicIpOnLaunch)
  let publicSubnets := subnets.filter (fun subnet => subnet.MapPublicIpOnLaunch)
  let r ← routeTableLoop v opts SubnetTypePublic 0 publicSubnets none []
  match r with
  | .error err => return ([], some err)
  | .ok routeTables =>
    let r ← routeTableLoop v opts SubnetTypePrivate 0 privateSubnets none routeTables
    match r with
    | .error err => return ([], some err)
    | .ok routeTables => return (routeTables, none)

def createNATGW (v : Client) (subnets : List Subnet) (routeTable : Option RouteTable)
    (opts : CreateOptions) : M (Option NatGateway × Option Error) := do
  let publicSubnets := subnets.filter (fun subnet => subnet.MapPublicIpOnLaunch)
  let r ← ec2 v (.AllocateAddress (flattenTags [⟨"Name", opts.Name⟩] opts))
  match r with
  | .error err => return (none, some err)
  | .ok eipOut =>
    match publicSubnets with
    | [] => crash
    | publicSubnet0 :: _ =>
      let r ← ec2 v (.CreateNatGateway eipOut.AllocationId publicSubnet0.SubnetId
        (flattenTags [⟨"Name", opts.Name⟩] opts))
      match r with
      | .error err => return (none, some err)
      | .ok natGWOut =>
        let r ← ec2 v (.WaitNatGatewayAvailable natGWOut.NatGatewayId)
        match r with
        | .error err => return (some natGWOut, some err)
        | .ok _ =>
          match routeTable with
          | none => crash
          | some routeTable =>
            let r ← ec2 v (.CreateRoute routeTable.RouteTableId "0.0.0.0/0" none
              (some natGWOut.NatGatewayId))
            match r with
            | .error err => return (none, some err)
            | .ok _ => return (some natGWOut, none)

def createIGW (v : Client) (vpcID : String) (routeTable : Option RouteTable)
    (opts : CreateOptions) : M (Option InternetGateway × Option Error) := do
  let r ← ec2 v (.CreateInternetGateway (flattenTags [⟨"Name", opts.Name⟩] opts))
  match r with
  | .error err => return (none, some err)
  | .ok igwOut =>
    let r ← ec2 v (.AttachInternetGateway igwOut.InternetGatewayId vpcID)
    match r with
    | .error err => return (none, some err)
    | .ok _ =>
      match routeTable with
      | none => crash
      | some routeTable =>
        let r ← ec2 v (.CreateRoute routeTable.RouteTableId "0.0.0.0/0"
          (some igwOut.InternetGatewayId) none)
        match r with
        | .error err => return (none, some err)
        | .ok _ => return (some igwOut, none)

/-! ## vpc.go: Create -/

/-- `lo.Values(routeTables)`.  Go visits a map in no fixed order; `rev` is the
order this run happens to take. -/
def loValues (rev : Bool) (m : RouteTableMap) : List RouteTable :=
  if rev then (m.map Prod.snd).reverse else m.map Prod.snd

/-- The first statement of `Create`: an empty subnet list is replaced by
`DefaultSubnets(v.cfg.Region)`. -/
def withDefaultSubnets (v : Client) (opts : CreateOptions) : CreateOptions :=
  if opts.Subnets.length == 0 then { opts with Subnets := DefaultSubnets v.Region } else opts

def Create (v : Client) (rev : Bool) (opts : CreateOptions) : M (Details × Option Error) := do
  let vpcDetails : Details := {}
  let opts : CreateOptions := withDefaultSubnets v opts
  let (vpc, err) ← createVPC v opts
  let vpcDetails := { vpcDetails with VPC := vpc }
  match err with
  | some err => return (vpcDetails, some err)
  | none =>
  match vpc with
  | none => crash
  | some vpc =>
  let (subnets, err) ← createSubnets v vpc.VpcId opts
  let vpcDetails := { vpcDetails with Subnets := subnets }
  match err with
  | some err => return (vpcDetails, some err)
  | none =>
  let (routeTables, err) ← createRouteTables v subnets opts
  let vpcDetails := { vpcDetails with RouteTables := loValues rev routeTables }
  match err with
  | some err => return (vpcDetails, some err)
  | none =>
  let (igw, err) ← createIGW v vpc.VpcId (routeTables.get SubnetTypePublic) opts
  let vpcDetails := { vpcDetails with InternetGateway := igw }
  match err with
  | some err => return (vpcDetails, some err)
  | none =>
  match igw with
  | none => crash
  | some _ =>
  let (natGW, err) ← createNATGW v subnets (routeTables.get SubnetTypePrivate) opts
  let vpcDetails := { vpcDetails with NATGateway := natGW }
  match err with
  | some err => return (vpcDetails, some err)
  | none =>
  match natGW with
  | none => crash
  | some _ => return (vpcDetails, none)

/-! ## get.go -/

/-- The filter `tag:CreatedBy = vpcctl` that every query carries. -/
def managedByFilter : Filter := ⟨"tag:" ++ CreatedByTagKey, [CreatedByTagValue]⟩

def getVPC (v : Client) (opts : GetOptions) : M (Option Vpc × Option Error) := do
  let r ← ec2 v (.DescribeVpcs
    [⟨"tag:Name", [opts.Name]⟩, managedByFilter])
  match r with
  | .error err => return (none, some err)
  | .ok vpcs =>
    match vpcs with
    | [] => return (none, some (.errorf ("VPC " ++ opts.Name ++ " not found")))
    | vpc0 :: _ => return (some vpc0, none)

def getSubnets (v : Client) (vpcID : String) (_ : GetOptions) :
    M (List Subnet × Option Error) := do
  let r ← ec2 v (.DescribeSubnets
    [⟨"vpc-id", [vpcID]⟩, managedByFilter])
  match r with
  | .error err => return ([], some err)
  | .ok subnets => return (subnets, none)

def getRouteTables (v : Client) (vpcID : String) (_ : GetOptions) :
    M (List RouteTable × Option Error) := do
  let r ← ec2 v (.DescribeRouteTables
    [⟨"vpc-id", [vpcID]⟩, managedByFilter])
  match r with
  | .error err => return ([], some err)
  | .ok routeTables => return (routeTables, none)

def getIGW (v : Client) (vpcID : String) (_ : GetOptions) :
    M (Option InternetGateway × Option Error) := do
  let r ← ec2 v (.DescribeInternetGateways
    [⟨"attachment.vpc-id", [vpcID]⟩, managedByFilter])
  match r with
  | .error err => return (none, some err)
  | .ok igws =>
    match igws with
    | [] => return (none, none)
    | igw0 :: _ => return (some igw0, none)

def getNATGW (v : Client) (vpcID : String) (_ : GetOptions) :
    M (Option NatGateway × Option Error) := do
  let r ← ec2 v (.DescribeNatGateways
    [⟨"vpc-id", [vpcID]⟩, managedByFilter])
  match r with
  | .error err => return (none, some err)
  | .ok natGWs =>
    match natGWs with
    | [] => return (none, none)
    | natGW0 :: _ => return (some natGW0, none)

/-! ## vpc.go: Get -/

def Get (v : Client) (opts : GetOptions) : M (Details × Option Error) := do
  let vpcDetails : Details := {}
  let (vpc, err) ← getVPC v opts
  let vpcDetails := { vpcDetails with VPC := vpc }
  match err with
  | some err => return (vpcDetails, some err)
  | none =>
  match vpc with
  | none => crash
  | some vpc =>
  let (subnets, err) ← getSubnets v vpc.VpcId opts
  let vpcDetails := { vpcDetails with Subnets := subnets }
  match err with
  | some err => return (vpcDetails, some err)
  | none =>
  let (routeTables, err) ← getRouteTables v vpc.VpcId opts
  let vpcDetails := { vpcDetails with RouteTables := routeTables }
  match err with
  | some err => return (vpcDetails, some err)
  | none =>
  let (igw, err) ← getIGW v vpc.VpcId opts
  let vpcDetails := { vpcDetails with InternetGateway := igw }
  match err with
  | some err => return (vpcDetails, some err)
  | none =>
  let (natGW, err) ← getNATGW v vpc.VpcId opts
  let vpcDetails := { vpcDetails with NATGateway := natGW }
  match err with
  | some err => return (vpcDetails, some err)
  | none => return (vpcDetails, none)

/-! ## delete.go -/

/-- The Go test `strings.HasPrefix(s, p)`. -/
def stringsHasPrefix (s p : String) : Bool := p.data.isPrefixOf s.data

/-- The `ReleaseAddress` loop of `deleteNATGW`. -/
def releaseAddressLoop (v : Client) : List NatGatewayAddress → M (Option Error)
  | [] => pure none
  | eipAllocation :: rest => do
    let r ← ec2 v (.ReleaseAddress eipAllocation.AllocationId)
    match r with
    | .error err => return some err
    | .ok _ => releaseAddressLoop v rest

def deleteNATGW (v : Client) (vpcDetails : Details) (_ : DeleteOptions) : M (Option Error) := do
  match vpcDetails.NATGateway with
  | none => crash
  | some natGW =>
    let r ← ec2 v (.DeleteNatGateway natGW.NatGatewayId)
    match r with
    | .error err => return some err
    | .ok _ =>
      let r ← ec2 v (.WaitNatGatewayDeleted natGW.NatGatewayId)
      match r with
      | .error err => return some err
      | .ok _ => releaseAddressLoop v natGW.NatGatewayAddresses

def deleteIGW (v : Client) (vpcDetails : Details) (_ : DeleteOptions) : M (Option Error) := do
  match vpcDetails.InternetGateway, vpcDetails.VPC with
  | some igw, some vpc =>
    let r ← ec2 v (.DetachInternetGateway igw.InternetGatewayId vpc.VpcId)
    match r with
    | .error err => return some err
    | .ok _ =>
      let r ← ec2 v (.DeleteInternetGateway igw.InternetGatewayId)
      match r with
      | .error err => return some err
      | .ok _ => return none
  | _, _ => crash

/-- The loop over `rt.Routes` in `deleteRouteTables`. -/
def deleteRoutesLoop (v : Client) (rt : RouteTable) : List Route → M (Option Error)
  | [] => pure none
  | route :: rest => do
    let isIgw := match route.GatewayId with
      | none => false
      | some gatewayId => stringsHasPrefix gatewayId "igw-"
    if isIgw then
      let r ← ec2 v (.DeleteRoute rt.RouteTableId route.DestinationCidrBlock)
      match r with
      | .error err => return some err
      | .ok _ => deleteRoutesLoop v rt rest
    else
      deleteRoutesLoop v rt rest

/-- The loop over `rt.Associations` in `deleteRouteTables`. -/
def disassociateLoop (v : Client) : List RouteTableAssociation → M (Option Error)
  | [] => pure none
  | association :: rest => do
    let r ← ec2 v (.DisassociateRouteTable association.RouteTableAssociationId)
    match r with
    | .error err => return some err
    | .ok _ => disassociateLoop v rest

/-- The loop over `vpcDetails.RouteTables` in `deleteRouteTables`. -/
def deleteRouteTablesLoop (v : Client) : List RouteTable → M (Option Error)
  | [] => pure none
  | rt :: rest => do
    let e ← deleteRoutesLoop v rt rt.Routes
    match e with
    | some err => return some err
    | none =>
      let e ← disassociateLoop v rt.Associations
      match e with
      | some err => return some err
      | none =>
        let r ← ec2 v (.DeleteRouteTable rt.RouteTableId)
        match r with
        | .error err => return some err
        | .ok _ => deleteRouteTablesLoop v rest

def deleteRouteTables (v : Client) (vpcDetails : Details) (_ : DeleteOptions) :
    M (Option Error) :=
  deleteRouteTablesLoop v vpcDetails.RouteTables

/-- The loop of `deleteSubnets`. -/
def deleteSubnetsLoop (v : Client) : List Subnet → M (Option Error)
  | [] => pure none
  | subnet :: rest => do
    let r ← ec2 v (.DeleteSubnet subnet.SubnetId)
    match r with
    | .error err => return some err
    | .ok _ => deleteSubnetsLoop v rest

def deleteSubnets (v : Client) (vpcDetails : Details) (_ : DeleteOptions) : M (Option Error) :=
  deleteSubnetsLoop v vpcDetails.Subnets

def deleteVPC (v : Client) (vpcDetails : Details) (_ : DeleteOptions) : M (Option Error) := do
  match vpcDetails.VPC with
  | none => crash
  | some vpc =>
    let r ← ec2 v (.DeleteVpc vpc.VpcId)
    match r with
    | .error err => return some err
    | .ok _ => return none

/-! ## vpc.go: Delete -/

def Delete (v : Client) (opts : DeleteOptions) : M (Details × Option Error) := do
  let (vpcDetails, err) ← Get v { Name := opts.Name }
  match err with
  | some err => return (vpcDetails, some err)
  | none =>
  let e ← (if vpcDetails.NATGateway.isSome then deleteNATGW v vpcDetails opts else pure none)
  match e with
  | some err => return (vpcDetails, some err)
  | none =>
  let e ← (if vpcDetails.InternetGateway.isSome then deleteIGW v vpcDetails opts else pure none)
  match e with
  | some err => return (vpcDetails, some err)
  | none =>
  let e ← (if vpcDetails.RouteTables.length != 0 then deleteRouteTables v vpcDetails opts
    else pure none)
  match e with
  | some err => return (vpcDetails, some err)
  | none =>
  let e ← (if vpcDetails.Subnets.length != 0 then deleteSubnets v vpcDetails opts else pure none)
  match e with
  | some err => return (vpcDetails, some err)
  | none =>
  let e ← (if vpcDetails.VPC.isSome then deleteVPC v vpcDetails opts else pure none)
  match e with
  | some err => return (vpcDetails, some err)
  | none => return (vpcDetails, none)

/-! ## Example providers -/

/-- What the describe queries of an example provider report. -/
structure World where
  vpcs : List Vpc := []
  subnets : List Subnet := []
  routeTables : List RouteTable := []
  igws : List InternetGateway := []
  natGWs : List NatGateway := []

def demoVpc : Vpc :=
  { VpcId := "vpc-1", CidrBlock := "10.0.0.0/16",
    Tags := [⟨"CreatedBy", "vpcctl"⟩, ⟨"Name", "demo"⟩] }

def demoSubnets : List Subnet :=
  [ { SubnetId := "subnet-a", VpcId := some "vpc-1", AvailabilityZone := "us-west-2a",
      CidrBlock := "10.0.0.0/18", MapPublicIpOnLaunch := false },
    { SubnetId := "subnet-b", VpcId := some "vpc-1", AvailabilityZone := "us-west-2a",
      CidrBlock := "10.0.192.0/20", MapPublicIpOnLaunch := true } ]

def demoRouteTables : List RouteTable :=
  [ { RouteTableId := "rtb-pub", VpcId := some "vpc-1",
      Routes := [ { DestinationCidrBlock := some "10.0.0.0/16", GatewayId := some "local" },
                  { DestinationCidrBlock := some "0.0.0.0/0", GatewayId := some "igw-1" } ],
      Associations := [ { RouteTableAssociationId := some "rtbassoc-b",
                          SubnetId := some "subnet-b" } ] },
    { RouteTableId := "rtb-priv", VpcId := some "vpc-1",
      Routes := [ { DestinationCidrBlock := some "10.0.0.0/16", GatewayId := some "local" },
                  { DestinationCidrBlock := some "0.0.0.0/0", NatGatewayId := some "nat-1" } ],
      Associations := [ { RouteTableAssociationId := some "rtbassoc-a",
                          SubnetId := some "subnet-a" } ] } ]

def demoIGW : InternetGateway := { InternetGatewayId := "igw-1" }

def demoNATGW : NatGateway :=
  { NatGatewayId := "nat-1", SubnetId := some "subnet-b", VpcId := some "vpc-1",
    NatGatewayAddresses := [ { AllocationId := some "eipalloc-1" } ] }

/-- A network named `demo` with two subnets, two route tables and both
gateways. -/
def demoWorld : World :=
  { vpcs := [demoVpc], subnets := demoSubnets, routeTables := demoRouteTables,
    igws := [demoIGW], natGWs := [demoNATGW] }

/-- The network `demo` with its subnets and route tables, and no gateway. -/
def bareWorld : World :=
  { vpcs := [demoVpc], subnets := demoSubnets, routeTables := demoRouteTables }

/-- Two networks that both carry the name `demo`. -/
def twinWorld : World :=
  { vpcs := [{ demoVpc with VpcId := "vpc-2" }, demoVpc], subnets := demoSubnets }

/-- A provider on which every call succeeds.  `echo` says whether a created
subnet reports the address block that was asked for (otherwise the provider
reports the block in its own spelling, prefixed with `canon:`), and `launch`
is the public-IP-on-launch attribute it reports on a created subnet.  The
describe queries report `w`; the network query reports the networks of `w`
when asked for the name `demo` and none for any other name. -/
def okProvider (echo launch : Bool) (w : World) : Provider where
  respond := fun _ c =>
    match c with
    | .CreateVpc cidr tags => .ok ({ VpcId := "vpc-1", CidrBlock := cidr, Tags := tags } : Vpc)
    | .CreateSubnet vpcId az cidr tags =>
      .ok ({ SubnetId := "subnet-" ++ cidr, VpcId := some vpcId, AvailabilityZone := az,
             CidrBlock := if echo then cidr else "canon:" ++ cidr,
             MapPublicIpOnLaunch := launch, Tags := tags } : Subnet)
    | .CreateRouteTable vpcId tags =>
      .ok ({ RouteTableId := "rtb-" ++ (tags.map Tag.Value).foldl (· ++ ·) "",
             VpcId := vpcId, Tags := tags } : RouteTable)
    | .CreateInternetGateway tags =>
      .ok ({ InternetGatewayId := "igw-1", Tags := tags } : InternetGateway)
    | .AllocateAddress _ => .ok ({ AllocationId := some "eipalloc-1" } : AllocateAddressOutput)
    | .CreateNatGateway alloc subnetId tags =>
      .ok ({ NatGatewayId := "nat-1", SubnetId := some subnetId,
             NatGatewayAddresses := [{ AllocationId := alloc }], Tags := tags } : NatGateway)
    | .DescribeVpcs filters =>
      .ok (match filters with
        | ⟨_, [name]⟩ :: _ => if name == "demo" then w.vpcs else []
        | _ => [])
    | .DescribeSubnets _ => .ok w.subnets
    | .DescribeRouteTables _ => .ok w.routeTables
    | .DescribeInternetGateways _ => .ok w.igws
    | .DescribeNatGateways _ => .ok w.natGWs
    | .ModifySubnetAttribute _ _ => .ok ()
    | .AssociateRouteTable _ _ => .ok ()
    | .AttachInternetGateway _ _ => .ok ()
    | .CreateRoute _ _ _ _ => .ok ()
    | .WaitNatGatewayAvailable _ => .ok ()
    | .DeleteNatGateway _ => .ok ()
    | .WaitNatGatewayDeleted _ => .ok ()
    | .ReleaseAddress _ => .ok ()
    | .DetachInternetGateway _ _ => .ok ()
    | .DeleteInternetGateway _ => .ok ()
    | .DeleteRoute _ _ => .ok ()
    | .DisassociateRouteTable _ => .ok ()
    | .DeleteRouteTable _ => .ok ()
    | .DeleteSubnet _ => .ok ()
    | .DeleteVpc _ => .ok ()

/-- The provider `P`, except that the `n`-th call it is asked (counting from
0, over the whole log) and every later one is rejected with `err`. -/
def failFrom (n : Nat) (err : Error) (P : Provider) : Provider where
  respond := fun t c => if t.length < n then P.respond t c else .error err

/-- A spec with one private and one public subnet. -/
def demoOptions : CreateOptions :=
  { Name := "demo", CIDR := "10.0.0.0/16",
    Subnets := [ { AZ := "us-west-2a", CIDR := "10.0.0.0/18", Public := false },
                 { AZ := "us-west-2a", CIDR := "10.0.192.0/20", Public := true } ] }

/-- A spec whose only subnet is private. -/
def privateOnlyOptions : CreateOptions :=
  { Name := "demo", CIDR := "10.0.0.0/16",
    Subnets := [ { AZ := "us-west-2a", CIDR := "10.0.0.0/18", Public := false } ] }

/-- A spec whose only subnet is public. -/
def publicOnlyOptions : CreateOptions :=
  { Name := "demo", CIDR := "10.0.0.0/16",
    Subnets := [ { AZ := "us-west-2a", CIDR := "10.0.192.0/20", Public := true } ] }

/-- The network `okProvider` reports for `CreateVpc` on `demoOptions`. -/
def createdVpc : Vpc :=
  { VpcId := "vpc-1", CidrBlock := "10.0.0.0/16",
    Tags := [⟨"CreatedBy", "vpcctl"⟩, ⟨"Name", "demo"⟩] }

/-- The private subnet `okProvider true false` reports for `demoOptions`. -/
def createdPrivateSubnet : Subnet :=
  { SubnetId := "subnet-10.0.0.0/18", VpcId := some "vpc-1", AvailabilityZone := "us-west-2a",
    CidrBlock := "10.0.0.0/18", MapPublicIpOnLaunch := false,
    Tags := [⟨"CreatedBy", "vpcctl"⟩, ⟨"Name", "demo-us-west-2a-PRIVATE"⟩, ⟨"Type", "PRIVATE"⟩] }

/-- The public subnet `okProvider true false` reports for `demoOptions`, before
`createSubnets` sets its public-IP-on-launch attribute. -/
def createdPublicSubnet : Subnet :=
  { SubnetId := "subnet-10.0.192.0/20", VpcId := some "vpc-1", AvailabilityZone := "us-west-2a",
    CidrBlock := "10.0.192.0/20", MapPublicIpOnLaunch := false,
    Tags := [⟨"CreatedBy", "vpcctl"⟩, ⟨"Name", "demo-us-west-2a-PUBLIC"⟩, ⟨"Type", "PUBLIC"⟩] }

/-- The route table `okProvider` reports for the partition `subnetType` of
`demoOptions`. -/
def createdRouteTable (subnetType : String) : RouteTable :=
  { RouteTableId := "rtb-vpcctldemo-" ++ subnetType, VpcId := some "vpc-1",
    Tags := [⟨"CreatedBy", "vpcctl"⟩, ⟨"Name", "demo-" ++ subnetType⟩] }

/-- The internet gateway `okProvider` reports for `demoOptions`. -/
def createdIGW : InternetGateway :=
  { InternetGatewayId := "igw-1", Tags := [⟨"CreatedBy", "vpcctl"⟩, ⟨"Name", "demo"⟩] }

/-- The NAT gateway `okProvider` reports for `demoOptions`, placed in the
public subnet. -/
def createdNATGW : NatGateway :=
  { NatGatewayId := "nat-1", SubnetId := some "subnet-10.0.192.0/20",
    NatGatewayAddresses := [{ AllocationId := some "eipalloc-1" }],
    Tags := [⟨"CreatedBy", "vpcctl"⟩, ⟨"Name", "demo"⟩] }

/-- A client in `us-west-2` on the provider `P`. -/
def clientOf (P : Provider) : Client := { Region := "us-west-2", ec2Client := P }

/-! ## Vocabulary of the statements -/

/-- The logged event of a call that succeeded with descriptor `r`. -/
def Event.ok (c : Call) (r : c.Resp) : Event := ⟨c, .ok r⟩

/-- The logged event of a call that was rejected with `e`. -/
def Event.failed (c : Call) (e : Error) : Event := ⟨c, .error e⟩

/-- Starting from the log `t`, the provider answers the calls of `evs`, asked
one after the other, with the results recorded in `evs`. -/
def Answers (v : Client) : Trace → List Event → Prop
  | _, [] => True
  | t, ev :: rest => v.ec2Client.respond t ev.call = ev.result ∧ Answers v (t ++ [ev]) rest

/-- The network query of `getVPC`. -/
abbrev queryVpcs (name : String) : Call :=
  .DescribeVpcs [⟨"tag:Name", [name]⟩, managedByFilter]

/-- The subnet query of `getSubnets`. -/
abbrev querySubnets (vpcID : String) : Call :=
  .DescribeSubnets [⟨"vpc-id", [vpcID]⟩, managedByFilter]

/-- The route-table query of `getRouteTables`. -/
abbrev queryRouteTables (vpcID : String) : Call :=
  .DescribeRouteTables [⟨"vpc-id", [vpcID]⟩, managedByFilter]

/-- The internet-gateway query of `getIGW`. -/
abbrev queryIGWs (vpcID : String) : Call :=
  .DescribeInternetGateways [⟨"attachment.vpc-id", [vpcID]⟩, managedByFilter]

/-- The NAT-gateway query of `getNATGW`. -/
abbrev queryNATGWs (vpcID : String) : Call :=
  .DescribeNatGateways [⟨"vpc-id", [vpcID]⟩, managedByFilter]

/-- The `CreateVpc` call of `createVPC`. -/
abbrev createVpcCall (opts : CreateOptions) : Call :=
  .CreateVpc opts.CIDR (flattenTags [⟨"Name", opts.Name⟩] opts)

/-- `PUBLIC` or `PRIVATE`, the classification of a spec entry. -/
def CreateSubnetOptions.subnetType (subnet : CreateSubnetOptions) : String :=
  if subnet.Public then SubnetTypePublic else SubnetTypePrivate

/-- The `CreateSubnet` call that `createSubnets` issues for a spec entry. -/
abbrev createSubnetCall (opts : CreateOptions) (vpcID : String) (subnet : CreateSubnetOptions) :
    Call :=
  .CreateSubnet vpcID subnet.AZ subnet.CIDR
    (flattenTags [⟨"Name", opts.Name ++ "-" ++ subnet.AZ ++ "-" ++ subnet.subnetType⟩,
                  ⟨"Type", subnet.subnetType⟩] opts)

/-- The `CreateRouteTable` call for the table of one partition. -/
abbrev createRouteTableCall (opts : CreateOptions) (subnetType : String) (vpcId : Option String) :
    Call :=
  .CreateRouteTable vpcId (flattenTags [⟨"Name", opts.Name ++ "-" ++ subnetType⟩] opts)

/-- The successful `CreateSubnet` events for the spec entries `specs`, answered
with the descriptors `outs`, in order. -/
def subnetEvents (opts : CreateOptions) (vpcID : String) :
    List CreateSubnetOptions → List Subnet → List Event
  | subnet :: specs, out :: outs =>
    Event.ok (createSubnetCall opts vpcID subnet) out :: subnetEvents opts vpcID specs outs
  | _, _ => []

/-- The subnets `createSubnets` records: the provider's descriptors, with
public-IP-on-launch set on those created for a public spec entry. -/
def recordedSubnets : List CreateSubnetOptions → List Subnet → List Subnet
  | subnet :: specs, out :: outs =>
    (if subnet.Public then { out with MapPublicIpOnLaunch := true } else out) ::
      recordedSubnets specs outs
  | _, _ => []

/-- The spec entry `createSubnets` takes for a created subnet: the first one
with the address block the provider reported. -/
def specOf (opts : CreateOptions) (subnet : Subnet) : Option CreateSubnetOptions :=
  opts.Subnets.find? (fun subnetOpts => subnetOpts.CIDR == subnet.CidrBlock)

/-- Whether the second pass of `createSubnets` modifies the subnet. -/
def needsModify (opts : CreateOptions) (subnet : Subnet) : Bool :=
  match specOf opts subnet with
  | some subnetOpts => subnetOpts.Public
  | none => false

/-- The successful `ModifySubnetAttribute` events of the second pass. -/
def modifyEvents (opts : CreateOptions) (subnets : List Subnet) : List Event :=
  (subnets.filter (needsModify opts)).map
    (fun subnet => Event.ok (.ModifySubnetAttribute subnet.SubnetId true) ())

/-- The successful events for one partition `subnets` served by the created
table `rt`: nothing for an empty partition, otherwise `CreateRouteTable` and
one `AssociateRouteTable` per subnet. -/
def tableEvents (opts : CreateOptions) (subnetType : String) (rt : RouteTable) :
    List Subnet → List Event
  | [] => []
  | subnet :: rest =>
    Event.ok (createRouteTableCall opts subnetType subnet.VpcId) rt ::
      (subnet :: rest).map
        (fun s => Event.ok (.AssociateRouteTable rt.RouteTableId s.SubnetId) ())

/-- The map `createRouteTables` returns when the tables `rtPublic` and
`rtPrivate` were created for the non-empty partitions. -/
def tablesOf (subnets : List Subnet) (rtPublic rtPrivate : RouteTable) : RouteTableMap :=
  (if (subnets.filter (fun s => s.MapPublicIpOnLaunch)).isEmpty then []
    else [(SubnetTypePublic, rtPublic)]) ++
  (if (subnets.filter (fun s => !s.MapPublicIpOnLaunch)).isEmpty then []
    else [(SubnetTypePrivate, rtPrivate)])

/-- The successful events of the internet-gateway step. -/
def igwEvents (opts : CreateOptions) (vpcID : String) (rtPublic : RouteTable)
    (igw : InternetGateway) : List Event :=
  [Event.ok (.CreateInternetGateway (flattenTags [⟨"Name", opts.Name⟩] opts)) igw,
    Event.ok (.AttachInternetGateway igw.InternetGatewayId vpcID) (),
    Event.ok (.CreateRoute rtPublic.RouteTableId "0.0.0.0/0" (some igw.InternetGatewayId) none) ()]

/-- The successful events of the NAT-gateway step, with the gateway placed
in `publicSubnet`. -/
def natEvents (opts : CreateOptions) (publicSubnet : Subnet) (rtPrivate : RouteTable)
    (eip : AllocateAddressOutput) (natGW : NatGateway) : List Event :=
  [Event.ok (.AllocateAddress (flattenTags [⟨"Name", opts.Name⟩] opts)) eip,
    Event.ok (.CreateNatGateway eip.AllocationId publicSubnet.SubnetId
      (flattenTags [⟨"Name", opts.Name⟩] opts)) natGW,
    Event.ok (.WaitNatGatewayAvailable natGW.NatGatewayId) (),
    Event.ok (.CreateRoute rtPrivate.RouteTableId "0.0.0.0/0" none
      (some natGW.NatGatewayId)) ()]

/-- Reference: the events of a `Create` run on which every call succeeds, in
the order the specification prescribes: the network; one subnet per spec
entry; the attribute modifications; the public table with its associations
and the private table with its associations; the internet gateway, its
attachment and the default route of the public table; the address, the NAT
gateway in the public subnet `publicSubnet`, the availability wait and the
default route of the private table. -/
def createEvents (opts : CreateOptions) (vpc : Vpc) (outs : List Subnet)
    (rtPublic rtPrivate : RouteTable) (igw : InternetGateway) (eip : AllocateAddressOutput)
    (natGW : NatGateway) (publicSubnet : Subnet) : List Event :=
  [Event.ok (createVpcCall opts) vpc] ++
  (subnetEvents opts vpc.VpcId opts.Subnets outs ++
  (modifyEvents opts (recordedSubnets opts.Subnets outs) ++
  (tableEvents opts SubnetTypePublic rtPublic
    ((recordedSubnets opts.Subnets outs).filter (fun s => s.MapPublicIpOnLaunch)) ++
  (tableEvents opts SubnetTypePrivate rtPrivate
    ((recordedSubnets opts.Subnets outs).filter (fun s => !s.MapPublicIpOnLaunch)) ++
  (igwEvents opts vpc.VpcId rtPublic igw ++
  natEvents opts publicSubnet rtPrivate eip natGW)))))

/-- Whether the logged call succeeded. -/
def Event.succeeded (ev : Event) : Bool :=
  match ev.result with
  | .ok _ => true
  | .error _ => false

/-- The calls that remove or release something, and the deletion wait. -/
def Call.isDeletion : Call → Bool
  | .DeleteNatGateway _ => true
  | .WaitNatGatewayDeleted _ => true
  | .ReleaseAddress _ => true
  | .DetachInternetGateway _ _ => true
  | .DeleteInternetGateway _ => true
  | .DeleteRoute _ _ => true
  | .DisassociateRouteTable _ => true
  | .DeleteRouteTable _ => true
  | .DeleteSubnet _ => true
  | .DeleteVpc _ => true
  | _ => false

/-- Whether a route points at an internet gateway: its gateway id starts
with `igw-`. -/
def Route.targetsIGW (route : Route) : Bool :=
  match route.GatewayId with
  | none => false
  | some gatewayId => stringsHasPrefix gatewayId "igw-"

/-- Reference: the calls that tear one route table down, as the
specification lists them: one `DeleteRoute` per route to an internet gateway,
one `DisassociateRouteTable` per association, then `DeleteRouteTable`. -/
def routeTableTeardown (rt : RouteTable) : List Call :=
  (rt.Routes.filter Route.targetsIGW).map
      (fun route => Call.DeleteRoute rt.RouteTableId route.DestinationCidrBlock) ++
    rt.Associations.map
      (fun association => Call.DisassociateRouteTable association.RouteTableAssociationId) ++
    [Call.DeleteRouteTable rt.RouteTableId]

/-- Reference: the deletion sequence the specification prescribes for a
discovered `Details` whose network has id `vpcId`: NAT gateway (delete, wait,
release each address), internet gateway (detach, delete), route tables,
subnets, network.  An absent field contributes nothing. -/
def deleteCallsSpec (d : Details) (vpcId : String) : List Call :=
  (match d.NATGateway with
    | some natGW =>
      [Call.DeleteNatGateway natGW.NatGatewayId, Call.WaitNatGatewayDeleted natGW.NatGatewayId] ++
        natGW.NatGatewayAddresses.map (fun a => Call.ReleaseAddress a.AllocationId)
    | none => []) ++
  ((match d.InternetGateway with
    | some igw =>
      [Call.DetachInternetGateway igw.InternetGatewayId vpcId,
        Call.DeleteInternetGateway igw.InternetGatewayId]
    | none => []) ++
  (d.RouteTables.flatMap routeTableTeardown ++
  (d.Subnets.map (fun subnet => Call.DeleteSubnet subnet.SubnetId) ++
  [Call.DeleteVpc vpcId])))

/-- Reference: issue the calls one after the other and stop at the first one
the provider rejects, handing its error back. -/
def issueAll (v : Client) : List Call → M (Option Error)
  | [] => pure none
  | c :: rest => do
    let r ← ec2 v c
    match r with
    | .error err => return some err
    | .ok _ => issueAll v rest

/-! ## vpc.go: List -/

/-- `Client.List`: the names of the managed networks.  `lo.Find` takes the
first tag whose key is `Name`, a network without one maps to the empty string,
and `lo.Compact` then drops every empty string. -/
def Client.List (v : Client) : M (List String × Option Error) := do
  let r ← ec2 v (.DescribeVpcs [managedByFilter, ⟨"tag-key", ["Name"]⟩])
  match r with
  | .error err => return ([], some err)
  | .ok vpcs =>
    return ((vpcs.map (fun vpc =>
        match vpc.Tags.find? (fun tag => tag.Key == "Name") with
        | some tag => tag.Value
        | none => "")).filter (fun name => name != ""), none)

/-- The managed-networks query of `List`. -/
abbrev queryManaged : Call :=
  .DescribeVpcs [managedByFilter, ⟨"tag-key", ["Name"]⟩]

/-- The value of the `Name` tag of a network, when it has one. -/
def nameTag (vpc : Vpc) : Option String :=
  (vpc.Tags.find? (fun tag => tag.Key == "Name")).map Tag.Value

/-- Reference: the names `List` reports for the networks `vpcs`: the value
of the `Name` tag of each network that has one with a non-empty value, in
order. -/
def listedNames (vpcs : List Vpc) : List String :=
  vpcs.filterMap (fun vpc => (nameTag vpc).filter (fun name => name != ""))

/-- A provider that answers every network query with `vpcs` and every other
call like `okProvider`. -/
def vpcsProvider (vpcs : List Vpc) : Provider where
  respond := fun t c =>
    match c with
    | .DescribeVpcs _ => .ok vpcs
    | c => (okProvider true false {}).respond t c

/-! ## Address blocks -/

/-- A decimal numeral: at least one digit, nothing else. -/
def parseDecimal (cs : List Char) : Option Nat :=
  if cs.isEmpty || !cs.all Char.isDigit then none
  else some (cs.foldl (fun n c => 10 * n + (c.toNat - '0'.toNat)) 0)

/-- Split a character list at every occurrence of `sep`. -/
def splitAt (sep : Char) : List Char → List (List Char)
  | [] => [[]]
  | c :: cs =>
    if c == sep then [] :: splitAt sep cs
    else
      match splitAt sep cs with
      | [] => [[c]]
      | part :: parts => (c :: part) :: parts

/-- A dotted-quad IPv4 address as a number below `2^32`. -/
def parseIPv4 (cs : List Char) : Option Nat :=
  match (splitAt '.' cs).map parseDecimal with
  | [some a, some b, some c, some d] =>
    if a < 256 && b < 256 && c < 256 && d < 256 then
      some (((a * 256 + b) * 256 + c) * 256 + d)
    else none
  | _ => none

/-- An address block `a.b.c.d/len` as (address, prefix length). -/
def parseCIDR (s : String) : Option (Nat × Nat) :=
  match splitAt '/' s.data with
  | [addr, len] =>
    match parseIPv4 addr, parseDecimal len with
    | some a, some l => if l ≤ 32 then some (a, l) else none
    | _, _ => none
  | _ => none

/-- The addresses of a block, as the half-open range `[lo, hi)`: those that
share the first `len` bits with the block's address. -/
def cidrRange (s : String) : Option (Nat × Nat) :=
  (parseCIDR s).map (fun p =>
    (p.1 - p.1 % 2 ^ (32 - p.2), p.1 - p.1 % 2 ^ (32 - p.2) + 2 ^ (32 - p.2)))

/-- Both strings are address blocks and they share no address. -/
def cidrDisjoint (a b : String) : Bool :=
  match cidrRange a, cidrRange b with
  | some (lo1, hi1), some (lo2, hi2) => hi1 ≤ lo2 || hi2 ≤ lo1
  | _, _ => false

/-- Both strings are address blocks and every address of `a` is in `b`. -/
def cidrWithin (a b : String) : Bool :=
  match cidrRange a, cidrRange b with
  | some (lo1, hi1), some (lo2, hi2) => lo2 ≤ lo1 && hi1 ≤ hi2
  | _, _ => false

/-! ## Vocabulary: what every issued call looks like -/

/-- Every call the computation issues, from whatever log and whatever the
provider answers, satisfies `Q`; the log is only ever extended. -/
def Issues {α : Type} (Q : Call → Prop) (m : M α) : Prop :=
  ∀ t, ∃ evs, (m t).2 = t ++ evs ∧ ∀ ev ∈ evs, Q ev.call

/-- The tag list holds the pair `key = value`. -/
def hasTag (tags : List Tag) (key value : String) : Bool :=
  tags.any (fun tag => tag.Key == key && tag.Value == value)

/-- The tag list holds some tag with the key `key`. -/
def hasTagKey (tags : List Tag) (key : String) : Bool :=
  tags.any (fun tag => tag.Key == key)

/-- The shape of the calls `Create` issues for the options `o`: the tag list
of each creating call is `defaultTags`, then the tags of its kind, then the
user tags. -/
def Prescribed (o : CreateOptions) : Call → Prop
  | .CreateVpc cidr tags => cidr = o.CIDR ∧ tags = flattenTags [⟨"Name", o.Name⟩] o
  | .CreateSubnet _ az cidr tags =>
    ∃ sn ∈ o.Subnets, az = sn.AZ ∧ cidr = sn.CIDR ∧
      tags = flattenTags [⟨"Name", o.Name ++ "-" ++ sn.AZ ++ "-" ++ sn.subnetType⟩,
        ⟨"Type", sn.subnetType⟩] o
  | .CreateRouteTable _ tags =>
    tags = flattenTags [⟨"Name", o.Name ++ "-" ++ SubnetTypePublic⟩] o ∨
    tags = flattenTags [⟨"Name", o.Name ++ "-" ++ SubnetTypePrivate⟩] o
  | .CreateInternetGateway tags => tags = flattenTags [⟨"Name", o.Name⟩] o
  | .AllocateAddress tags => tags = flattenTags [⟨"Name", o.Name⟩] o
  | .CreateNatGateway _ _ tags => tags = flattenTags [⟨"Name", o.Name⟩] o
  | .ModifySubnetAttribute _ value => value = true
  | .CreateRoute _ dest _ _ => dest = "0.0.0.0/0"
  | .AssociateRouteTable _ _ => True
  | .AttachInternetGateway _ _ => True
  | .WaitNatGatewayAvailable _ => True
  | _ => False

/-- What C15 can say of a call: a creating call carries the managed-by tag
and a `Name` tag; the value is `name` for network, gateways and address,
`name-AZ-TYPE` for a subnet, `name-TYPE` for a route table. -/
def NameTagged (name : String) : Call → Prop
  | .CreateVpc _ tags =>
    hasTag tags CreatedByTagKey CreatedByTagValue = true ∧ hasTag tags "Name" name = true
  | .CreateInternetGateway tags =>
    hasTag tags CreatedByTagKey CreatedByTagValue = true ∧ hasTag tags "Name" name = true
  | .AllocateAddress tags =>
    hasTag tags CreatedByTagKey CreatedByTagValue = true ∧ hasTag tags "Name" name = true
  | .CreateNatGateway _ _ tags =>
    hasTag tags CreatedByTagKey CreatedByTagValue = true ∧ hasTag tags "Name" name = true
  | .CreateSubnet _ az _ tags =>
    hasTag tags CreatedByTagKey CreatedByTagValue = true ∧
      (hasTag tags "Name" (name ++ "-" ++ az ++ "-" ++ SubnetTypePublic) = true ∨
       hasTag tags "Name" (name ++ "-" ++ az ++ "-" ++ SubnetTypePrivate) = true)
  | .CreateRouteTable _ tags =>
    hasTag tags CreatedByTagKey CreatedByTagValue = true ∧
      (hasTag tags "Name" (name ++ "-" ++ SubnetTypePublic) = true ∨
       hasTag tags "Name" (name ++ "-" ++ SubnetTypePrivate) = true)
  | _ => True

/-- What C16 can say of a call: a `CreateSubnet` call is for a spec entry of
`o` and carries that entry's classification as its `Type` tag; a
`CreateRouteTable` call has the key `Type` exactly when the user tags have. -/
def TypeTagged (o : CreateOptions) : Call → Prop
  | .CreateSubnet _ az cidr tags =>
    ∃ sn ∈ o.Subnets, az = sn.AZ ∧ cidr = sn.CIDR ∧
      hasTag tags "Type" (if sn.Public then "PUBLIC" else "PRIVATE") = true
  | .CreateRouteTable _ tags => hasTagKey tags "Type" = hasTagKey (userTags o) "Type"
  | _ => True

/-- The tag list of a call that creates a network, a subnet, a route table,
an internet gateway or a NAT gateway. -/
def Call.createTags : Call → Option (List Tag)
  | .CreateVpc _ tags => some tags
  | .CreateSubnet _ _ _ tags => some tags
  | .CreateRouteTable _ tags => some tags
  | .CreateInternetGateway tags => some tags
  | .CreateNatGateway _ _ tags => some tags
  | _ => none

/-- Reference: the `ModifySubnetAttribute` events the specification
prescribes for the second pass: one for each created subnet whose own spec
entry is flagged public, in order, none for the others. -/
def ownModifyEvents : List CreateSubnetOptions → List Subnet → List Event
  | subnet :: specs, out :: outs =>
    (if subnet.Public then [Event.ok (.ModifySubnetAttribute out.SubnetId true) ()] else []) ++
      ownModifyEvents specs outs
  | _, _ => []

/-- A spec whose two subnets ask for the same address block, the first
private and the second public. -/
def sameBlockOptions : CreateOptions :=
  { Name := "demo", CIDR := "10.0.0.0/16",
    Subnets := [ { AZ := "us-west-2a", CIDR := "10.0.0.0/18", Public := false },
                 { AZ := "us-west-2b", CIDR := "10.0.0.0/18", Public := true } ] }

/-- The log of `Create` on `publicOnlyOptions` when the NAT-gateway step
starts: network, subnet, its attribute, the public table and its association,
the internet gateway, its attachment and the default route. -/
def publicOnlyLog : Trace :=
  [Event.ok (createVpcCall publicOnlyOptions) createdVpc,
    Event.ok (createSubnetCall publicOnlyOptions "vpc-1"
      ⟨"us-west-2a", "10.0.192.0/20", true⟩) createdPublicSubnet,
    Event.ok (.ModifySubnetAttribute "subnet-10.0.192.0/20" true) (),
    Event.ok (createRouteTableCall publicOnlyOptions "PUBLIC" (some "vpc-1"))
      (createdRouteTable "PUBLIC"),
    Event.ok (.AssociateRouteTable "rtb-vpcctldemo-PUBLIC" "subnet-10.0.192.0/20") (),
    Event.ok (.CreateInternetGateway [⟨"CreatedBy", "vpcctl"⟩, ⟨"Name", "demo"⟩]) createdIGW,
    Event.ok (.AttachInternetGateway "igw-1" "vpc-1") (),
    Event.ok (.CreateRoute "rtb-vpcctldemo-PUBLIC" "0.0.0.0/0" (some "igw-1") none) ()]

/-! ## A provider that keeps what was created -/

/-- What the provider has on record: a created resource with the tags it was
created with and the network it was created in, or the attachment of an
internet gateway to a network.  A NAT gateway is in the network of the subnet
it was created in. -/
inductive Resource where
  | vpc (tags : List Tag) (x : Vpc)
  | subnet (vpcId : String) (tags : List Tag) (x : Subnet)
  | routeTable (vpcId : Option String) (tags : List Tag) (x : RouteTable)
  | igw (tags : List Tag) (x : InternetGateway)
  | attachment (igwId vpcId : String)
  | natGW (vpcId : Option String) (tags : List Tag) (x : NatGateway)
  deriving DecidableEq, Repr

/-- The network of the resource, when it is a subnet with the id `subnetId`. -/
def Resource.subnetNetwork (subnetId : String) : Resource → Option String
  | .subnet vpcId _ x => if x.SubnetId == subnetId then some vpcId else none
  | _ => none

/-- The network of the subnet `subnetId`, read from the newest subnet on
record with that id. -/
def networkOf (rs : List Resource) (subnetId : String) : Option String :=
  rs.reverse.findSome? (Resource.subnetNetwork subnetId)

/-- What a logged call puts on the record `rs`: the descriptor a successful
creation handed back, with the tags and the network of the request, or the
attachment made.  Rejected calls and all other calls add nothing. -/
def Event.resource (rs : List Resource) (ev : Event) : Option Resource :=
  match ev with
  | ⟨.CreateVpc _ tags, .ok x⟩ => some (.vpc tags x)
  | ⟨.CreateSubnet vpcId _ _ tags, .ok x⟩ => some (.subnet vpcId tags x)
  | ⟨.CreateRouteTable vpcId tags, .ok x⟩ => some (.routeTable vpcId tags x)
  | ⟨.CreateInternetGateway tags, .ok x⟩ => some (.igw tags x)
  | ⟨.AttachInternetGateway g n, .ok _⟩ => some (.attachment g n)
  | ⟨.CreateNatGateway _ subnetId tags, .ok x⟩ => some (.natGW (networkOf rs subnetId) tags x)
  | _ => none

/-- Whether a logged call takes the resource off the record: a successful
deletion removes the resource with that id, a successful detachment the
attachment. -/
def Event.removes (ev : Event) : Resource → Bool :=
  match ev with
  | ⟨.DeleteVpc id, .ok _⟩ => fun r =>
    match r with
    | .vpc _ x => x.VpcId == id
    | _ => false
  | ⟨.DeleteSubnet id, .ok _⟩ => fun r =>
    match r with
    | .subnet _ _ x => x.SubnetId == id
    | _ => false
  | ⟨.DeleteRouteTable id, .ok _⟩ => fun r =>
    match r with
    | .routeTable _ _ x => x.RouteTableId == id
    | _ => false
  | ⟨.DeleteInternetGateway id, .ok _⟩ => fun r =>
    match r with
    | .igw _ x => x.InternetGatewayId == id
    | _ => false
  | ⟨.DetachInternetGateway g n, .ok _⟩ => fun r =>
    match r with
    | .attachment g2 n2 => g2 == g && n2 == n
    | _ => false
  | ⟨.DeleteNatGateway id, .ok _⟩ => fun r =>
    match r with
    | .natGW _ _ x => x.NatGatewayId == id
    | _ => false
  | _ => fun _ => false

/-- The record after one more logged call. -/
def record (rs : List Resource) (ev : Event) : List Resource :=
  rs.filter (fun r => !ev.removes r) ++ (ev.resource rs).toList

/-- The record after the log `t`, oldest first: what was created and not
since deleted. -/
def onRecord (t : Trace) : List Resource := t.foldl record []

/-- Whether a resource created with the tags `tags` passes the tag filters
among `filters`: `tag:K` asks for a tag with key `K` and one of the listed
values, `tag-key` for a tag with one of the listed keys. -/
def tagsMatch (filters : List Filter) (tags : List Tag) : Bool :=
  filters.all (fun f =>
    if f.Name == "tag-key" then tags.any (fun tag => f.Values.contains tag.Key)
    else if stringsHasPrefix f.Name "tag:" then
      tags.any (fun tag => "tag:" ++ tag.Key == f.Name && f.Values.contains tag.Value)
    else true)

/-- Whether a resource that belongs to the networks `vpcIds` passes the
filters named `key` among `filters`. -/
def scopeMatch (key : String) (filters : List Filter) (vpcIds : List String) : Bool :=
  filters.all (fun f =>
    if f.Name == key then vpcIds.any (fun id => f.Values.contains id) else true)

/-- The network an attachment of the internet gateway `igwId` names. -/
def Resource.attachedNetwork (igwId : String) : Resource → Option String
  | .attachment g n => if g == igwId then some n else none
  | _ => none

/-- The networks the internet gateway `igwId` is attached to. -/
def attachedTo (rs : List Resource) (igwId : String) : List String :=
  rs.filterMap (Resource.attachedNetwork igwId)

def Resource.matchVpc (filters : List Filter) : Resource → Option Vpc
  | .vpc tags x => if tagsMatch filters tags then some x else none
  | _ => none

def Resource.matchSubnet (filters : List Filter) : Resource → Option Subnet
  | .subnet vpcId tags x =>
    if tagsMatch filters tags && scopeMatch "vpc-id" filters [vpcId] then some x else none
  | _ => none

def Resource.matchRouteTable (filters : List Filter) : Resource → Option RouteTable
  | .routeTable vpcId tags x =>
    if tagsMatch filters tags && scopeMatch "vpc-id" filters vpcId.toList then some x else none
  | _ => none

def Resource.matchIGW (rs : List Resource) (filters : List Filter) :
    Resource → Option InternetGateway
  | .igw tags x =>
    if tagsMatch filters tags &&
        scopeMatch "attachment.vpc-id" filters (attachedTo rs x.InternetGatewayId) then some x
    else none
  | _ => none

def Resource.matchNATGW (filters : List Filter) : Resource → Option NatGateway
  | .natGW vpcId tags x =>
    if tagsMatch filters tags && scopeMatch "vpc-id" filters vpcId.toList then some x else none
  | _ => none

/-- The networks on record that a `DescribeVpcs` with `filters` selects. -/
def matchingVpcs (rs : List Resource) (filters : List Filter) : List Vpc :=
  rs.filterMap (Resource.matchVpc filters)

def matchingSubnets (rs : List Resource) (filters : List Filter) : List Subnet :=
  rs.filterMap (Resource.matchSubnet filters)

def matchingRouteTables (rs : List Resource) (filters : List Filter) : List RouteTable :=
  rs.filterMap (Resource.matchRouteTable filters)

def matchingIGWs (rs : List Resource) (filters : List Filter) : List InternetGateway :=
  rs.filterMap (Resource.matchIGW rs filters)

def matchingNATGWs (rs : List Resource) (filters : List Filter) : List NatGateway :=
  rs.filterMap (Resource.matchNATGW filters)

/-- The provider model of the round trip: every describe query is answered,
and it returns, in some order, exactly the resources on record (created and
not since deleted) whose creation tags and network match its filters.
Resources are told apart by their ids; nothing is asked of the other fields
of a returned descriptor, nor of the answers to any other call. -/
structure Keeps (P : Provider) : Prop where
  describeVpcs : ∀ t filters, ∃ xs, P.respond t (.DescribeVpcs filters) = .ok xs ∧
    ∀ id, id ∈ xs.map (fun x => x.VpcId) ↔
      id ∈ (matchingVpcs (onRecord t) filters).map (fun x => x.VpcId)
  describeSubnets : ∀ t filters, ∃ xs, P.respond t (.DescribeSubnets filters) = .ok xs ∧
    ∀ id, id ∈ xs.map (fun x => x.SubnetId) ↔
      id ∈ (matchingSubnets (onRecord t) filters).map (fun x => x.SubnetId)
  describeRouteTables : ∀ t filters, ∃ xs, P.respond t (.DescribeRouteTables filters) = .ok xs ∧
    ∀ id, id ∈ xs.map (fun x => x.RouteTableId) ↔
      id ∈ (matchingRouteTables (onRecord t) filters).map (fun x => x.RouteTableId)
  describeInternetGateways : ∀ t filters,
    ∃ xs, P.respond t (.DescribeInternetGateways filters) = .ok xs ∧
      ∀ id, id ∈ xs.map (fun x => x.InternetGatewayId) ↔
        id ∈ (matchingIGWs (onRecord t) filters).map (fun x => x.InternetGatewayId)
  describeNatGateways : ∀ t filters, ∃ xs, P.respond t (.DescribeNatGateways filters) = .ok xs ∧
    ∀ id, id ∈ xs.map (fun x => x.NatGatewayId) ↔
      id ∈ (matchingNATGWs (onRecord t) filters).map (fun x => x.NatGatewayId)

/-- A created subnet reports the network it was created in (`createRouteTables`
reads the network of a route table from there). -/
def ReportsNetwork (P : Provider) : Prop :=
  ∀ t vpcId az cidr tags (x : Subnet),
    P.respond t (.CreateSubnet vpcId az cidr tags) = .ok x → x.VpcId = some vpcId

/-- An executable provider that keeps what was created.  Every call succeeds;
a describe query returns the matching resources on record, oldest first.
Identifiers are numbered by the length of the log at the creation; with
`freshNetworkIds` off every network gets the id `vpc-0`.  With `reportNetwork`
off a created subnet does not report its network. -/
def cloudWith (freshNetworkIds reportNetwork : Bool) : Provider where
  respond := fun t c =>
    match c with
    | .CreateVpc cidr tags =>
      .ok ({ VpcId := "vpc-" ++ toString (if freshNetworkIds then t.length else 0),
             CidrBlock := cidr, Tags := tags } : Vpc)
    | .CreateSubnet vpcId az cidr tags =>
      .ok ({ SubnetId := "subnet-" ++ toString t.length,
             VpcId := if reportNetwork then some vpcId else none,
             AvailabilityZone := az, CidrBlock := cidr, MapPublicIpOnLaunch := false,
             Tags := tags } : Subnet)
    | .CreateRouteTable vpcId tags =>
      .ok ({ RouteTableId := "rtb-" ++ toString t.length, VpcId := vpcId,
             Tags := tags } : RouteTable)
    | .CreateInternetGateway tags =>
      .ok ({ InternetGatewayId := "igw-" ++ toString t.length, Tags := tags } : InternetGateway)
    | .AllocateAddress _ =>
      .ok ({ AllocationId := some ("eipalloc-" ++ toString t.length) } : AllocateAddressOutput)
    | .CreateNatGateway alloc subnetId tags =>
      .ok ({ NatGatewayId := "nat-" ++ toString t.length, SubnetId := some subnetId,
             VpcId := networkOf (onRecord t) subnetId,
             NatGatewayAddresses := [{ AllocationId := alloc }], Tags := tags } : NatGateway)
    | .DescribeVpcs filters => .ok (matchingVpcs (onRecord t) filters)
    | .DescribeSubnets filters => .ok (matchingSubnets (onRecord t) filters)
    | .DescribeRouteTables filters => .ok (matchingRouteTables (onRecord t) filters)
    | .DescribeInternetGateways filters => .ok (matchingIGWs (onRecord t) filters)
    | .DescribeNatGateways filters => .ok (matchingNATGWs (onRecord t) filters)
    | .ModifySubnetAttribute _ _ => .ok ()
    | .AssociateRouteTable _ _ => .ok ()
    | .AttachInternetGateway _ _ => .ok ()
    | .CreateRoute _ _ _ _ => .ok ()
    | .WaitNatGatewayAvailable _ => .ok ()
    | .DeleteNatGateway _ => .ok ()
    | .WaitNatGatewayDeleted _ => .ok ()
    | .ReleaseAddress _ => .ok ()
    | .DetachInternetGateway _ _ => .ok ()
    | .DeleteInternetGateway _ => .ok ()
    | .DeleteRoute _ _ => .ok ()
    | .DisassociateRouteTable _ => .ok ()
    | .DeleteRouteTable _ => .ok ()
    | .DeleteSubnet _ => .ok ()
    | .DeleteVpc _ => .ok ()

/-- The provider with fresh network ids and subnets that report their
network. -/
def cloud : Provider := cloudWith true true

/-- The resources the subnet step puts on record. -/
def subnetResources (opts : CreateOptions) (vpcID : String) :
    List CreateSubnetOptions → List Subnet → List Resource
  | subnet :: specs, out :: outs =>
    Resource.subnet vpcID
      (flattenTags [⟨"Name", opts.Name ++ "-" ++ subnet.AZ ++ "-" ++ subnet.subnetType⟩,
        ⟨"Type", subnet.subnetType⟩] opts) out :: subnetResources opts vpcID specs outs
  | _, _ => []

/-- What a successful `Create` run puts on record, oldest first, when the
created subnets report their network. -/
def builtRecord (opts : CreateOptions) (vpc : Vpc) (outs : List Subnet)
    (rtPublic rtPrivate : RouteTable) (igw : InternetGateway) (natGW : NatGateway) :
    List Resource :=
  Resource.vpc (flattenTags [⟨"Name", opts.Name⟩] opts) vpc ::
    (subnetResources opts vpc.VpcId opts.Subnets outs ++
      [Resource.routeTable (some vpc.VpcId)
          (flattenTags [⟨"Name", opts.Name ++ "-" ++ SubnetTypePublic⟩] opts) rtPublic,
        Resource.routeTable (some vpc.VpcId)
          (flattenTags [⟨"Name", opts.Name ++ "-" ++ SubnetTypePrivate⟩] opts) rtPrivate,
        Resource.igw (flattenTags [⟨"Name", opts.Name⟩] opts) igw,
        Resource.attachment igw.InternetGatewayId vpc.VpcId,
        Resource.natGW (some vpc.VpcId) (flattenTags [⟨"Name", opts.Name⟩] opts) natGW])

/-- The identifiers a `Details` holds: network, subnets, route tables,
internet gateway, NAT gateway. -/
def Details.ids (d : Details) :
    Option String × List String × List String × Option String × Option String :=
  (d.VPC.map (fun x => x.VpcId), d.Subnets.map (fun x => x.SubnetId),
    d.RouteTables.map (fun x => x.RouteTableId),
    d.InternetGateway.map (fun x => x.InternetGatewayId),
    d.NATGateway.map (fun x => x.NatGatewayId))

/-- The identifiers of the `Details` of a run that returned without error. -/
def returnedIds (r : Outcome (Details × Option Error) × Trace) :
    Option (Option String × List String × List String × Option String × Option String) :=
  match r.1 with
  | .ret (d, none) => some d.ids
  | _ => none

/-- The spec of `demoOptions` under the name `other`. -/
def otherOptions : CreateOptions := { demoOptions with Name := "other" }

/-- The log after `Create` has built the network `demo` from nothing on the
provider `P`. -/
def demoLog (P : Provider) : Trace := (Create (clientOf P) false demoOptions []).2

/-- The `Details` a run returned (empty for a run that panicked). -/
def returnedDetails (r : Outcome (Details × Option Error) × Trace) : Details :=
  match r.1 with
  | .ret (d, _) => d
  | .crash => {}

/-! ## Basic lemmas -/

theorem bind_apply {α β : Type} (m : M α) (f : α → M β) (t : Trace) :
    (m >>= f) t = match m t with
      | (.ret a, t1) => f a t1
      | (.crash, t1) => (.crash, t1) := rfl

theorem pure_apply {α : Type} (a : α) (t : Trace) : (pure a : M α) t = (.ret a, t) := rfl

theorem crash_apply {α : Type} (t : Trace) : (crash : M α) t = (.crash, t) := rfl

theorem ec2_apply (v : Client) (c : Call) (t : Trace) :
    ec2 v c t = (.ret (v.ec2Client.respond t c), t ++ [⟨c, v.ec2Client.respond t c⟩]) := rfl

theorem managedByFilter_eq : managedByFilter = ⟨"tag:CreatedBy", ["vpcctl"]⟩ := by decide

theorem Answers_nil (v : Client) (t : Trace) : Answers v t [] := trivial

theorem Answers_cons (v : Client) (t : Trace) (ev : Event) (rest : List Event) :
    Answers v t (ev :: rest) ↔
      v.ec2Client.respond t ev.call = ev.result ∧ Answers v (t ++ [ev]) rest := Iff.rfl

theorem Answers_append (v : Client) (t : Trace) (a b : List Event) :
    Answers v t (a ++ b) ↔ Answers v t a ∧ Answers v (t ++ a) b := by
  induction a generalizing t with
  | nil => simp [Answers]
  | cons ev rest ih => simp [Answers, ih, and_assoc]

/-! ## Get -/

theorem getVPC_error (v : Client) (opts : GetOptions) (t : Trace) (e : Error)
    (h : v.ec2Client.respond t (queryVpcs opts.Name) = .error e) :
    getVPC v opts t = (.ret (none, some e), t ++ [Event.failed (queryVpcs opts.Name) e]) := by
  simp only [getVPC, bind_apply, ec2_apply, h, pure_apply, Event.failed]

theorem getVPC_empty (v : Client) (opts : GetOptions) (t : Trace)
    (h : v.ec2Client.respond t (queryVpcs opts.Name) = .ok []) :
    getVPC v opts t = (.ret (none, some (.errorf ("VPC " ++ opts.Name ++ " not found"))),
      t ++ [Event.ok (queryVpcs opts.Name) []]) := by
  simp only [getVPC, bind_apply, ec2_apply, h, pure_apply, Event.ok]

theorem getVPC_found (v : Client) (opts : GetOptions) (t : Trace) (vpc : Vpc) (vpcs : List Vpc)
    (h : v.ec2Client.respond t (queryVpcs opts.Name) = .ok (vpc :: vpcs)) :
    getVPC v opts t = (.ret (some vpc, none),
      t ++ [Event.ok (queryVpcs opts.Name) (vpc :: vpcs)]) := by
  simp only [getVPC, bind_apply, ec2_apply, h, pure_apply, Event.ok]

theorem getSubnets_apply (v : Client) (vpcID : String) (opts : GetOptions) (t : Trace) :
    getSubnets v vpcID opts t =
      (match v.ec2Client.respond t (querySubnets vpcID) with
        | .error e => .ret ([], some e)
        | .ok subnets => .ret (subnets, none),
       t ++ [⟨querySubnets vpcID, v.ec2Client.respond t (querySubnets vpcID)⟩]) := by
  simp only [getSubnets, bind_apply, ec2_apply]
  cases v.ec2Client.respond t (querySubnets vpcID) <;> rfl

theorem getRouteTables_apply (v : Client) (vpcID : String) (opts : GetOptions) (t : Trace) :
    getRouteTables v vpcID opts t =
      (match v.ec2Client.respond t (queryRouteTables vpcID) with
        | .error e => .ret ([], some e)
        | .ok routeTables => .ret (routeTables, none),
       t ++ [⟨queryRouteTables vpcID, v.ec2Client.respond t (queryRouteTables vpcID)⟩]) := by
  simp only [getRouteTables, bind_apply, ec2_apply]
  cases v.ec2Client.respond t (queryRouteTables vpcID) <;> rfl

theorem getIGW_apply (v : Client) (vpcID : String) (opts : GetOptions) (t : Trace) :
    getIGW v vpcID opts t =
      (match v.ec2Client.respond t (queryIGWs vpcID) with
        | .error e => .ret (none, some e)
        | .ok igws => .ret (igws.head?, none),
       t ++ [⟨queryIGWs vpcID, v.ec2Client.respond t (queryIGWs vpcID)⟩]) := by
  simp only [getIGW, bind_apply, ec2_apply]
  cases h : v.ec2Client.respond t (queryIGWs vpcID) with
  | error e => rfl
  | ok igws => cases igws <;> rfl

theorem getNATGW_apply (v : Client) (vpcID : String) (opts : GetOptions) (t : Trace) :
    getNATGW v vpcID opts t =
      (match v.ec2Client.respond t (queryNATGWs vpcID) with
        | .error e => .ret (none, some e)
        | .ok natGWs => .ret (natGWs.head?, none),
       t ++ [⟨queryNATGWs vpcID, v.ec2Client.respond t (queryNATGWs vpcID)⟩]) := by
  simp only [getNATGW, bind_apply, ec2_apply]
  cases h : v.ec2Client.respond t (queryNATGWs vpcID) with
  | error e => rfl
  | ok natGWs => cases natGWs <;> rfl

/-- `Get` once the network is found: the four scoped queries, in order. -/
theorem Get_found (v : Client) (opts : GetOptions) (t : Trace) (vpc : Vpc) (vpcs : List Vpc)
    (h : v.ec2Client.respond t (queryVpcs opts.Name) = .ok (vpc :: vpcs)) :
    Get v opts t =
      (let t1 := t ++ [Event.ok (queryVpcs opts.Name) (vpc :: vpcs)]
       match v.ec2Client.respond t1 (querySubnets vpc.VpcId) with
       | .error e =>
         (.ret (⟨some vpc, [], [], none, none⟩, some e),
           t1 ++ [Event.failed (querySubnets vpc.VpcId) e])
       | .ok subnets =>
         let t2 := t1 ++ [Event.ok (querySubnets vpc.VpcId) subnets]
         match v.ec2Client.respond t2 (queryRouteTables vpc.VpcId) with
         | .error e =>
           (.ret (⟨some vpc, subnets, [], none, none⟩, some e),
             t2 ++ [Event.failed (queryRouteTables vpc.VpcId) e])
         | .ok routeTables =>
           let t3 := t2 ++ [Event.ok (queryRouteTables vpc.VpcId) routeTables]
           match v.ec2Client.respond t3 (queryIGWs vpc.VpcId) with
           | .error e =>
             (.ret (⟨some vpc, subnets, routeTables, none, none⟩, some e),
               t3 ++ [Event.failed (queryIGWs vpc.VpcId) e])
           | .ok igws =>
             let t4 := t3 ++ [Event.ok (queryIGWs vpc.VpcId) igws]
             match v.ec2Client.respond t4 (queryNATGWs vpc.VpcId) with
             | .error e =>
               (.ret (⟨some vpc, subnets, routeTables, igws.head?, none⟩, some e),
                 t4 ++ [Event.failed (queryNATGWs vpc.VpcId) e])
             | .ok natGWs =>
               (.ret (⟨some vpc, subnets, routeTables, igws.head?, natGWs.head?⟩, none),
                 t4 ++ [Event.ok (queryNATGWs vpc.VpcId) natGWs])) := by
  simp only [Event.ok, Event.failed]
  cases h2 : v.ec2Client.respond (t ++ [⟨queryVpcs opts.Name, .ok (vpc :: vpcs)⟩])
      (querySubnets vpc.VpcId) with
  | error e =>
    simp only [Get, bind_apply, getVPC_found v opts t vpc vpcs h, getSubnets_apply, pure_apply,
      Event.ok, h2]
  | ok subnets =>
    cases h3 : v.ec2Client.respond (t ++ [⟨queryVpcs opts.Name, .ok (vpc :: vpcs)⟩] ++
        [⟨querySubnets vpc.VpcId, .ok subnets⟩]) (queryRouteTables vpc.VpcId) with
    | error e =>
      simp only [Get, bind_apply, getVPC_found v opts t vpc vpcs h, getSubnets_apply,
        getRouteTables_apply, pure_apply, Event.ok, h2, h3]
    | ok routeTables =>
      cases h4 : v.ec2Client.respond (t ++ [⟨queryVpcs opts.Name, .ok (vpc :: vpcs)⟩] ++
          [⟨querySubnets vpc.VpcId, .ok subnets⟩] ++
          [⟨queryRouteTables vpc.VpcId, .ok routeTables⟩]) (queryIGWs vpc.VpcId) with
      | error e =>
        simp only [Get, bind_apply, getVPC_found v opts t vpc vpcs h, getSubnets_apply,
          getRouteTables_apply, getIGW_apply, pure_apply, Event.ok, h2, h3, h4]
      | ok igws =>
        cases h5 : v.ec2Client.respond (t ++ [⟨queryVpcs opts.Name, .ok (vpc :: vpcs)⟩] ++
            [⟨querySubnets vpc.VpcId, .ok subnets⟩] ++
            [⟨queryRouteTables vpc.VpcId, .ok routeTables⟩] ++
            [⟨queryIGWs vpc.VpcId, .ok igws⟩]) (queryNATGWs vpc.VpcId) with
        | error e =>
          simp only [Get, bind_apply, getVPC_found v opts t vpc vpcs h, getSubnets_apply,
            getRouteTables_apply, getIGW_apply, getNATGW_apply, pure_apply, Event.ok,
            h2, h3, h4, h5]
        | ok natGWs =>
          simp only [Get, bind_apply, getVPC_found v opts t vpc vpcs h, getSubnets_apply,
            getRouteTables_apply, getIGW_apply, getNATGW_apply, pure_apply, Event.ok,
            h2, h3, h4, h5]

theorem Get_not_found (v : Client) (opts : GetOptions) (t : Trace)
    (h : v.ec2Client.respond t (queryVpcs opts.Name) = .ok []) :
    Get v opts t = (.ret ({}, some (.errorf ("VPC " ++ opts.Name ++ " not found"))),
      t ++ [Event.ok (queryVpcs opts.Name) []]) := by
  simp only [Get, bind_apply, getVPC_empty v opts t h, pure_apply]

theorem Get_rejected (v : Client) (opts : GetOptions) (t : Trace) (e : Error)
    (h : v.ec2Client.respond t (queryVpcs opts.Name) = .error e) :
    Get v opts t = (.ret ({}, some e), t ++ [Event.failed (queryVpcs opts.Name) e]) := by
  simp only [Get, bind_apply, getVPC_error v opts t e h, pure_apply]

/-- `Get` when all five queries succeed and a network is found. -/
theorem Get_all_answered (v : Client) (opts : GetOptions) (t : Trace) (vpc : Vpc)
    (vpcs : List Vpc) (subnets : List Subnet) (routeTables : List RouteTable)
    (igws : List InternetGateway) (natGWs : List NatGateway)
    (h : Answers v t [Event.ok (queryVpcs opts.Name) (vpc :: vpcs),
      Event.ok (querySubnets vpc.VpcId) subnets,
      Event.ok (queryRouteTables vpc.VpcId) routeTables,
      Event.ok (queryIGWs vpc.VpcId) igws,
      Event.ok (queryNATGWs vpc.VpcId) natGWs]) :
    Get v opts t = (.ret (⟨some vpc, subnets, routeTables, igws.head?, natGWs.head?⟩, none),
      t ++ [Event.ok (queryVpcs opts.Name) (vpc :: vpcs),
        Event.ok (querySubnets vpc.VpcId) subnets,
        Event.ok (queryRouteTables vpc.VpcId) routeTables,
        Event.ok (queryIGWs vpc.VpcId) igws,
        Event.ok (queryNATGWs vpc.VpcId) natGWs]) := by
  simp only [Answers, Event.ok, Event.failed] at h
  rw [Get_found v opts t vpc vpcs h.1]
  simp only [Event.ok, Event.failed, List.append_assoc, List.singleton_append,
    List.cons_append, List.nil_append] at h ⊢
  simp only [h.2.1, h.2.2.1, h.2.2.2.1, h.2.2.2.2.1]

/-- C5. `Get` asks the five queries in the order network, subnets, route
tables, internet gateway, NAT gateway, the last four scoped by the id of the
network found.  If query `k` is the first to fail (the provider rejects it, or,
for the network query, no network is found), no later query is issued and the
error comes back with a `Details` holding the results of queries `1..k-1` and
nothing for the later ones; if none fails there is no error and `Details`
holds all five results. -/
theorem Get_query_order (v : Client) (opts : GetOptions) (t : Trace) :
    (∀ e, Answers v t [Event.failed (queryVpcs opts.Name) e] →
      Get v opts t = (.ret (⟨none, [], [], none, none⟩, some e),
        t ++ [Event.failed (queryVpcs opts.Name) e])) ∧
    (Answers v t [Event.ok (queryVpcs opts.Name) []] →
      ∃ e, Get v opts t = (.ret (⟨none, [], [], none, none⟩, some e),
        t ++ [Event.ok (queryVpcs opts.Name) []])) ∧
    (∀ vpc vpcs e,
      Answers v t [Event.ok (queryVpcs opts.Name) (vpc :: vpcs),
        Event.failed (querySubnets vpc.VpcId) e] →
      Get v opts t = (.ret (⟨some vpc, [], [], none, none⟩, some e),
        t ++ [Event.ok (queryVpcs opts.Name) (vpc :: vpcs),
          Event.failed (querySubnets vpc.VpcId) e])) ∧
    (∀ vpc vpcs subnets e,
      Answers v t [Event.ok (queryVpcs opts.Name) (vpc :: vpcs),
        Event.ok (querySubnets vpc.VpcId) subnets,
        Event.failed (queryRouteTables vpc.VpcId) e] →
      Get v opts t = (.ret (⟨some vpc, subnets, [], none, none⟩, some e),
        t ++ [Event.ok (queryVpcs opts.Name) (vpc :: vpcs),
          Event.ok (querySubnets vpc.VpcId) subnets,
          Event.failed (queryRouteTables vpc.VpcId) e])) ∧
    (∀ vpc vpcs subnets routeTables e,
      Answers v t [Event.ok (queryVpcs opts.Name) (vpc :: vpcs),
        Event.ok (querySubnets vpc.VpcId) subnets,
        Event.ok (queryRouteTables vpc.VpcId) routeTables,
        Event.failed (queryIGWs vpc.VpcId) e] →
      Get v opts t = (.ret (⟨some vpc, subnets, routeTables, none, none⟩, some e),
        t ++ [Event.ok (queryVpcs opts.Name) (vpc :: vpcs),
          Event.ok (querySubnets vpc.VpcId) subnets,
          Event.ok (queryRouteTables vpc.VpcId) routeTables,
          Event.failed (queryIGWs vpc.VpcId) e])) ∧
    (∀ vpc vpcs subnets routeTables igws e,
      Answers v t [Event.ok (queryVpcs opts.Name) (vpc :: vpcs),
        Event.ok (querySubnets vpc.VpcId) subnets,
        Event.ok (queryRouteTables vpc.VpcId) routeTables,
        Event.ok (queryIGWs vpc.VpcId) igws,
        Event.failed (queryNATGWs vpc.VpcId) e] →
      Get v opts t = (.ret (⟨some vpc, subnets, routeTables, igws.head?, none⟩, some e),
        t ++ [Event.ok (queryVpcs opts.Name) (vpc :: vpcs),
          Event.ok (querySubnets vpc.VpcId) subnets,
          Event.ok (queryRouteTables vpc.VpcId) routeTables,
          Event.ok (queryIGWs vpc.VpcId) igws,
          Event.failed (queryNATGWs vpc.VpcId) e])) ∧
    (∀ vpc vpcs subnets routeTables igws natGWs,
      Answers v t [Event.ok (queryVpcs opts.Name) (vpc :: vpcs),
        Event.ok (querySubnets vpc.VpcId) subnets,
        Event.ok (queryRouteTables vpc.VpcId) routeTables,
        Event.ok (queryIGWs vpc.VpcId) igws,
        Event.ok (queryNATGWs vpc.VpcId) natGWs] →
      Get v opts t = (.ret (⟨some vpc, subnets, routeTables, igws.head?, natGWs.head?⟩, none),
        t ++ [Event.ok (queryVpcs opts.Name) (vpc :: vpcs),
          Event.ok (querySubnets vpc.VpcId) subnets,
          Event.ok (queryRouteTables vpc.VpcId) routeTables,
          Event.ok (queryIGWs vpc.VpcId) igws,
          Event.ok (queryNATGWs vpc.VpcId) natGWs])) := by
  refine ⟨?_, ?_, ?_, ?_, ?_, ?_, ?_⟩
  · intro e h
    exact Get_rejected v opts t e h.1
  · intro h
    exact ⟨_, Get_not_found v opts t h.1⟩
  · intro vpc vpcs e h
    simp only [Answers, Event.ok, Event.failed] at h
    rw [Get_found v opts t vpc vpcs h.1]
    simp only [Event.ok, Event.failed, List.append_assoc, List.singleton_append] at h ⊢
    simp only [h.2.1]
  · intro vpc vpcs subnets e h
    simp only [Answers, Event.ok, Event.failed] at h
    rw [Get_found v opts t vpc vpcs h.1]
    simp only [Event.ok, Event.failed, List.append_assoc, List.singleton_append,
      List.cons_append, List.nil_append] at h ⊢
    simp only [h.2.1, h.2.2.1]
  · intro vpc vpcs subnets routeTables e h
    simp only [Answers, Event.ok, Event.failed] at h
    rw [Get_found v opts t vpc vpcs h.1]
    simp only [Event.ok, Event.failed, List.append_assoc, List.singleton_append,
      List.cons_append, List.nil_append] at h ⊢
    simp only [h.2.1, h.2.2.1, h.2.2.2.1]
  · intro vpc vpcs subnets routeTables igws e h
    simp only [Answers, Event.ok, Event.failed] at h
    rw [Get_found v opts t vpc vpcs h.1]
    simp only [Event.ok, Event.failed, List.append_assoc, List.singleton_append,
      List.cons_append, List.nil_append] at h ⊢
    simp only [h.2.1, h.2.2.1, h.2.2.2.1, h.2.2.2.2.1]
  · intro vpc vpcs subnets routeTables igws natGWs h
    exact Get_all_answered v opts t vpc vpcs subnets routeTables igws natGWs h

theorem Get_query_order_witness :
    Get (clientOf (failFrom 2 (.provider "denied") (okProvider true false demoWorld))) ⟨"demo"⟩ [] =
      (.ret (⟨some demoVpc, demoSubnets, [], none, none⟩, some (.provider "denied")),
        [Event.ok (queryVpcs "demo") [demoVpc], Event.ok (querySubnets "vpc-1") demoSubnets,
          Event.failed (queryRouteTables "vpc-1") (.provider "denied")]) :=
  (Get_query_order (clientOf (failFrom 2 (.provider "denied") (okProvider true false demoWorld)))
    ⟨"demo"⟩ []).2.2.2.1 demoVpc [] demoSubnets (.provider "denied") ⟨rfl, rfl, rfl, trivial⟩

/-! ## Delete -/

theorem issueAll_append (v : Client) (a b : List Call) (t : Trace) :
    issueAll v (a ++ b) t =
      match issueAll v a t with
      | (.ret none, t1) => issueAll v b t1
      | (.ret (some e), t1) => (.ret (some e), t1)
      | (.crash, t1) => (.crash, t1) := by
  induction a generalizing t with
  | nil => simp only [List.nil_append, issueAll, pure_apply]
  | cons c rest ih =>
    simp only [List.cons_append, issueAll, bind_apply, ec2_apply]
    cases v.ec2Client.respond t c with
    | error e => simp only [pure_apply]
    | ok r => exact ih _

theorem releaseAddressLoop_eq_apply (v : Client) (l : List NatGatewayAddress) (t : Trace) :
    releaseAddressLoop v l t =
      issueAll v (l.map (fun a => Call.ReleaseAddress a.AllocationId)) t := by
  induction l generalizing t with
  | nil => rfl
  | cons a rest ih =>
    simp only [releaseAddressLoop, List.map_cons, issueAll, bind_apply, ec2_apply]
    cases v.ec2Client.respond t (Call.ReleaseAddress a.AllocationId) with
    | error e => rfl
    | ok r => simp only [ih]

theorem releaseAddressLoop_eq (v : Client) (l : List NatGatewayAddress) :
    releaseAddressLoop v l =
      issueAll v (l.map (fun a => Call.ReleaseAddress a.AllocationId)) := by
  funext t
  exact releaseAddressLoop_eq_apply v l t

theorem deleteRoutesLoop_eq_apply (v : Client) (rt : RouteTable) (l : List Route) (t : Trace) :
    deleteRoutesLoop v rt l t =
      issueAll v ((l.filter Route.targetsIGW).map
        (fun route => Call.DeleteRoute rt.RouteTableId route.DestinationCidrBlock)) t := by
  induction l generalizing t with
  | nil => rfl
  | cons route rest ih =>
    cases hr : route.targetsIGW with
    | false =>
      have hr2 : (match route.GatewayId with
          | none => false
          | some gatewayId => stringsHasPrefix gatewayId "igw-") = false := hr
      simp only [deleteRoutesLoop, hr2, List.filter_cons, hr, Bool.false_eq_true, if_false]
      exact ih t
    | true =>
      have hr2 : (match route.GatewayId with
          | none => false
          | some gatewayId => stringsHasPrefix gatewayId "igw-") = true := hr
      simp only [deleteRoutesLoop, hr2, List.filter_cons, hr, if_true, List.map_cons, issueAll,
        bind_apply, ec2_apply]
      cases v.ec2Client.respond t (Call.DeleteRoute rt.RouteTableId route.DestinationCidrBlock) with
      | error e => rfl
      | ok r => simp only [ih]

theorem deleteRoutesLoop_eq (v : Client) (rt : RouteTable) (l : List Route) :
    deleteRoutesLoop v rt l =
      issueAll v ((l.filter Route.targetsIGW).map
        (fun route => Call.DeleteRoute rt.RouteTableId route.DestinationCidrBlock)) := by
  funext t
  exact deleteRoutesLoop_eq_apply v rt l t

theorem disassociateLoop_eq_apply (v : Client) (l : List RouteTableAssociation) (t : Trace) :
    disassociateLoop v l t =
      issueAll v (l.map
        (fun association => Call.DisassociateRouteTable association.RouteTableAssociationId)) t := by
  induction l generalizing t with
  | nil => rfl
  | cons a rest ih =>
    simp only [disassociateLoop, List.map_cons, issueAll, bind_apply, ec2_apply]
    cases v.ec2Client.respond t (Call.DisassociateRouteTable a.RouteTableAssociationId) with
    | error e => rfl
    | ok r => simp only [ih]

theorem disassociateLoop_eq (v : Client) (l : List RouteTableAssociation) :
    disassociateLoop v l =
      issueAll v (l.map
        (fun association => Call.DisassociateRouteTable association.RouteTableAssociationId)) := by
  funext t
  exact disassociateLoop_eq_apply v l t

theorem deleteSubnetsLoop_eq_apply (v : Client) (l : List Subnet) (t : Trace) :
    deleteSubnetsLoop v l t =
      issueAll v (l.map (fun subnet => Call.DeleteSubnet subnet.SubnetId)) t := by
  induction l generalizing t with
  | nil => rfl
  | cons a rest ih =>
    simp only [deleteSubnetsLoop, List.map_cons, issueAll, bind_apply, ec2_apply]
    cases v.ec2Client.respond t (Call.DeleteSubnet a.SubnetId) with
    | error e => rfl
    | ok r => simp only [ih]

theorem deleteSubnetsLoop_eq (v : Client) (l : List Subnet) :
    deleteSubnetsLoop v l =
      issueAll v (l.map (fun subnet => Call.DeleteSubnet subnet.SubnetId)) := by
  funext t
  exact deleteSubnetsLoop_eq_apply v l t

theorem deleteRouteTablesLoop_eq_apply (v : Client) (l : List RouteTable) (t : Trace) :
    deleteRouteTablesLoop v l t = issueAll v (l.flatMap routeTableTeardown) t := by
  induction l generalizing t with
  | nil => rfl
  | cons rt rest ih =>
    simp only [deleteRouteTablesLoop, List.flatMap_cons, routeTableTeardown, bind_apply,
      deleteRoutesLoop_eq, disassociateLoop_eq, issueAll_append, List.append_assoc]
    generalize issueAll v ((rt.Routes.filter Route.targetsIGW).map
        (fun route => Call.DeleteRoute rt.RouteTableId route.DestinationCidrBlock)) t = r1
    rcases r1 with ⟨_ | _, t1⟩
    · rename_i e
      cases e with
      | some err => rfl
      | none =>
        simp only [bind_apply]
        generalize issueAll v (rt.Associations.map (fun association =>
            Call.DisassociateRouteTable association.RouteTableAssociationId)) t1 = r2
        rcases r2 with ⟨_ | _, t2⟩
        · rename_i e
          cases e with
          | some err => rfl
          | none =>
            simp only [issueAll, bind_apply, ec2_apply]
            cases v.ec2Client.respond t2 (Call.DeleteRouteTable rt.RouteTableId) with
            | error e => rfl
            | ok r => exact ih _
        · rfl
    · rfl

theorem deleteRouteTablesLoop_eq (v : Client) (l : List RouteTable) :
    deleteRouteTablesLoop v l = issueAll v (l.flatMap routeTableTeardown) := by
  funext t
  exact deleteRouteTablesLoop_eq_apply v l t

/-- `Get` always returns, and a `Get` without error has found the network. -/
theorem Get_returns (v : Client) (opts : GetOptions) (t : Trace) :
    ∃ d e t1, Get v opts t = (.ret (d, e), t1) ∧ (e = none → ∃ vpc, d.VPC = some vpc) := by
  cases h : v.ec2Client.respond t (queryVpcs opts.Name) with
  | error e => exact ⟨_, _, _, Get_rejected v opts t e h, by simp⟩
  | ok vpcs =>
    cases vpcs with
    | nil => exact ⟨_, _, _, Get_not_found v opts t h, by simp⟩
    | cons vpc vpcs =>
      rw [Get_found v opts t vpc vpcs h]
      simp only []
      split
      · exact ⟨_, _, _, rfl, by simp⟩
      · split
        · exact ⟨_, _, _, rfl, by simp⟩
        · split
          · exact ⟨_, _, _, rfl, by simp⟩
          · split
            · exact ⟨_, _, _, rfl, by simp⟩
            · exact ⟨_, _, _, rfl, fun _ => ⟨vpc, rfl⟩⟩

theorem Delete_of_Get_error (v : Client) (opts : DeleteOptions) (t t1 : Trace) (d : Details)
    (e : Error) (h : Get v ⟨opts.Name⟩ t = (.ret (d, some e), t1)) :
    Delete v opts t = (.ret (d, some e), t1) := by
  simp only [Delete, bind_apply, h, pure_apply]

theorem stageNATGW_eq (v : Client) (d : Details) (opts : DeleteOptions) :
    (if d.NATGateway.isSome then deleteNATGW v d opts else pure none) =
      issueAll v (match d.NATGateway with
        | some natGW =>
          [Call.DeleteNatGateway natGW.NatGatewayId,
            Call.WaitNatGatewayDeleted natGW.NatGatewayId] ++
            natGW.NatGatewayAddresses.map (fun a => Call.ReleaseAddress a.AllocationId)
        | none => []) := by
  funext t
  cases hn : d.NATGateway with
  | none => rfl
  | some natGW =>
    simp only [Option.isSome_some, if_true, deleteNATGW, hn, List.cons_append, List.nil_append,
      issueAll, bind_apply, ec2_apply, releaseAddressLoop_eq]
    cases v.ec2Client.respond t (Call.DeleteNatGateway natGW.NatGatewayId) with
    | error e => rfl
    | ok r =>
      simp only [bind_apply, ec2_apply]
      cases v.ec2Client.respond (t ++ [⟨Call.DeleteNatGateway natGW.NatGatewayId, .ok r⟩])
          (Call.WaitNatGatewayDeleted natGW.NatGatewayId) with
      | error e => rfl
      | ok r => rfl

theorem stageIGW_eq (v : Client) (d : Details) (opts : DeleteOptions) (vpc : Vpc)
    (hv : d.VPC = some vpc) :
    (if d.InternetGateway.isSome then deleteIGW v d opts else pure none) =
      issueAll v (match d.InternetGateway with
        | some igw =>
          [Call.DetachInternetGateway igw.InternetGatewayId vpc.VpcId,
            Call.DeleteInternetGateway igw.InternetGatewayId]
        | none => []) := by
  funext t
  cases hn : d.InternetGateway with
  | none => rfl
  | some igw =>
    simp only [Option.isSome_some, if_true, deleteIGW, hn, hv, issueAll, bind_apply, ec2_apply]
    cases v.ec2Client.respond t (Call.DetachInternetGateway igw.InternetGatewayId vpc.VpcId) with
    | error e => rfl
    | ok r =>
      simp only [bind_apply, ec2_apply]
      cases v.ec2Client.respond
          (t ++ [⟨Call.DetachInternetGateway igw.InternetGatewayId vpc.VpcId, .ok r⟩])
          (Call.DeleteInternetGateway igw.InternetGatewayId) with
      | error e => rfl
      | ok r => rfl

theorem stageRouteTables_eq (v : Client) (d : Details) (opts : DeleteOptions) :
    (if d.RouteTables.length != 0 then deleteRouteTables v d opts else pure none) =
      issueAll v (d.RouteTables.flatMap routeTableTeardown) := by
  cases hn : d.RouteTables with
  | nil => rfl
  | cons rt rest =>
    have : ((rt :: rest).length != 0) = true := by simp
    simp only [this, if_true, deleteRouteTables, hn, deleteRouteTablesLoop_eq]

theorem stageSubnets_eq (v : Client) (d : Details) (opts : DeleteOptions) :
    (if d.Subnets.length != 0 then deleteSubnets v d opts else pure none) =
      issueAll v (d.Subnets.map (fun subnet => Call.DeleteSubnet subnet.SubnetId)) := by
  cases hn : d.Subnets with
  | nil => rfl
  | cons sn rest =>
    have : ((sn :: rest).length != 0) = true := by simp
    simp only [this, if_true, deleteSubnets, hn, deleteSubnetsLoop_eq]

theorem stageVPC_eq (v : Client) (d : Details) (opts : DeleteOptions) (vpc : Vpc)
    (hv : d.VPC = some vpc) :
    (if d.VPC.isSome then deleteVPC v d opts else pure none) =
      issueAll v [Call.DeleteVpc vpc.VpcId] := by
  funext t
  simp only [hv, Option.isSome_some, if_true, deleteVPC, issueAll, bind_apply, ec2_apply]
  cases v.ec2Client.respond t (Call.DeleteVpc vpc.VpcId) with
  | error e => rfl
  | ok r => rfl

/-- After a discovery without error, `Delete` issues the reference sequence,
stopping at the first rejected call. -/
theorem Delete_eq_issueAll (v : Client) (opts : DeleteOptions) (t t1 : Trace) (d : Details)
    (vpc : Vpc) (h : Get v ⟨opts.Name⟩ t = (.ret (d, none), t1)) (hv : d.VPC = some vpc) :
    Delete v opts t =
      match issueAll v (deleteCallsSpec d vpc.VpcId) t1 with
      | (.ret e, t2) => (.ret (d, e), t2)
      | (.crash, t2) => (.crash, t2) := by
  simp only [Delete, bind_apply, h, deleteCallsSpec, issueAll_append, stageNATGW_eq,
    stageIGW_eq v d opts vpc hv, stageRouteTables_eq, stageSubnets_eq, stageVPC_eq v d opts vpc hv]
  generalize issueAll v (match d.NATGateway with
        | some natGW =>
          [Call.DeleteNatGateway natGW.NatGatewayId,
            Call.WaitNatGatewayDeleted natGW.NatGatewayId] ++
            natGW.NatGatewayAddresses.map (fun a => Call.ReleaseAddress a.AllocationId)
        | none => []) t1 = r1
  rcases r1 with ⟨_ | _, t2⟩
  · rename_i e
    cases e with
    | some err => rfl
    | none =>
      simp only [bind_apply]
      generalize issueAll v (match d.InternetGateway with
        | some igw =>
          [Call.DetachInternetGateway igw.InternetGatewayId vpc.VpcId,
            Call.DeleteInternetGateway igw.InternetGatewayId]
        | none => []) t2 = r2
      rcases r2 with ⟨_ | _, t3⟩
      · rename_i e
        cases e with
        | some err => rfl
        | none =>
          simp only [bind_apply]
          generalize issueAll v (d.RouteTables.flatMap routeTableTeardown) t3 = r3
          rcases r3 with ⟨_ | _, t4⟩
          · rename_i e
            cases e with
            | some err => rfl
            | none =>
              simp only [bind_apply]
              generalize issueAll v
                (d.Subnets.map (fun subnet => Call.DeleteSubnet subnet.SubnetId)) t4 = r4
              rcases r4 with ⟨_ | _, t5⟩
              · rename_i e
                cases e with
                | some err => rfl
                | none =>
                  simp only [bind_apply]
                  generalize issueAll v [Call.DeleteVpc vpc.VpcId] t5 = r5
                  rcases r5 with ⟨_ | _, t6⟩
                  · rename_i e
                    cases e <;> rfl
                  · rfl
              · rfl
          · rfl
      · rfl
  · rfl

theorem calls_append (a b : Trace) : calls (a ++ b) = calls a ++ calls b := by
  simp [calls]

/-- A run of `issueAll`: it returns, every logged event is the provider's
answer, and either all calls were issued and succeeded, or the log ends with
the one rejected call. -/
theorem issueAll_run (v : Client) (cs : List Call) (t : Trace) :
    ∃ e evs, issueAll v cs t = (.ret e, t ++ evs) ∧ Answers v t evs ∧ calls evs <+: cs ∧
      ((e = none ∧ calls evs = cs ∧ ∀ ev ∈ evs, ev.succeeded = true) ∨
       (∃ err pre c, e = some err ∧ evs = pre ++ [Event.failed c err] ∧
          ∀ ev ∈ pre, ev.succeeded = true)) := by
  induction cs generalizing t with
  | nil =>
    exact ⟨none, [], by simp [issueAll, pure_apply], trivial, by simp [calls],
      Or.inl ⟨rfl, rfl, by simp⟩⟩
  | cons c rest ih =>
    simp only [issueAll, bind_apply, ec2_apply]
    cases hr : v.ec2Client.respond t c with
    | error err =>
      refine ⟨some err, [Event.failed c err], rfl, ⟨hr, trivial⟩, ?_, Or.inr ⟨err, [], c, rfl, rfl, ?_⟩⟩
      · simp [calls, Event.failed]
      · simp
    | ok r =>
      obtain ⟨e, evs, h1, h2, h3, h4⟩ := ih (t ++ [⟨c, .ok r⟩])
      refine ⟨e, ⟨c, .ok r⟩ :: evs, ?_, ⟨hr, h2⟩, ?_, ?_⟩
      · simp only [h1, List.append_assoc, List.singleton_append]
      · simpa [calls] using h3
      · rcases h4 with ⟨he, hc, hs⟩ | ⟨err, pre, c2, he, hevs, hs⟩
        · refine Or.inl ⟨he, by simp [calls] at hc ⊢; exact hc, ?_⟩
          intro ev hev
          rcases List.mem_cons.1 hev with rfl | hev
          · rfl
          · exact hs ev hev
        · refine Or.inr ⟨err, ⟨c, .ok r⟩ :: pre, c2, he, by simp [hevs], ?_⟩
          intro ev hev
          rcases List.mem_cons.1 hev with rfl | hev
          · rfl
          · exact hs ev hev

theorem deleteCallsSpec_isDeletion (d : Details) (vpcId : String) :
    ∀ c ∈ deleteCallsSpec d vpcId, c.isDeletion = true := by
  intro c hc
  simp only [deleteCallsSpec, routeTableTeardown, List.mem_append, List.mem_flatMap,
    List.mem_map, List.mem_singleton] at hc
  rcases hc with hc | hc | hc | hc | hc
  · cases hn : d.NATGateway with
    | none => simp [hn] at hc
    | some natGW =>
      simp only [hn, List.mem_append, List.mem_cons, List.mem_map, List.mem_singleton,
        List.not_mem_nil, or_false] at hc
      rcases hc with (rfl | rfl) | ⟨a, _, rfl⟩ <;> rfl
  · cases hn : d.InternetGateway with
    | none => simp [hn] at hc
    | some igw =>
      simp only [hn, List.mem_cons, List.mem_singleton, List.not_mem_nil, or_false] at hc
      rcases hc with rfl | rfl <;> rfl
  · obtain ⟨rt, _, hc⟩ := hc
    rcases hc with (⟨r, _, rfl⟩ | ⟨a, _, rfl⟩) | rfl <;> rfl
  · obtain ⟨sn, _, rfl⟩ := hc
    rfl
  · subst hc
    rfl

/-- C3. After a successful discovery returning `d`, on a provider on which
every deletion call succeeds, `Delete` returns `d` without error and the calls
it issues after discovery are exactly the reference sequence computed from `d`:
NAT gateway (delete, wait, one release per address) if present, internet
gateway (detach, delete) if present, per route table the routes to an
internet gateway, the associations and the table, the subnets, and finally
the network.  Absent or empty fields contribute no call and no error. -/
theorem Delete_call_sequence (v : Client) (opts : DeleteOptions) (t t1 : Trace) (d : Details)
    (hget : Get v ⟨opts.Name⟩ t = (.ret (d, none), t1))
    (hok : ∀ t c, c.isDeletion = true → ∃ r, v.ec2Client.respond t c = .ok r) :
    ∃ vpc evs, d.VPC = some vpc ∧ Delete v opts t = (.ret (d, none), t1 ++ evs) ∧
      calls evs = deleteCallsSpec d vpc.VpcId ∧ ∀ ev ∈ evs, ev.succeeded = true := by
  obtain ⟨d2, e2, t2, hg, hv⟩ := Get_returns v ⟨opts.Name⟩ t
  rw [hget] at hg
  simp only [Prod.mk.injEq, Outcome.ret.injEq] at hg
  obtain ⟨⟨rfl, rfl⟩, rfl⟩ := hg
  obtain ⟨vpc, hvpc⟩ := hv rfl
  obtain ⟨e, evs, h1, h2, h3, h4⟩ := issueAll_run v (deleteCallsSpec d vpc.VpcId) t1
  refine ⟨vpc, evs, hvpc, ?_⟩
  rw [Delete_eq_issueAll v opts t t1 d vpc hget hvpc, h1]
  rcases h4 with ⟨rfl, hc, hs⟩ | ⟨err, pre, c, rfl, hevs, _⟩
  · exact ⟨rfl, hc, hs⟩
  · exfalso
    subst hevs
    have hmem : c ∈ deleteCallsSpec d vpc.VpcId := by
      apply h3.subset
      simp [calls, Event.failed]
    obtain ⟨r, hr⟩ := hok (t1 ++ pre) c (deleteCallsSpec_isDeletion d vpc.VpcId c hmem)
    have hA := ((Answers_append v t1 pre [Event.failed c err]).1 h2).2.1
    simp only [Event.failed] at hA
    rw [hr] at hA
    cases hA

theorem Delete_call_sequence_witness :
    ∃ vpc evs, (⟨some demoVpc, demoSubnets, demoRouteTables, some demoIGW, some demoNATGW⟩ :
        Details).VPC = some vpc ∧
      Delete (clientOf (okProvider true false demoWorld)) ⟨"demo", false⟩ [] =
        (.ret (⟨some demoVpc, demoSubnets, demoRouteTables, some demoIGW, some demoNATGW⟩, none),
          [Event.ok (queryVpcs "demo") [demoVpc], Event.ok (querySubnets "vpc-1") demoSubnets,
            Event.ok (queryRouteTables "vpc-1") demoRouteTables,
            Event.ok (queryIGWs "vpc-1") [demoIGW],
            Event.ok (queryNATGWs "vpc-1") [demoNATGW]] ++ evs) ∧
      calls evs = deleteCallsSpec
        ⟨some demoVpc, demoSubnets, demoRouteTables, some demoIGW, some demoNATGW⟩ vpc.VpcId ∧
      ∀ ev ∈ evs, ev.succeeded = true :=
  Delete_call_sequence (clientOf (okProvider true false demoWorld)) ⟨"demo", false⟩ [] _ _ rfl
    (by intro t c _; cases c <;> exact ⟨_, rfl⟩)

/-- C4. `Delete` always returns the `Details` that `Get` returned at the start
of the call.  When discovery fails, `Delete` returns that error and issues no
deletion call at all.  When a deletion call is rejected, it is the last call
`Delete` issues and its error is the one returned. -/
theorem Delete_failure_frame (v : Client) (opts : DeleteOptions) (t : Trace) :
    ∃ d eG t1 eD evs,
      Get v ⟨opts.Name⟩ t = (.ret (d, eG), t1) ∧
      Delete v opts t = (.ret (d, eD), t1 ++ evs) ∧
      Answers v t1 evs ∧
      (∀ e, eG = some e → eD = some e ∧ evs = []) ∧
      (∀ pre ev post e, evs = pre ++ ev :: post → ev.result = .error e →
        post = [] ∧ eD = some e) ∧
      (∀ e, eG = none → eD = some e → ∃ pre c, evs = pre ++ [Event.failed c e]) := by
  obtain ⟨d, eG, t1, hg, hv⟩ := Get_returns v ⟨opts.Name⟩ t
  cases eG with
  | some e =>
    refine ⟨d, some e, t1, some e, [], hg, ?_, trivial, ?_, ?_, ?_⟩
    · simpa using Delete_of_Get_error v opts t t1 d e hg
    · intro e2 he
      exact ⟨he, rfl⟩
    · intro pre ev post e2 he
      simp at he
    · intro e2 he
      cases he
  | none =>
    obtain ⟨vpc, hvpc⟩ := hv rfl
    obtain ⟨e, evs, h1, h2, h3, h4⟩ := issueAll_run v (deleteCallsSpec d vpc.VpcId) t1
    refine ⟨d, none, t1, e, evs, hg, ?_, h2, ?_, ?_, ?_⟩
    · rw [Delete_eq_issueAll v opts t t1 d vpc hg hvpc, h1]
    · intro e2 he
      cases he
    · intro pre ev post e2 hevs hres
      have hfail : ev.succeeded = false := by simp [Event.succeeded, hres]
      rcases h4 with ⟨_, _, hs⟩ | ⟨err, pre2, c, rfl, hevs2, hs⟩
      · have := hs ev (by simp [hevs])
        rw [hfail] at this
        cases this
      · rw [hevs] at hevs2
        rcases List.eq_nil_or_concat post with rfl | ⟨post2, x, rfl⟩
        · have h5 := List.append_inj' hevs2 rfl
          obtain ⟨_, h6⟩ := h5
          simp only [List.cons.injEq, and_true] at h6
          subst h6
          simp only [Event.failed] at hres
          cases hres
          exact ⟨rfl, rfl⟩
        · exfalso
          rw [List.concat_eq_append] at hevs2
          have h5 : pre ++ ev :: post2 = pre2 := by
            have h6 : pre ++ ev :: (post2 ++ [x]) = (pre ++ ev :: post2) ++ [x] := by simp
            rw [h6] at hevs2
            exact (List.append_inj' hevs2 rfl).1
          have := hs ev (by simp [← h5])
          rw [hfail] at this
          cases this
    · intro e2 _ he
      rcases h4 with ⟨rfl, _, _⟩ | ⟨err, pre2, c, rfl, hevs2, _⟩
      · cases he
      · cases he
        exact ⟨pre2, c, hevs2⟩

theorem Delete_failure_frame_witness :
    ∃ d eG t1 eD evs,
      Get (clientOf (failFrom 7 (.provider "denied") (okProvider true false demoWorld))) ⟨"demo"⟩ [] =
        (.ret (d, eG), t1) ∧
      Delete (clientOf (failFrom 7 (.provider "denied") (okProvider true false demoWorld)))
        ⟨"demo", false⟩ [] = (.ret (d, eD), t1 ++ evs) ∧
      Answers (clientOf (failFrom 7 (.provider "denied") (okProvider true false demoWorld))) t1 evs ∧
      (∀ e, eG = some e → eD = some e ∧ evs = []) ∧
      (∀ pre ev post e, evs = pre ++ ev :: post → ev.result = .error e →
        post = [] ∧ eD = some e) ∧
      (∀ e, eG = none → eD = some e → ∃ pre c, evs = pre ++ [Event.failed c e]) :=
  Delete_failure_frame (clientOf (failFrom 7 (.provider "denied") (okProvider true false demoWorld)))
    ⟨"demo", false⟩ []

/-! ## Discovery: not found, first match, absent gateways -/

/-- C6. When the network query succeeds with zero networks, `Get` and `Delete`
fail with the not-found error and a `Details` in which every field is absent,
after that one query.  When it returns one or more networks, the first one is
the one used whatever the others are: it is the network of the `Details`, and
every later query is scoped by its id. -/
theorem Get_network_lookup (v : Client) (name : String) (t : Trace) :
    (Answers v t [Event.ok (queryVpcs name) []] →
      Get v ⟨name⟩ t = (.ret (⟨none, [], [], none, none⟩,
          some (.errorf ("VPC " ++ name ++ " not found"))),
        t ++ [Event.ok (queryVpcs name) []]) ∧
      ∀ unowned, Delete v ⟨name, unowned⟩ t = (.ret (⟨none, [], [], none, none⟩,
          some (.errorf ("VPC " ++ name ++ " not found"))),
        t ++ [Event.ok (queryVpcs name) []])) ∧
    (∀ vpc vpcs, Answers v t [Event.ok (queryVpcs name) (vpc :: vpcs)] →
      ∃ d e evs, Get v ⟨name⟩ t =
          (.ret (d, e), t ++ Event.ok (queryVpcs name) (vpc :: vpcs) :: evs) ∧
        d.VPC = some vpc ∧ evs ≠ [] ∧
        ∀ ev ∈ evs, ev.call ∈ [querySubnets vpc.VpcId, queryRouteTables vpc.VpcId,
          queryIGWs vpc.VpcId, queryNATGWs vpc.VpcId]) := by
  constructor
  · intro h
    have hg := Get_not_found v ⟨name⟩ t h.1
    refine ⟨hg, fun unowned => ?_⟩
    exact Delete_of_Get_error v ⟨name, unowned⟩ t _ _ _ hg
  · intro vpc vpcs h
    have hf := Get_found v ⟨name⟩ t vpc vpcs h.1
    simp only [] at hf
    rw [hf]
    have key : ∀ (d : Details) (e : Option Error) (evs : Trace), d.VPC = some vpc → evs ≠ [] →
        (∀ ev ∈ evs, ev.call ∈ [querySubnets vpc.VpcId, queryRouteTables vpc.VpcId,
          queryIGWs vpc.VpcId, queryNATGWs vpc.VpcId]) →
        ∃ d2 e2 evs2, ((.ret (d, e), t ++ [Event.ok (queryVpcs name) (vpc :: vpcs)] ++ evs) :
            Outcome (Details × Option Error) × Trace) =
            (.ret (d2, e2), t ++ Event.ok (queryVpcs name) (vpc :: vpcs) :: evs2) ∧
          d2.VPC = some vpc ∧ evs2 ≠ [] ∧
          ∀ ev ∈ evs2, ev.call ∈ [querySubnets vpc.VpcId, queryRouteTables vpc.VpcId,
            queryIGWs vpc.VpcId, queryNATGWs vpc.VpcId] := by
      intro d e evs h1 h2 h3
      exact ⟨d, e, evs, by simp, h1, h2, h3⟩
    split
    · simpa using key _ _ [_] rfl (by simp) (by simp [Event.failed])
    · split
      · simpa using key _ _ [_, _] rfl (by simp) (by simp [Event.failed, Event.ok])
      · split
        · simpa using key _ _ [_, _, _] rfl (by simp) (by simp [Event.failed, Event.ok])
        · split
          · simpa using key _ _ [_, _, _, _] rfl (by simp) (by simp [Event.failed, Event.ok])
          · simpa using key _ _ [_, _, _, _] rfl (by simp) (by simp [Event.failed, Event.ok])

theorem Get_network_lookup_witness :
    ∃ d e evs, Get (clientOf (okProvider true false twinWorld)) ⟨"demo"⟩ [] =
        (.ret (d, e), [] ++ Event.ok (queryVpcs "demo")
          ({ demoVpc with VpcId := "vpc-2" } :: [demoVpc]) :: evs) ∧
      d.VPC = some { demoVpc with VpcId := "vpc-2" } ∧ evs ≠ [] ∧
      ∀ ev ∈ evs, ev.call ∈ [querySubnets "vpc-2", queryRouteTables "vpc-2",
        queryIGWs "vpc-2", queryNATGWs "vpc-2"] :=
  (Get_network_lookup (clientOf (okProvider true false twinWorld)) "demo" []).2
    { demoVpc with VpcId := "vpc-2" } [demoVpc] ⟨rfl, trivial⟩

/-- C7. The internet-gateway lookup and the NAT-gateway lookup each have three
outcomes: the query is rejected (the error comes back), the query succeeds
with no result (no error, absent value), the query succeeds with at least one
result (no error, the first result).  So `Get` succeeds, with both gateways
absent, for a network that has neither. -/
theorem gateway_lookup_outcomes (v : Client) (vpcID : String) (opts : GetOptions) (t : Trace) :
    (∀ e, Answers v t [Event.failed (queryIGWs vpcID) e] →
      getIGW v vpcID opts t = (.ret (none, some e), t ++ [Event.failed (queryIGWs vpcID) e])) ∧
    (Answers v t [Event.ok (queryIGWs vpcID) []] →
      getIGW v vpcID opts t = (.ret (none, none), t ++ [Event.ok (queryIGWs vpcID) []])) ∧
    (∀ igw igws, Answers v t [Event.ok (queryIGWs vpcID) (igw :: igws)] →
      getIGW v vpcID opts t =
        (.ret (some igw, none), t ++ [Event.ok (queryIGWs vpcID) (igw :: igws)])) ∧
    (∀ e, Answers v t [Event.failed (queryNATGWs vpcID) e] →
      getNATGW v vpcID opts t =
        (.ret (none, some e), t ++ [Event.failed (queryNATGWs vpcID) e])) ∧
    (Answers v t [Event.ok (queryNATGWs vpcID) []] →
      getNATGW v vpcID opts t = (.ret (none, none), t ++ [Event.ok (queryNATGWs vpcID) []])) ∧
    (∀ natGW natGWs, Answers v t [Event.ok (queryNATGWs vpcID) (natGW :: natGWs)] →
      getNATGW v vpcID opts t =
        (.ret (some natGW, none), t ++ [Event.ok (queryNATGWs vpcID) (natGW :: natGWs)])) ∧
    (∀ vpc vpcs subnets routeTables,
      Answers v t [Event.ok (queryVpcs opts.Name) (vpc :: vpcs),
        Event.ok (querySubnets vpc.VpcId) subnets,
        Event.ok (queryRouteTables vpc.VpcId) routeTables,
        Event.ok (queryIGWs vpc.VpcId) [],
        Event.ok (queryNATGWs vpc.VpcId) []] →
      Get v opts t = (.ret (⟨some vpc, subnets, routeTables, none, none⟩, none),
        t ++ [Event.ok (queryVpcs opts.Name) (vpc :: vpcs),
          Event.ok (querySubnets vpc.VpcId) subnets,
          Event.ok (queryRouteTables vpc.VpcId) routeTables,
          Event.ok (queryIGWs vpc.VpcId) [],
          Event.ok (queryNATGWs vpc.VpcId) []])) := by
  refine ⟨?_, ?_, ?_, ?_, ?_, ?_, ?_⟩
  · intro e h
    simp only [Answers, Event.failed] at h
    simp only [getIGW_apply, h.1, Event.failed]
  · intro h
    simp only [Answers, Event.ok] at h
    simp only [getIGW_apply, h.1, Event.ok, List.head?_nil]
  · intro igw igws h
    simp only [Answers, Event.ok] at h
    simp only [getIGW_apply, h.1, Event.ok, List.head?_cons]
  · intro e h
    simp only [Answers, Event.failed] at h
    simp only [getNATGW_apply, h.1, Event.failed]
  · intro h
    simp only [Answers, Event.ok] at h
    simp only [getNATGW_apply, h.1, Event.ok, List.head?_nil]
  · intro natGW natGWs h
    simp only [Answers, Event.ok] at h
    simp only [getNATGW_apply, h.1, Event.ok, List.head?_cons]
  · intro vpc vpcs subnets routeTables h
    exact Get_all_answered v opts t vpc vpcs subnets routeTables [] [] h

theorem gateway_lookup_outcomes_witness :
    Get (clientOf (okProvider true false bareWorld)) ⟨"demo"⟩ [] =
      (.ret (⟨some demoVpc, demoSubnets, demoRouteTables, none, none⟩, none),
        [] ++ [Event.ok (queryVpcs "demo") (demoVpc :: []),
          Event.ok (querySubnets "vpc-1") demoSubnets,
          Event.ok (queryRouteTables "vpc-1") demoRouteTables,
          Event.ok (queryIGWs "vpc-1") [],
          Event.ok (queryNATGWs "vpc-1") []]) :=
  (gateway_lookup_outcomes (clientOf (okProvider true false bareWorld)) "vpc-1" ⟨"demo"⟩ []).2.2.2.2.2.2
    demoVpc [] demoSubnets demoRouteTables ⟨rfl, rfl, rfl, rfl, rfl, trivial⟩

/-! ## Create: the steps -/

theorem subnetType_eq_public (subnet : CreateSubnetOptions) :
    ((if subnet.Public then SubnetTypePublic else SubnetTypePrivate) == SubnetTypePublic)
      = subnet.Public := by
  cases subnet.Public <;> decide

theorem createVPC_apply (v : Client) (opts : CreateOptions) (t : Trace) :
    createVPC v opts t =
      (match v.ec2Client.respond t (createVpcCall opts) with
        | .error e => .ret (none, some e)
        | .ok vpc => .ret (some vpc, none),
       t ++ [⟨createVpcCall opts, v.ec2Client.respond t (createVpcCall opts)⟩]) := by
  simp only [createVPC, bind_apply, ec2_apply]
  cases v.ec2Client.respond t (createVpcCall opts) <;> rfl

theorem createVPC_ok (v : Client) (opts : CreateOptions) (vpc : Vpc) (t : Trace)
    (h : v.ec2Client.respond t (createVpcCall opts) = .ok vpc) :
    createVPC v opts t =
      (.ret (some vpc, none), t ++ [Event.ok (createVpcCall opts) vpc]) := by
  rw [createVPC_apply, h]
  rfl

theorem withDefaultSubnets_of_ne (v : Client) (opts : CreateOptions) (h : opts.Subnets ≠ []) :
    withDefaultSubnets v opts = opts := by
  cases hs : opts.Subnets with
  | nil => exact absurd hs h
  | cons a l => simp [withDefaultSubnets, hs]

/-- First pass of `createSubnets`, every creation succeeding. -/
theorem createSubnetsLoop_ok (v : Client) (vpcID : String) (opts : CreateOptions)
    (specs : List CreateSubnetOptions) (outs acc : List Subnet) (t : Trace)
    (hlen : outs.length = specs.length)
    (h : Answers v t (subnetEvents opts vpcID specs outs)) :
    createSubnetsLoop v vpcID opts specs acc t =
      (.ret (.ok (acc ++ recordedSubnets specs outs)),
        t ++ subnetEvents opts vpcID specs outs) := by
  induction specs generalizing outs acc t with
  | nil =>
    cases outs with
    | nil => simp [createSubnetsLoop, recordedSubnets, subnetEvents, pure_apply]
    | cons o os => simp at hlen
  | cons subnet specs ih =>
    cases outs with
    | nil => simp at hlen
    | cons out outs =>
      simp only [subnetEvents, Answers, Event.ok] at h
      simp only [createSubnetsLoop, bind_apply, ec2_apply, subnetType_eq_public]
      have h1 := h.1
      simp only [createSubnetCall, CreateSubnetOptions.subnetType] at h1
      simp only [h1]
      have hlen2 : outs.length = specs.length := by simpa using hlen
      refine (ih outs _ _ hlen2 h.2).trans ?_
      simp only [recordedSubnets, subnetEvents, Event.ok, List.append_assoc,
        List.singleton_append]

/-- First pass of `createSubnets`, the creation for `subnet` being the first
one rejected. -/
theorem createSubnetsLoop_failed (v : Client) (vpcID : String) (opts : CreateOptions)
    (pre : List CreateSubnetOptions) (subnet : CreateSubnetOptions)
    (post : List CreateSubnetOptions) (outs acc : List Subnet) (e : Error) (t : Trace)
    (hlen : outs.length = pre.length)
    (h : Answers v t (subnetEvents opts vpcID pre outs ++
      [Event.failed (createSubnetCall opts vpcID subnet) e])) :
    createSubnetsLoop v vpcID opts (pre ++ subnet :: post) acc t =
      (.ret (.error e), t ++ (subnetEvents opts vpcID pre outs ++
        [Event.failed (createSubnetCall opts vpcID subnet) e])) := by
  induction pre generalizing outs acc t with
  | nil =>
    cases outs with
    | cons o os => simp at hlen
    | nil =>
      simp only [subnetEvents, List.nil_append, Answers, Event.failed] at h
      have h1 := h.1
      simp only [createSubnetCall, CreateSubnetOptions.subnetType] at h1
      simp only [List.nil_append, createSubnetsLoop, bind_apply, ec2_apply, h1, pure_apply,
        subnetEvents, Event.failed, createSubnetCall, CreateSubnetOptions.subnetType]
  | cons p pre ih =>
    cases outs with
    | nil => simp at hlen
    | cons out outs =>
      simp only [subnetEvents, List.cons_append, Answers, Event.ok] at h
      simp only [List.cons_append, createSubnetsLoop, bind_apply, ec2_apply,
        subnetType_eq_public]
      have h1 := h.1
      simp only [createSubnetCall, CreateSubnetOptions.subnetType] at h1
      simp only [h1]
      have hlen2 : outs.length = pre.length := by simpa using hlen
      refine (ih outs _ _ hlen2 h.2).trans ?_
      simp only [subnetEvents, Event.ok, List.append_assoc, List.singleton_append,
        List.cons_append, List.nil_append]

theorem modifyEvents_cons (opts : CreateOptions) (subnet : Subnet) (rest : List Subnet) :
    modifyEvents opts (subnet :: rest) =
      (if needsModify opts subnet then
        [Event.ok (.ModifySubnetAttribute subnet.SubnetId true) ()] else []) ++
      modifyEvents opts rest := by
  simp only [modifyEvents, List.filter_cons]
  cases needsModify opts subnet <;> simp

/-- Second pass of `createSubnets`, every lookup and modification succeeding. -/
theorem modifySubnetsLoop_ok (v : Client) (opts : CreateOptions) (subnets : List Subnet)
    (t : Trace) (hspec : ∀ s ∈ subnets, (specOf opts s).isSome = true)
    (h : Answers v t (modifyEvents opts subnets)) :
    modifySubnetsLoop v opts subnets t = (.ret none, t ++ modifyEvents opts subnets) := by
  induction subnets generalizing t with
  | nil => simp [modifySubnetsLoop, modifyEvents, pure_apply]
  | cons subnet rest ih =>
    have hs := hspec subnet (by simp)
    have hrest : ∀ s ∈ rest, (specOf opts s).isSome = true :=
      fun s hs => hspec s (by simp [hs])
    rw [modifyEvents_cons] at h ⊢
    obtain ⟨so, hso⟩ := Option.isSome_iff_exists.1 hs
    have hso2 : opts.Subnets.find? (fun subnetOpts => subnetOpts.CIDR == subnet.CidrBlock)
        = some so := hso
    have hnm : needsModify opts subnet = so.Public := by simp [needsModify, hso]
    simp only [modifySubnetsLoop, hso2]
    rw [hnm] at h ⊢
    cases hp : so.Public with
    | false =>
      simp only [hp, Bool.false_eq_true, if_false, List.nil_append] at h ⊢
      exact ih t hrest h
    | true =>
      simp only [hp, if_true, List.singleton_append, Answers, Event.ok] at h ⊢
      simp only [bind_apply, ec2_apply, h.1]
      refine (ih _ hrest (by simpa using h.2)).trans ?_
      simp only [List.append_assoc, List.singleton_append, List.nil_append]

/-- Second pass of `createSubnets`, the modification of `subnet` being the
first call rejected. -/
theorem modifySubnetsLoop_failed (v : Client) (opts : CreateOptions) (pre : List Subnet)
    (subnet : Subnet) (post : List Subnet) (e : Error) (t : Trace)
    (hspec : ∀ s ∈ pre, (specOf opts s).isSome = true)
    (hm : needsModify opts subnet = true)
    (h : Answers v t (modifyEvents opts pre ++
      [Event.failed (.ModifySubnetAttribute subnet.SubnetId true) e])) :
    modifySubnetsLoop v opts (pre ++ subnet :: post) t =
      (.ret (some e), t ++ (modifyEvents opts pre ++
        [Event.failed (.ModifySubnetAttribute subnet.SubnetId true) e])) := by
  induction pre generalizing t with
  | nil =>
    simp only [modifyEvents, List.filter_nil, List.map_nil, List.nil_append, Answers,
      Event.failed] at h ⊢
    cases hso : specOf opts subnet with
    | none => simp [needsModify, hso] at hm
    | some so =>
      have hso2 : opts.Subnets.find? (fun subnetOpts => subnetOpts.CIDR == subnet.CidrBlock)
          = some so := hso
      have hp : so.Public = true := by simpa [needsModify, hso] using hm
      simp only [modifySubnetsLoop, hso2, hp, if_true, bind_apply, ec2_apply, h.1, pure_apply]
  | cons s rest ih =>
    have hs := hspec s (by simp)
    have hrest : ∀ x ∈ rest, (specOf opts x).isSome = true :=
      fun x hx => hspec x (by simp [hx])
    rw [modifyEvents_cons] at h ⊢
    obtain ⟨so, hso⟩ := Option.isSome_iff_exists.1 hs
    have hso2 : opts.Subnets.find? (fun subnetOpts => subnetOpts.CIDR == s.CidrBlock)
        = some so := hso
    have hnm : needsModify opts s = so.Public := by simp [needsModify, hso]
    simp only [List.cons_append, modifySubnetsLoop, hso2]
    rw [hnm] at h ⊢
    cases hp : so.Public with
    | false =>
      simp only [hp, Bool.false_eq_true, if_false, List.nil_append] at h ⊢
      exact ih t hrest h
    | true =>
      simp only [hp, if_true, List.singleton_append, List.cons_append, Answers, Event.ok] at h ⊢
      simp only [bind_apply, ec2_apply, h.1]
      refine (ih _ hrest (by simpa using h.2)).trans ?_
      simp only [List.append_assoc, List.singleton_append, List.nil_append]

theorem createSubnets_ok (v : Client) (vpcID : String) (opts : CreateOptions)
    (outs : List Subnet) (t : Trace) (hlen : outs.length = opts.Subnets.length)
    (hspec : ∀ s ∈ recordedSubnets opts.Subnets outs, (specOf opts s).isSome = true)
    (h : Answers v t (subnetEvents opts vpcID opts.Subnets outs ++
      modifyEvents opts (recordedSubnets opts.Subnets outs))) :
    createSubnets v vpcID opts t =
      (.ret (recordedSubnets opts.Subnets outs, none),
        t ++ (subnetEvents opts vpcID opts.Subnets outs ++
          modifyEvents opts (recordedSubnets opts.Subnets outs))) := by
  rw [Answers_append] at h
  simp only [createSubnets, bind_apply,
    createSubnetsLoop_ok v vpcID opts opts.Subnets outs [] t hlen h.1, List.nil_append,
    modifySubnetsLoop_ok v opts _ _ hspec h.2, pure_apply, List.append_assoc]

/-- The loop of `createRouteTables` after index 0: the table exists, each
remaining subnet is associated with it. -/
theorem routeTableLoop_succ (v : Client) (opts : CreateOptions) (subnetType : String)
    (rt : RouteTable) (i : Nat) (subnets : List Subnet) (m : RouteTableMap) (t : Trace)
    (h : Answers v t (subnets.map
      (fun s => Event.ok (.AssociateRouteTable rt.RouteTableId s.SubnetId) ()))) :
    routeTableLoop v opts subnetType (i + 1) subnets (some rt) m t =
      (.ret (.ok m), t ++ subnets.map
        (fun s => Event.ok (.AssociateRouteTable rt.RouteTableId s.SubnetId) ())) := by
  induction subnets generalizing i t with
  | nil => simp [routeTableLoop, pure_apply]
  | cons s rest ih =>
    simp only [List.map_cons, Answers, Event.ok] at h
    have hi : (i + 1 == 0) = false := by simp
    simp only [routeTableLoop, hi, Bool.false_eq_true, if_false, bind_apply, pure_apply,
      ec2_apply, h.1]
    refine (ih (i + 1) _ h.2).trans ?_
    simp only [List.map_cons, Event.ok, List.append_assoc, List.singleton_append]

/-- One loop of `createRouteTables`, every call succeeding. -/
theorem routeTableLoop_ok (v : Client) (opts : CreateOptions) (subnetType : String)
    (rt : RouteTable) (subnets : List Subnet) (m : RouteTableMap) (t : Trace)
    (h : Answers v t (tableEvents opts subnetType rt subnets)) :
    routeTableLoop v opts subnetType 0 subnets none m t =
      (.ret (.ok (if subnets.isEmpty then m else m.set subnetType rt)),
        t ++ tableEvents opts subnetType rt subnets) := by
  cases subnets with
  | nil => simp [routeTableLoop, tableEvents, pure_apply]
  | cons s rest =>
    simp only [tableEvents, List.map_cons, Answers, Event.ok] at h
    have h1 := h.1
    simp only [createRouteTableCall] at h1
    simp only [routeTableLoop, beq_self_eq_true, if_true, bind_apply, pure_apply, ec2_apply,
      h1, h.2.1]
    refine (routeTableLoop_succ v opts subnetType rt 0 rest _ _ h.2.2).trans ?_
    simp only [tableEvents, List.map_cons, Event.ok, List.append_assoc, List.singleton_append,
      List.isEmpty_cons, Bool.false_eq_true, if_false]
    rfl

theorem public_beq_private : (SubnetTypePublic == SubnetTypePrivate) = false := by decide

theorem private_beq_public : (SubnetTypePrivate == SubnetTypePublic) = false := by decide

theorem createRouteTables_ok (v : Client) (subnets : List Subnet) (opts : CreateOptions)
    (rtPublic rtPrivate : RouteTable) (t : Trace)
    (h : Answers v t
      (tableEvents opts SubnetTypePublic rtPublic (subnets.filter (fun s => s.MapPublicIpOnLaunch))
        ++ tableEvents opts SubnetTypePrivate rtPrivate
          (subnets.filter (fun s => !s.MapPublicIpOnLaunch)))) :
    createRouteTables v subnets opts t =
      (.ret (tablesOf subnets rtPublic rtPrivate, none), t ++
        (tableEvents opts SubnetTypePublic rtPublic
            (subnets.filter (fun s => s.MapPublicIpOnLaunch))
          ++ tableEvents opts SubnetTypePrivate rtPrivate
            (subnets.filter (fun s => !s.MapPublicIpOnLaunch)))) := by
  rw [Answers_append] at h
  simp only [createRouteTables, bind_apply, routeTableLoop_ok v opts SubnetTypePublic rtPublic _ _ _ h.1,
    routeTableLoop_ok v opts SubnetTypePrivate rtPrivate _ _ _ h.2, pure_apply, List.append_assoc,
    tablesOf]
  congr 3
  cases (subnets.filter (fun s => s.MapPublicIpOnLaunch)).isEmpty <;>
    cases (subnets.filter (fun s => !s.MapPublicIpOnLaunch)).isEmpty <;>
    simp [RouteTableMap.set, public_beq_private]

theorem tablesOf_get_public (subnets : List Subnet) (rtPublic rtPrivate : RouteTable) :
    (tablesOf subnets rtPublic rtPrivate).get SubnetTypePublic =
      if (subnets.filter (fun s => s.MapPublicIpOnLaunch)).isEmpty then none
      else some rtPublic := by
  simp only [tablesOf, RouteTableMap.get]
  cases (subnets.filter (fun s => s.MapPublicIpOnLaunch)).isEmpty <;>
    cases (subnets.filter (fun s => !s.MapPublicIpOnLaunch)).isEmpty <;>
    simp [public_beq_private, private_beq_public]

theorem tablesOf_get_private (subnets : List Subnet) (rtPublic rtPrivate : RouteTable) :
    (tablesOf subnets rtPublic rtPrivate).get SubnetTypePrivate =
      if (subnets.filter (fun s => !s.MapPublicIpOnLaunch)).isEmpty then none
      else some rtPrivate := by
  simp only [tablesOf, RouteTableMap.get]
  cases (subnets.filter (fun s => s.MapPublicIpOnLaunch)).isEmpty <;>
    cases (subnets.filter (fun s => !s.MapPublicIpOnLaunch)).isEmpty <;>
    simp [public_beq_private, private_beq_public]

theorem createIGW_ok (v : Client) (vpcID : String) (rtPublic : RouteTable)
    (opts : CreateOptions) (igw : InternetGateway) (t : Trace)
    (h : Answers v t (igwEvents opts vpcID rtPublic igw)) :
    createIGW v vpcID (some rtPublic) opts t =
      (.ret (some igw, none), t ++ igwEvents opts vpcID rtPublic igw) := by
  simp only [igwEvents, Answers, Event.ok] at h
  simp only [createIGW, bind_apply, ec2_apply, h.1, h.2.1, h.2.2.1, pure_apply]
  simp only [igwEvents, Event.ok, List.append_assoc, List.singleton_append, List.cons_append,
    List.nil_append]

/-- The internet-gateway step when the gateway is created and attached and
the default route is then rejected: the gateway is not handed back. -/
theorem createIGW_route_rejected (v : Client) (vpcID : String) (rtPublic : RouteTable)
    (opts : CreateOptions) (igw : InternetGateway) (e : Error) (t : Trace)
    (h : Answers v t
      [Event.ok (.CreateInternetGateway (flattenTags [⟨"Name", opts.Name⟩] opts)) igw,
        Event.ok (.AttachInternetGateway igw.InternetGatewayId vpcID) (),
        Event.failed (.CreateRoute rtPublic.RouteTableId "0.0.0.0/0"
          (some igw.InternetGatewayId) none) e]) :
    createIGW v vpcID (some rtPublic) opts t =
      (.ret (none, some e), t ++
        [Event.ok (.CreateInternetGateway (flattenTags [⟨"Name", opts.Name⟩] opts)) igw,
          Event.ok (.AttachInternetGateway igw.InternetGatewayId vpcID) (),
          Event.failed (.CreateRoute rtPublic.RouteTableId "0.0.0.0/0"
            (some igw.InternetGatewayId) none) e]) := by
  simp only [Answers, Event.ok, Event.failed] at h
  simp only [createIGW, bind_apply, ec2_apply, h.1, h.2.1, h.2.2.1, pure_apply]
  simp only [Event.ok, Event.failed, List.append_assoc, List.singleton_append, List.cons_append,
    List.nil_append]

theorem createNATGW_ok (v : Client) (subnets : List Subnet) (publicSubnet : Subnet)
    (rest : List Subnet) (rtPrivate : RouteTable) (opts : CreateOptions)
    (eip : AllocateAddressOutput) (natGW : NatGateway) (t : Trace)
    (hp : subnets.filter (fun s => s.MapPublicIpOnLaunch) = publicSubnet :: rest)
    (h : Answers v t (natEvents opts publicSubnet rtPrivate eip natGW)) :
    createNATGW v subnets (some rtPrivate) opts t =
      (.ret (some natGW, none), t ++ natEvents opts publicSubnet rtPrivate eip natGW) := by
  simp only [natEvents, Answers, Event.ok] at h
  simp only [createNATGW, bind_apply, ec2_apply, h.1, hp, h.2.1, h.2.2.1, h.2.2.2.1, pure_apply]
  simp only [natEvents, Event.ok, List.append_assoc, List.singleton_append, List.cons_append,
    List.nil_append]

/-! ## Create: the orchestration -/

/-- C2. If step `k` of `Create` (1 network, 2 subnets, 3 route tables,
4 internet gateway, 5 NAT gateway) is the first step to return an error,
`Create` returns that same error with a `Details` whose fields for steps
`1..k-1` hold exactly the values those steps returned and whose fields for the
steps after `k` are absent, and the log ends where step `k` ended: no call of
a later step is issued. -/
theorem Create_first_error (v : Client) (rev : Bool) (opts : CreateOptions) (t : Trace) :
    (∀ r e t1, createVPC v (withDefaultSubnets v opts) t = (.ret (r, some e), t1) →
      Create v rev opts t = (.ret (⟨r, [], [], none, none⟩, some e), t1)) ∧
    (∀ vpc t1 r e t2,
      createVPC v (withDefaultSubnets v opts) t = (.ret (some vpc, none), t1) →
      createSubnets v vpc.VpcId (withDefaultSubnets v opts) t1 = (.ret (r, some e), t2) →
      Create v rev opts t = (.ret (⟨some vpc, r, [], none, none⟩, some e), t2)) ∧
    (∀ vpc t1 subnets t2 r e t3,
      createVPC v (withDefaultSubnets v opts) t = (.ret (some vpc, none), t1) →
      createSubnets v vpc.VpcId (withDefaultSubnets v opts) t1 = (.ret (subnets, none), t2) →
      createRouteTables v subnets (withDefaultSubnets v opts) t2 = (.ret (r, some e), t3) →
      Create v rev opts t =
        (.ret (⟨some vpc, subnets, loValues rev r, none, none⟩, some e), t3)) ∧
    (∀ vpc t1 subnets t2 routeTables t3 r e t4,
      createVPC v (withDefaultSubnets v opts) t = (.ret (some vpc, none), t1) →
      createSubnets v vpc.VpcId (withDefaultSubnets v opts) t1 = (.ret (subnets, none), t2) →
      createRouteTables v subnets (withDefaultSubnets v opts) t2 =
        (.ret (routeTables, none), t3) →
      createIGW v vpc.VpcId (routeTables.get SubnetTypePublic) (withDefaultSubnets v opts) t3 =
        (.ret (r, some e), t4) →
      Create v rev opts t =
        (.ret (⟨some vpc, subnets, loValues rev routeTables, r, none⟩, some e), t4)) ∧
    (∀ vpc t1 subnets t2 routeTables t3 igw t4 r e t5,
      createVPC v (withDefaultSubnets v opts) t = (.ret (some vpc, none), t1) →
      createSubnets v vpc.VpcId (withDefaultSubnets v opts) t1 = (.ret (subnets, none), t2) →
      createRouteTables v subnets (withDefaultSubnets v opts) t2 =
        (.ret (routeTables, none), t3) →
      createIGW v vpc.VpcId (routeTables.get SubnetTypePublic) (withDefaultSubnets v opts) t3 =
        (.ret (some igw, none), t4) →
      createNATGW v subnets (routeTables.get SubnetTypePrivate) (withDefaultSubnets v opts) t4 =
        (.ret (r, some e), t5) →
      Create v rev opts t =
        (.ret (⟨some vpc, subnets, loValues rev routeTables, some igw, r⟩, some e), t5)) := by
  refine ⟨?_, ?_, ?_, ?_, ?_⟩
  · intro r e t1 h1
    simp only [Create, bind_apply, h1, pure_apply]
  · intro vpc t1 r e t2 h1 h2
    simp only [Create, bind_apply, h1, h2, pure_apply]
  · intro vpc t1 subnets t2 r e t3 h1 h2 h3
    simp only [Create, bind_apply, h1, h2, h3, pure_apply]
  · intro vpc t1 subnets t2 routeTables t3 r e t4 h1 h2 h3 h4
    simp only [Create, bind_apply, h1, h2, h3, h4, pure_apply]
  · intro vpc t1 subnets t2 routeTables t3 igw t4 r e t5 h1 h2 h3 h4 h5
    simp only [Create, bind_apply, h1, h2, h3, h4, h5, pure_apply]

/-- A `Create` run on which every call succeeds and both partitions are
non-empty: the log is the reference sequence. -/
theorem Create_run (v : Client) (rev : Bool) (opts : CreateOptions) (t : Trace)
    (vpc : Vpc) (outs : List Subnet) (rtPublic rtPrivate : RouteTable) (igw : InternetGateway)
    (eip : AllocateAddressOutput) (natGW : NatGateway) (publicSubnet : Subnet)
    (rest : List Subnet)
    (hne : opts.Subnets ≠ [])
    (hlen : outs.length = opts.Subnets.length)
    (hspec : ∀ s ∈ recordedSubnets opts.Subnets outs, (specOf opts s).isSome = true)
    (hpub : (recordedSubnets opts.Subnets outs).filter (fun s => s.MapPublicIpOnLaunch)
      = publicSubnet :: rest)
    (hpriv : (recordedSubnets opts.Subnets outs).filter (fun s => !s.MapPublicIpOnLaunch) ≠ [])
    (h : Answers v t
      (createEvents opts vpc outs rtPublic rtPrivate igw eip natGW publicSubnet)) :
    Create v rev opts t =
      (.ret (⟨some vpc, recordedSubnets opts.Subnets outs,
          loValues rev [(SubnetTypePublic, rtPublic), (SubnetTypePrivate, rtPrivate)],
          some igw, some natGW⟩, none),
        t ++ createEvents opts vpc outs rtPublic rtPrivate igw eip natGW publicSubnet) := by
  have ho : withDefaultSubnets v opts = opts := by
    cases hs : opts.Subnets with
    | nil => exact absurd hs hne
    | cons a l => simp [withDefaultSubnets, hs]
  simp only [createEvents, Answers_append] at h
  obtain ⟨h1, h2, h3, h4, h5, h6, h7⟩ := h
  have hv : v.ec2Client.respond t (createVpcCall opts) = .ok vpc := h1.1
  have hvpc : createVPC v opts t = (.ret (some vpc, none), t ++ [Event.ok (createVpcCall opts) vpc]) := by
    rw [createVPC_apply, hv]
    rfl
  have hsub := createSubnets_ok v vpc.VpcId opts outs _ hlen hspec
    ((Answers_append _ _ _ _).2 ⟨h2, h3⟩)
  have hpe : ((recordedSubnets opts.Subnets outs).filter
      (fun s => s.MapPublicIpOnLaunch)).isEmpty = false := by rw [hpub]; rfl
  have hqe : ((recordedSubnets opts.Subnets outs).filter
      (fun s => !s.MapPublicIpOnLaunch)).isEmpty = false := by
    cases hq : (recordedSubnets opts.Subnets outs).filter (fun s => !s.MapPublicIpOnLaunch) with
    | nil => exact absurd hq hpriv
    | cons a l => rfl
  have hrt := createRouteTables_ok v (recordedSubnets opts.Subnets outs) opts rtPublic rtPrivate
    (t ++ [Event.ok (createVpcCall opts) vpc] ++ (subnetEvents opts vpc.VpcId opts.Subnets outs ++
      modifyEvents opts (recordedSubnets opts.Subnets outs)))
    ((Answers_append _ _ _ _).2 ⟨by simpa only [List.append_assoc] using h4,
      by simpa only [List.append_assoc] using h5⟩)
  have hgp := tablesOf_get_public (recordedSubnets opts.Subnets outs) rtPublic rtPrivate
  have hgq := tablesOf_get_private (recordedSubnets opts.Subnets outs) rtPublic rtPrivate
  simp only [hpe, hqe, Bool.false_eq_true, if_false] at hgp hgq
  have higw := createIGW_ok v vpc.VpcId rtPublic opts igw
    (t ++ [Event.ok (createVpcCall opts) vpc] ++ (subnetEvents opts vpc.VpcId opts.Subnets outs ++
      modifyEvents opts (recordedSubnets opts.Subnets outs)) ++
      (tableEvents opts SubnetTypePublic rtPublic
          ((recordedSubnets opts.Subnets outs).filter (fun s => s.MapPublicIpOnLaunch)) ++
        tableEvents opts SubnetTypePrivate rtPrivate
          ((recordedSubnets opts.Subnets outs).filter (fun s => !s.MapPublicIpOnLaunch))))
    (by simpa only [List.append_assoc] using h6)
  have hnat := createNATGW_ok v (recordedSubnets opts.Subnets outs) publicSubnet rest rtPrivate
    opts eip natGW
    (t ++ [Event.ok (createVpcCall opts) vpc] ++ (subnetEvents opts vpc.VpcId opts.Subnets outs ++
      modifyEvents opts (recordedSubnets opts.Subnets outs)) ++
      (tableEvents opts SubnetTypePublic rtPublic
          ((recordedSubnets opts.Subnets outs).filter (fun s => s.MapPublicIpOnLaunch)) ++
        tableEvents opts SubnetTypePrivate rtPrivate
          ((recordedSubnets opts.Subnets outs).filter (fun s => !s.MapPublicIpOnLaunch))) ++
      igwEvents opts vpc.VpcId rtPublic igw)
    hpub (by simpa only [List.append_assoc] using h7)
  have htab : tablesOf (recordedSubnets opts.Subnets outs) rtPublic rtPrivate =
      [(SubnetTypePublic, rtPublic), (SubnetTypePrivate, rtPrivate)] := by
    simp only [tablesOf, hpe, hqe, Bool.false_eq_true, if_false, List.singleton_append]
  rw [htab] at hrt hgp hgq
  simp only [Create, bind_apply, ho, hvpc, hsub, hrt, hgp, hgq, higw, hnat, pure_apply]
  simp only [createEvents, List.append_assoc]

/-! ## Create on a provider on which every call succeeds -/

/-- Events whose recorded result is the only successful answer their call can
get (calls without a descriptor) are what a provider on which every call
succeeds answers. -/
theorem Answers_of_unit (v : Client) (hok : ∀ t c, ∃ r, v.ec2Client.respond t c = .ok r)
    (evs : List Event) (t : Trace)
    (h : ∀ ev ∈ evs, ∀ a, ev.result = .ok a) : Answers v t evs := by
  induction evs generalizing t with
  | nil => trivial
  | cons ev rest ih =>
    obtain ⟨r, hr⟩ := hok t ev.call
    exact ⟨by rw [hr, h ev (by simp) r], ih _ (fun e he => h e (by simp [he]))⟩

theorem Answers_modifyEvents (v : Client) (hok : ∀ t c, ∃ r, v.ec2Client.respond t c = .ok r)
    (opts : CreateOptions) (subnets : List Subnet) (t : Trace) :
    Answers v t (modifyEvents opts subnets) := by
  apply Answers_of_unit v hok
  intro ev hev a
  simp only [modifyEvents, List.mem_map] at hev
  obtain ⟨s, _, rfl⟩ := hev
  rfl

theorem Answers_tableEvents (v : Client) (hok : ∀ t c, ∃ r, v.ec2Client.respond t c = .ok r)
    (opts : CreateOptions) (subnetType : String) (subnets : List Subnet) (t : Trace) :
    ∃ rt, Answers v t (tableEvents opts subnetType rt subnets) := by
  cases subnets with
  | nil => exact ⟨⟨"", none, [], [], []⟩, trivial⟩
  | cons s rest =>
    obtain ⟨rt, hrt⟩ := hok t (createRouteTableCall opts subnetType s.VpcId)
    refine ⟨rt, hrt, ?_⟩
    apply Answers_of_unit v hok
    intro ev hev a
    simp only [List.mem_map] at hev
    obtain ⟨x, _, rfl⟩ := hev
    rfl

theorem Answers_subnetEvents (v : Client) (hok : ∀ t c, ∃ r, v.ec2Client.respond t c = .ok r)
    (hecho : ∀ t vpcId az cidr tags (out : Subnet),
      v.ec2Client.respond t (.CreateSubnet vpcId az cidr tags) = .ok out →
        out.CidrBlock = cidr ∧ out.MapPublicIpOnLaunch = false)
    (opts : CreateOptions) (vpcID : String) (specs : List CreateSubnetOptions) (t : Trace) :
    ∃ outs, List.Forall₂
        (fun sn (out : Subnet) => out.CidrBlock = sn.CIDR ∧ out.MapPublicIpOnLaunch = false)
        specs outs ∧
      Answers v t (subnetEvents opts vpcID specs outs) := by
  induction specs generalizing t with
  | nil => exact ⟨[], List.Forall₂.nil, trivial⟩
  | cons sn rest ih =>
    obtain ⟨out, hout⟩ := hok t (createSubnetCall opts vpcID sn)
    obtain ⟨outs, hf, ha⟩ := ih (t ++ [Event.ok (createSubnetCall opts vpcID sn) out])
    exact ⟨out :: outs, List.Forall₂.cons (hecho _ _ _ _ _ _ hout) hf, hout, ha⟩

theorem recordedSubnets_spec (specs : List CreateSubnetOptions) (outs : List Subnet)
    (hf : List.Forall₂
      (fun sn (out : Subnet) => out.CidrBlock = sn.CIDR ∧ out.MapPublicIpOnLaunch = false)
      specs outs) :
    (∀ s ∈ recordedSubnets specs outs,
      ∃ sn ∈ specs, s.CidrBlock = sn.CIDR ∧ s.MapPublicIpOnLaunch = sn.Public) ∧
    (∀ sn ∈ specs, ∃ s ∈ recordedSubnets specs outs, s.MapPublicIpOnLaunch = sn.Public) := by
  induction hf with
  | nil => simp [recordedSubnets]
  | @cons sn out specs outs h _ ih =>
    have hrec : (if sn.Public then { out with MapPublicIpOnLaunch := true } else out).CidrBlock
          = sn.CIDR ∧
        (if sn.Public then { out with MapPublicIpOnLaunch := true } else out).MapPublicIpOnLaunch
          = sn.Public := by
      cases hp : sn.Public with
      | false => simpa using h
      | true => simpa using h.1
    constructor
    · intro s hs
      simp only [recordedSubnets, List.mem_cons] at hs
      rcases hs with rfl | hs
      · exact ⟨sn, by simp, hrec⟩
      · obtain ⟨sn2, h1, h2⟩ := ih.1 s hs
        exact ⟨sn2, by simp [h1], h2⟩
    · intro sn2 hsn
      simp only [List.mem_cons] at hsn
      rcases hsn with rfl | hsn
      · exact ⟨_, by simp [recordedSubnets], hrec.2⟩
      · obtain ⟨s, h1, h2⟩ := ih.2 sn2 hsn
        exact ⟨s, by simp [recordedSubnets, h1], h2⟩

theorem specOf_isSome (opts : CreateOptions) (s : Subnet)
    (h : ∃ sn ∈ opts.Subnets, s.CidrBlock = sn.CIDR) : (specOf opts s).isSome = true := by
  obtain ⟨sn, hsn, heq⟩ := h
  simp only [specOf, List.find?_isSome]
  exact ⟨sn, hsn, by simp [heq]⟩

/-- On a provider on which every call succeeds and which reports created
subnets as requested, a `Create` run for a spec with both kinds of subnet is
answered with the reference sequence and returns what it built. -/
theorem Create_succeeds (v : Client) (rev : Bool) (opts : CreateOptions) (t : Trace)
    (hpub : ∃ sn ∈ opts.Subnets, sn.Public = true)
    (hpriv : ∃ sn ∈ opts.Subnets, sn.Public = false)
    (hok : ∀ t c, ∃ r, v.ec2Client.respond t c = .ok r)
    (hecho : ∀ t vpcId az cidr tags (out : Subnet),
      v.ec2Client.respond t (.CreateSubnet vpcId az cidr tags) = .ok out →
        out.CidrBlock = cidr ∧ out.MapPublicIpOnLaunch = false) :
    ∃ vpc outs rtPublic rtPrivate igw eip natGW publicSubnet rest,
      List.Forall₂
        (fun sn (out : Subnet) => out.CidrBlock = sn.CIDR ∧ out.MapPublicIpOnLaunch = false)
        opts.Subnets outs ∧
      (recordedSubnets opts.Subnets outs).filter (fun s => s.MapPublicIpOnLaunch)
        = publicSubnet :: rest ∧
      (recordedSubnets opts.Subnets outs).filter (fun s => !s.MapPublicIpOnLaunch) ≠ [] ∧
      Answers v t (createEvents opts vpc outs rtPublic rtPrivate igw eip natGW publicSubnet) ∧
      Create v rev opts t =
        (.ret (⟨some vpc, recordedSubnets opts.Subnets outs,
            loValues rev [(SubnetTypePublic, rtPublic), (SubnetTypePrivate, rtPrivate)],
            some igw, some natGW⟩, none),
          t ++ createEvents opts vpc outs rtPublic rtPrivate igw eip natGW publicSubnet) := by
  obtain ⟨vpc, hvpc⟩ := hok t (createVpcCall opts)
  obtain ⟨outs, hf, hA2⟩ := Answers_subnetEvents v hok hecho opts vpc.VpcId opts.Subnets
    (t ++ [Event.ok (createVpcCall opts) vpc])
  obtain ⟨hrec1, hrec2⟩ := recordedSubnets_spec opts.Subnets outs hf
  have hlen : outs.length = opts.Subnets.length := hf.length_eq.symm
  have hspec : ∀ s ∈ recordedSubnets opts.Subnets outs, (specOf opts s).isSome = true := by
    intro s hs
    obtain ⟨sn, hsn, hc, _⟩ := hrec1 s hs
    exact specOf_isSome opts s ⟨sn, hsn, hc⟩
  obtain ⟨snp, hsnp, hsnpp⟩ := hpub
  obtain ⟨sp, hsp, hspp⟩ := hrec2 snp hsnp
  obtain ⟨snq, hsnq, hsnqq⟩ := hpriv
  obtain ⟨sq, hsq, hsqq⟩ := hrec2 snq hsnq
  have hpmem : sp ∈ (recordedSubnets opts.Subnets outs).filter (fun s => s.MapPublicIpOnLaunch) :=
    List.mem_filter.2 ⟨hsp, by rw [hspp, hsnpp]⟩
  have hqmem : sq ∈ (recordedSubnets opts.Subnets outs).filter
      (fun s => !s.MapPublicIpOnLaunch) :=
    List.mem_filter.2 ⟨hsq, by rw [hsqq, hsnqq]; rfl⟩
  obtain ⟨publicSubnet, rest, hpl⟩ : ∃ p r,
      (recordedSubnets opts.Subnets outs).filter (fun s => s.MapPublicIpOnLaunch) = p :: r := by
    cases hl : (recordedSubnets opts.Subnets outs).filter (fun s => s.MapPublicIpOnLaunch) with
    | nil => rw [hl] at hpmem; cases hpmem
    | cons p r => exact ⟨p, r, rfl⟩
  have hql : (recordedSubnets opts.Subnets outs).filter (fun s => !s.MapPublicIpOnLaunch) ≠ [] :=
    List.ne_nil_of_mem hqmem
  have hne : opts.Subnets ≠ [] := List.ne_nil_of_mem hsnp
  have hA3 := Answers_modifyEvents v hok opts (recordedSubnets opts.Subnets outs)
    (t ++ [Event.ok (createVpcCall opts) vpc] ++ subnetEvents opts vpc.VpcId opts.Subnets outs)
  obtain ⟨rtPublic, hA4⟩ := Answers_tableEvents v hok opts SubnetTypePublic
    ((recordedSubnets opts.Subnets outs).filter (fun s => s.MapPublicIpOnLaunch))
    (t ++ [Event.ok (createVpcCall opts) vpc] ++ subnetEvents opts vpc.VpcId opts.Subnets outs ++
      modifyEvents opts (recordedSubnets opts.Subnets outs))
  obtain ⟨rtPrivate, hA5⟩ := Answers_tableEvents v hok opts SubnetTypePrivate
    ((recordedSubnets opts.Subnets outs).filter (fun s => !s.MapPublicIpOnLaunch))
    (t ++ [Event.ok (createVpcCall opts) vpc] ++ subnetEvents opts vpc.VpcId opts.Subnets outs ++
      modifyEvents opts (recordedSubnets opts.Subnets outs) ++
      tableEvents opts SubnetTypePublic rtPublic
        ((recordedSubnets opts.Subnets outs).filter (fun s => s.MapPublicIpOnLaunch)))
  obtain ⟨igw, higw⟩ := hok
    (t ++ [Event.ok (createVpcCall opts) vpc] ++ subnetEvents opts vpc.VpcId opts.Subnets outs ++
      modifyEvents opts (recordedSubnets opts.Subnets outs) ++
      tableEvents opts SubnetTypePublic rtPublic
        ((recordedSubnets opts.Subnets outs).filter (fun s => s.MapPublicIpOnLaunch)) ++
      tableEvents opts SubnetTypePrivate rtPrivate
        ((recordedSubnets opts.Subnets outs).filter (fun s => !s.MapPublicIpOnLaunch)))
    (.CreateInternetGateway (flattenTags [⟨"Name", opts.Name⟩] opts))
  have hA6 : Answers v _ (igwEvents opts vpc.VpcId rtPublic igw) :=
    ⟨higw, Answers_of_unit v hok _ _ (by
      intro ev hev a
      simp only [List.mem_cons, List.mem_singleton, List.not_mem_nil, or_false] at hev
      rcases hev with rfl | rfl <;> rfl)⟩
  obtain ⟨eip, heip⟩ := hok
    (t ++ [Event.ok (createVpcCall opts) vpc] ++ subnetEvents opts vpc.VpcId opts.Subnets outs ++
      modifyEvents opts (recordedSubnets opts.Subnets outs) ++
      tableEvents opts SubnetTypePublic rtPublic
        ((recordedSubnets opts.Subnets outs).filter (fun s => s.MapPublicIpOnLaunch)) ++
      tableEvents opts SubnetTypePrivate rtPrivate
        ((recordedSubnets opts.Subnets outs).filter (fun s => !s.MapPublicIpOnLaunch)) ++
      igwEvents opts vpc.VpcId rtPublic igw)
    (.AllocateAddress (flattenTags [⟨"Name", opts.Name⟩] opts))
  obtain ⟨natGW, hnat⟩ := hok
    (t ++ [Event.ok (createVpcCall opts) vpc] ++ subnetEvents opts vpc.VpcId opts.Subnets outs ++
      modifyEvents opts (recordedSubnets opts.Subnets outs) ++
      tableEvents opts SubnetTypePublic rtPublic
        ((recordedSubnets opts.Subnets outs).filter (fun s => s.MapPublicIpOnLaunch)) ++
      tableEvents opts SubnetTypePrivate rtPrivate
        ((recordedSubnets opts.Subnets outs).filter (fun s => !s.MapPublicIpOnLaunch)) ++
      igwEvents opts vpc.VpcId rtPublic igw ++
      [Event.ok (.AllocateAddress (flattenTags [⟨"Name", opts.Name⟩] opts)) eip])
    (.CreateNatGateway eip.AllocationId publicSubnet.SubnetId
      (flattenTags [⟨"Name", opts.Name⟩] opts))
  have hA7 : Answers v _ (natEvents opts publicSubnet rtPrivate eip natGW) :=
    ⟨heip, hnat, Answers_of_unit v hok _ _ (by
      intro ev hev a
      simp only [List.mem_cons, List.mem_singleton, List.not_mem_nil, or_false] at hev
      rcases hev with rfl | rfl <;> rfl)⟩
  have hA : Answers v t
      (createEvents opts vpc outs rtPublic rtPrivate igw eip natGW publicSubnet) := by
    simp only [createEvents, Answers_append]
    exact ⟨⟨hvpc, trivial⟩, hA2, hA3, hA4, hA5, hA6, hA7⟩
  exact ⟨vpc, outs, rtPublic, rtPrivate, igw, eip, natGW, publicSubnet, rest, hf, hpl, hql, hA,
    Create_run v rev opts t vpc outs rtPublic rtPrivate igw eip natGW publicSubnet rest hne
      hlen hspec hpl hql hA⟩

/-- C1 (amended). For every `CreateOptions` with at least one public and at
least one private subnet, on a provider on which every call succeeds and which
reports on each created subnet the address block that was asked for and
public-IP-on-launch off, `Create` succeeds and its log is the reference
sequence `createEvents`: `CreateVpc`; one `CreateSubnet` per spec subnet in
spec order, each with the id of the created network; the
`ModifySubnetAttribute` calls; the route tables with their associations; the
internet gateway, its attachment to that network and the default route of the
public table to it; the address, the NAT gateway in the first public subnet
with that address, the wait and the default route of the private table to it.
Every identifier a call consumes is read from the answer of an earlier event. -/
theorem Create_call_order (v : Client) (rev : Bool) (opts : CreateOptions) (t : Trace)
    (hpub : ∃ sn ∈ opts.Subnets, sn.Public = true)
    (hpriv : ∃ sn ∈ opts.Subnets, sn.Public = false)
    (hok : ∀ t c, ∃ r, v.ec2Client.respond t c = .ok r)
    (hecho : ∀ t vpcId az cidr tags (out : Subnet),
      v.ec2Client.respond t (.CreateSubnet vpcId az cidr tags) = .ok out →
        out.CidrBlock = cidr ∧ out.MapPublicIpOnLaunch = false) :
    ∃ vpc outs rtPublic rtPrivate igw eip natGW publicSubnet rest,
      outs.length = opts.Subnets.length ∧
      (recordedSubnets opts.Subnets outs).filter (fun s => s.MapPublicIpOnLaunch)
        = publicSubnet :: rest ∧
      Create v rev opts t =
        (.ret (⟨some vpc, recordedSubnets opts.Subnets outs,
            loValues rev [(SubnetTypePublic, rtPublic), (SubnetTypePrivate, rtPrivate)],
            some igw, some natGW⟩, none),
          t ++ createEvents opts vpc outs rtPublic rtPrivate igw eip natGW publicSubnet) := by
  obtain ⟨vpc, outs, rtPublic, rtPrivate, igw, eip, natGW, publicSubnet, rest, hf, hpl, _, _, hC⟩ :=
    Create_succeeds v rev opts t hpub hpriv hok hecho
  exact ⟨vpc, outs, rtPublic, rtPrivate, igw, eip, natGW, publicSubnet, rest,
    hf.length_eq.symm, hpl, hC⟩

theorem Create_call_order_witness :
    ∃ vpc outs rtPublic rtPrivate igw eip natGW publicSubnet rest,
      outs.length = demoOptions.Subnets.length ∧
      (recordedSubnets demoOptions.Subnets outs).filter (fun s => s.MapPublicIpOnLaunch)
        = publicSubnet :: rest ∧
      Create (clientOf (okProvider true false demoWorld)) false demoOptions [] =
        (.ret (⟨some vpc, recordedSubnets demoOptions.Subnets outs,
            loValues false [(SubnetTypePublic, rtPublic), (SubnetTypePrivate, rtPrivate)],
            some igw, some natGW⟩, none),
          [] ++ createEvents demoOptions vpc outs rtPublic rtPrivate igw eip natGW
            publicSubnet) :=
  Create_call_order (clientOf (okProvider true false demoWorld)) false demoOptions []
    ⟨_, List.mem_cons_of_mem _ (List.mem_singleton.2 rfl), rfl⟩
    ⟨_, List.mem_cons_self _ _, rfl⟩
    (by intro t c; cases c <;> exact ⟨_, rfl⟩)
    (by intro t vpcId az cidr tags out h; cases h; exact ⟨rfl, rfl⟩)

/-- C1 as stated fails.  On a provider on which every call succeeds but which
reports a created subnet's block in its own spelling, `Create` stops after the
`CreateSubnet` calls with an error; on one that reports public-IP-on-launch on
for every created subnet, no private table is created and `Create` panics
after the availability wait. -/
theorem Create_call_order_counterexample :
    ((∀ t c, ∃ r, (okProvider false false demoWorld).respond t c = .ok r) ∧
      (∃ sn ∈ demoOptions.Subnets, sn.Public = true) ∧
      (∃ sn ∈ demoOptions.Subnets, sn.Public = false) ∧
      (Create (clientOf (okProvider false false demoWorld)) false demoOptions []).1 =
        .ret (⟨some createdVpc, [], [], none, none⟩,
          some (.errorf
            "unable to find SubnetCreationOptions for subnet us-west-2a - canon:10.0.0.0/18")) ∧
      calls (Create (clientOf (okProvider false false demoWorld)) false demoOptions []).2 =
        [createVpcCall demoOptions,
          createSubnetCall demoOptions "vpc-1" ⟨"us-west-2a", "10.0.0.0/18", false⟩,
          createSubnetCall demoOptions "vpc-1" ⟨"us-west-2a", "10.0.192.0/20", true⟩]) ∧
    ((∀ t c, ∃ r, (okProvider true true demoWorld).respond t c = .ok r) ∧
      (Create (clientOf (okProvider true true demoWorld)) false demoOptions []).1 = .crash ∧
      (calls (Create (clientOf (okProvider true true demoWorld)) false demoOptions []).2).getLast?
        = some (.WaitNatGatewayAvailable "nat-1")) := by
  refine ⟨⟨?_, ⟨_, List.mem_cons_of_mem _ (List.mem_singleton.2 rfl), rfl⟩,
    ⟨_, List.mem_cons_self _ _, rfl⟩, by decide, by decide⟩, ?_, by decide, by decide⟩
  · intro t c; cases c <;> exact ⟨_, rfl⟩
  · intro t c; cases c <;> exact ⟨_, rfl⟩

theorem Create_first_error_witness :
    Create (clientOf (failFrom 4 (.provider "denied") (okProvider true false demoWorld))) false
        demoOptions [] =
      (.ret (⟨some createdVpc,
          [createdPrivateSubnet, { createdPublicSubnet with MapPublicIpOnLaunch := true }],
          loValues false [], none, none⟩, some (.provider "denied")),
        [Event.ok (createVpcCall demoOptions) createdVpc,
          Event.ok (createSubnetCall demoOptions "vpc-1" ⟨"us-west-2a", "10.0.0.0/18", false⟩)
            createdPrivateSubnet,
          Event.ok (createSubnetCall demoOptions "vpc-1" ⟨"us-west-2a", "10.0.192.0/20", true⟩)
            createdPublicSubnet,
          Event.ok (.ModifySubnetAttribute "subnet-10.0.192.0/20" true) (),
          Event.failed (createRouteTableCall demoOptions "PUBLIC" (some "vpc-1"))
            (.provider "denied")]) :=
  (Create_first_error (clientOf (failFrom 4 (.provider "denied")
      (okProvider true false demoWorld))) false demoOptions []).2.2.1
    _ _ _ _ _ _ _ rfl rfl rfl

/-! ## Create: what a failing step leaves in `Details` -/

theorem createIGW_no_table (v : Client) (vpcID : String) (opts : CreateOptions)
    (igw : InternetGateway) (t : Trace)
    (h : Answers v t
      [Event.ok (.CreateInternetGateway (flattenTags [⟨"Name", opts.Name⟩] opts)) igw,
        Event.ok (.AttachInternetGateway igw.InternetGatewayId vpcID) ()]) :
    createIGW v vpcID none opts t =
      (.crash, t ++
        [Event.ok (.CreateInternetGateway (flattenTags [⟨"Name", opts.Name⟩] opts)) igw,
          Event.ok (.AttachInternetGateway igw.InternetGatewayId vpcID) ()]) := by
  simp only [Answers, Event.ok] at h
  simp only [createIGW, bind_apply, ec2_apply, h.1, h.2.1, crash_apply]
  simp only [Event.ok, List.append_assoc, List.singleton_append, List.cons_append,
    List.nil_append]

theorem needsModify_of_all_private (opts : CreateOptions)
    (hall : ∀ sn ∈ opts.Subnets, sn.Public = false) (s : Subnet) :
    needsModify opts s = false := by
  simp only [needsModify]
  cases hs : specOf opts s with
  | none => rfl
  | some sn => exact hall sn (List.mem_of_find?_eq_some hs)

/-- C8 (the code on the claim's inputs). For every `CreateOptions` whose
subnets are all private (at least one) and every provider on which all calls
succeed and which reports each created subnet as requested, `Create` does not
return: no public route table exists, the internet-gateway step reads the id
of the missing table after `AttachInternetGateway`, and the run ends in a
panic there.  The NAT-gateway step is never reached. -/
theorem Create_private_only_crashes (v : Client) (rev : Bool) (opts : CreateOptions)
    (t : Trace) (hne : opts.Subnets ≠ [])
    (hall : ∀ sn ∈ opts.Subnets, sn.Public = false)
    (hok : ∀ t c, ∃ r, v.ec2Client.respond t c = .ok r)
    (hecho : ∀ t vpcId az cidr tags (out : Subnet),
      v.ec2Client.respond t (.CreateSubnet vpcId az cidr tags) = .ok out →
        out.CidrBlock = cidr ∧ out.MapPublicIpOnLaunch = false) :
    ∃ vpc outs rtPrivate igw,
      outs.length = opts.Subnets.length ∧
      Create v rev opts t =
        (.crash, t ++ ([Event.ok (createVpcCall opts) vpc] ++
          (subnetEvents opts vpc.VpcId opts.Subnets outs ++
            (tableEvents opts SubnetTypePrivate rtPrivate (recordedSubnets opts.Subnets outs) ++
              [Event.ok (.CreateInternetGateway (flattenTags [⟨"Name", opts.Name⟩] opts)) igw,
                Event.ok (.AttachInternetGateway igw.InternetGatewayId vpc.VpcId) ()])))) := by
  obtain ⟨vpc, hvpc⟩ := hok t (createVpcCall opts)
  obtain ⟨outs, hf, hA2⟩ := Answers_subnetEvents v hok hecho opts vpc.VpcId opts.Subnets
    (t ++ [Event.ok (createVpcCall opts) vpc])
  obtain ⟨hrec1, _⟩ := recordedSubnets_spec opts.Subnets outs hf
  have hlen : outs.length = opts.Subnets.length := hf.length_eq.symm
  have hspec : ∀ s ∈ recordedSubnets opts.Subnets outs, (specOf opts s).isSome = true := by
    intro s hs
    obtain ⟨sn, hsn, hc, _⟩ := hrec1 s hs
    exact specOf_isSome opts s ⟨sn, hsn, hc⟩
  have hlaunch : ∀ s ∈ recordedSubnets opts.Subnets outs, s.MapPublicIpOnLaunch = false := by
    intro s hs
    obtain ⟨sn, hsn, _, hl⟩ := hrec1 s hs
    rw [hl, hall sn hsn]
  have hpubs : (recordedSubnets opts.Subnets outs).filter (fun s => s.MapPublicIpOnLaunch) = [] :=
    List.filter_eq_nil_iff.2 (fun s hs => by simp [hlaunch s hs])
  have hprivs : (recordedSubnets opts.Subnets outs).filter (fun s => !s.MapPublicIpOnLaunch)
      = recordedSubnets opts.Subnets outs :=
    List.filter_eq_self.2 (fun s hs => by simp [hlaunch s hs])
  have hmod : modifyEvents opts (recordedSubnets opts.Subnets outs) = [] := by
    simp only [modifyEvents, List.map_eq_nil_iff, List.filter_eq_nil_iff]
    intro s _
    simp [needsModify_of_all_private opts hall s]
  obtain ⟨rtPrivate, hA5⟩ := Answers_tableEvents v hok opts SubnetTypePrivate
    (recordedSubnets opts.Subnets outs)
    (t ++ [Event.ok (createVpcCall opts) vpc] ++ subnetEvents opts vpc.VpcId opts.Subnets outs)
  obtain ⟨igw, higw⟩ := hok
    (t ++ [Event.ok (createVpcCall opts) vpc] ++ subnetEvents opts vpc.VpcId opts.Subnets outs ++
      tableEvents opts SubnetTypePrivate rtPrivate (recordedSubnets opts.Subnets outs))
    (.CreateInternetGateway (flattenTags [⟨"Name", opts.Name⟩] opts))
  have hA6 : Answers v _
      [Event.ok (.CreateInternetGateway (flattenTags [⟨"Name", opts.Name⟩] opts)) igw,
        Event.ok (.AttachInternetGateway igw.InternetGatewayId vpc.VpcId) ()] :=
    ⟨higw, Answers_of_unit v hok _ _ (by
      intro ev hev a
      simp only [List.mem_singleton] at hev
      subst hev
      rfl)⟩
  refine ⟨vpc, outs, rtPrivate, igw, hlen, ?_⟩
  have hsub := createSubnets_ok v vpc.VpcId opts outs (t ++ [Event.ok (createVpcCall opts) vpc])
    hlen hspec (by rw [hmod, List.append_nil]; exact hA2)
  rw [hmod, List.append_nil] at hsub
  have hrt := createRouteTables_ok v (recordedSubnets opts.Subnets outs) opts
    ⟨"", none, [], [], []⟩ rtPrivate
    (t ++ [Event.ok (createVpcCall opts) vpc] ++ subnetEvents opts vpc.VpcId opts.Subnets outs)
    (by rw [hpubs, hprivs]; exact hA5)
  rw [hpubs, hprivs] at hrt
  have hte : tableEvents opts SubnetTypePublic (⟨"", none, [], [], []⟩ : RouteTable) [] = [] := rfl
  rw [hte, List.nil_append] at hrt
  have hget := tablesOf_get_public (recordedSubnets opts.Subnets outs)
    ⟨"", none, [], [], []⟩ rtPrivate
  rw [hpubs] at hget
  simp only [List.isEmpty_nil, if_true] at hget
  have hcr := createIGW_no_table v vpc.VpcId opts igw _ hA6
  simp only [Create, bind_apply, withDefaultSubnets_of_ne v opts hne,
    createVPC_ok v opts vpc t hvpc, hsub, hrt, hget, hcr]
  simp only [List.append_assoc]

theorem Create_private_only_crashes_witness :
    ∃ vpc outs rtPrivate igw,
      outs.length = privateOnlyOptions.Subnets.length ∧
      Create (clientOf (okProvider true false demoWorld)) false privateOnlyOptions [] =
        (.crash, [] ++ ([Event.ok (createVpcCall privateOnlyOptions) vpc] ++
          (subnetEvents privateOnlyOptions vpc.VpcId privateOnlyOptions.Subnets outs ++
            (tableEvents privateOnlyOptions SubnetTypePrivate rtPrivate
                (recordedSubnets privateOnlyOptions.Subnets outs) ++
              [Event.ok (.CreateInternetGateway
                  (flattenTags [⟨"Name", privateOnlyOptions.Name⟩] privateOnlyOptions)) igw,
                Event.ok (.AttachInternetGateway igw.InternetGatewayId vpc.VpcId) ()])))) :=
  Create_private_only_crashes (clientOf (okProvider true false demoWorld)) false
    privateOnlyOptions [] (by decide) (by decide)
    (by intro t c; cases c <;> exact ⟨_, rfl⟩)
    (by intro t vpcId az cidr tags out h; cases h; exact ⟨rfl, rfl⟩)

/-- The run of `Create` on `privateOnlyOptions`, call by call. -/
theorem Create_private_only_run :
    Create (clientOf (okProvider true false demoWorld)) false privateOnlyOptions [] =
      (.crash,
        [Event.ok (createVpcCall privateOnlyOptions) createdVpc,
          Event.ok (createSubnetCall privateOnlyOptions "vpc-1"
            ⟨"us-west-2a", "10.0.0.0/18", false⟩) createdPrivateSubnet,
          Event.ok (createRouteTableCall privateOnlyOptions "PRIVATE" (some "vpc-1"))
            (createdRouteTable "PRIVATE"),
          Event.ok (.AssociateRouteTable "rtb-vpcctldemo-PRIVATE" "subnet-10.0.0.0/18") (),
          Event.ok (.CreateInternetGateway [⟨"CreatedBy", "vpcctl"⟩, ⟨"Name", "demo"⟩])
            createdIGW,
          Event.ok (.AttachInternetGateway "igw-1" "vpc-1") ()]) := by
  rfl

/-- C9 (amended). When the subnet step of `Create` fails, either because the
creations for the spec entries `pre` succeed and the next one is rejected, or
because all creations succeed and a later `ModifySubnetAttribute` call is
rejected, `Create` returns that error together with a `Details` that holds the
created network and an empty `Subnets`: the subnets created before the
failure are not reported.  No further call is issued. -/
theorem Create_subnet_failure (v : Client) (rev : Bool) (opts : CreateOptions) (t : Trace)
    (vpc : Vpc) (outs : List Subnet) (e : Error) :
    (∀ pre sn post, opts.Subnets = pre ++ sn :: post → outs.length = pre.length →
      Answers v t ([Event.ok (createVpcCall opts) vpc] ++
        (subnetEvents opts vpc.VpcId pre outs ++
          [Event.failed (createSubnetCall opts vpc.VpcId sn) e])) →
      Create v rev opts t = (.ret (⟨some vpc, [], [], none, none⟩, some e),
        t ++ ([Event.ok (createVpcCall opts) vpc] ++
          (subnetEvents opts vpc.VpcId pre outs ++
            [Event.failed (createSubnetCall opts vpc.VpcId sn) e])))) ∧
    (∀ pre s post, outs.length = opts.Subnets.length →
      recordedSubnets opts.Subnets outs = pre ++ s :: post →
      (∀ x ∈ pre, (specOf opts x).isSome = true) → needsModify opts s = true →
      Answers v t ([Event.ok (createVpcCall opts) vpc] ++
        (subnetEvents opts vpc.VpcId opts.Subnets outs ++
          (modifyEvents opts pre ++
            [Event.failed (.ModifySubnetAttribute s.SubnetId true) e]))) →
      Create v rev opts t = (.ret (⟨some vpc, [], [], none, none⟩, some e),
        t ++ ([Event.ok (createVpcCall opts) vpc] ++
          (subnetEvents opts vpc.VpcId opts.Subnets outs ++
            (modifyEvents opts pre ++
              [Event.failed (.ModifySubnetAttribute s.SubnetId true) e]))))) := by
  constructor
  · intro pre sn post hsub hlen h
    have hne : opts.Subnets ≠ [] := by rw [hsub]; simp
    rw [Answers_append] at h
    have hvpc := createVPC_ok v opts vpc t h.1.1
    have hl := createSubnetsLoop_failed v vpc.VpcId opts pre sn post outs [] e _ hlen h.2
    rw [← hsub] at hl
    simp only [Create, bind_apply, withDefaultSubnets_of_ne v opts hne, hvpc, createSubnets, hl,
      pure_apply]
    simp only [List.append_assoc]
  · intro pre s post hlen hrec hspec hm h
    have hne : opts.Subnets ≠ [] := by
      intro h0
      rw [h0] at hrec
      cases outs <;> simp [recordedSubnets] at hrec
    rw [Answers_append, Answers_append] at h
    have hvpc := createVPC_ok v opts vpc t h.1.1
    have hl := createSubnetsLoop_ok v vpc.VpcId opts opts.Subnets outs [] _ hlen h.2.1
    have hmod := modifySubnetsLoop_failed v opts pre s post e _ hspec hm h.2.2
    rw [← hrec] at hmod
    simp only [Create, bind_apply, withDefaultSubnets_of_ne v opts hne, hvpc, createSubnets, hl,
      List.nil_append, hmod, pure_apply]
    simp only [List.append_assoc]

theorem Create_subnet_failure_witness :
    Create (clientOf (failFrom 2 (.provider "denied") (okProvider true false demoWorld))) false
        demoOptions [] =
      (.ret (⟨some createdVpc, [], [], none, none⟩, some (.provider "denied")),
        [] ++ ([Event.ok (createVpcCall demoOptions) createdVpc] ++
          (subnetEvents demoOptions "vpc-1" [⟨"us-west-2a", "10.0.0.0/18", false⟩]
              [createdPrivateSubnet] ++
            [Event.failed (createSubnetCall demoOptions "vpc-1"
              ⟨"us-west-2a", "10.0.192.0/20", true⟩) (.provider "denied")]))) :=
  (Create_subnet_failure (clientOf (failFrom 2 (.provider "denied")
      (okProvider true false demoWorld))) false demoOptions [] createdVpc [createdPrivateSubnet]
    (.provider "denied")).1 [⟨"us-west-2a", "10.0.0.0/18", false⟩]
    ⟨"us-west-2a", "10.0.192.0/20", true⟩ [] rfl rfl ⟨rfl, rfl, rfl, trivial⟩

/-- C9 as stated fails.  The first `CreateSubnet` succeeds and the second is
rejected: the returned `Subnets` is empty although one subnet was created.
All creations succeed and `ModifySubnetAttribute` is rejected: the returned
`Subnets` is empty although both subnets were created. -/
theorem Create_subnet_failure_counterexample :
    (Create (clientOf (failFrom 2 (.provider "denied") (okProvider true false demoWorld))) false
        demoOptions [] =
      (.ret (⟨some createdVpc, [], [], none, none⟩, some (.provider "denied")),
        [Event.ok (createVpcCall demoOptions) createdVpc,
          Event.ok (createSubnetCall demoOptions "vpc-1" ⟨"us-west-2a", "10.0.0.0/18", false⟩)
            createdPrivateSubnet,
          Event.failed (createSubnetCall demoOptions "vpc-1"
            ⟨"us-west-2a", "10.0.192.0/20", true⟩) (.provider "denied")])) ∧
    (Create (clientOf (failFrom 3 (.provider "denied") (okProvider true false demoWorld))) false
        demoOptions [] =
      (.ret (⟨some createdVpc, [], [], none, none⟩, some (.provider "denied")),
        [Event.ok (createVpcCall demoOptions) createdVpc,
          Event.ok (createSubnetCall demoOptions "vpc-1" ⟨"us-west-2a", "10.0.0.0/18", false⟩)
            createdPrivateSubnet,
          Event.ok (createSubnetCall demoOptions "vpc-1" ⟨"us-west-2a", "10.0.192.0/20", true⟩)
            createdPublicSubnet,
          Event.failed (.ModifySubnetAttribute "subnet-10.0.192.0/20" true)
            (.provider "denied")])) :=
  ⟨rfl, rfl⟩

/-- C10 (amended). In a `Create` run in which the first three steps succeed,
a public route table exists, `CreateInternetGateway` and
`AttachInternetGateway` succeed and the `CreateRoute` call for the default
route is rejected, `Create` returns that error together with a `Details` that
holds the network, the subnets and the route tables, and whose
`InternetGateway` is absent: the created gateway is not reported. -/
theorem Create_igw_route_rejected (v : Client) (rev : Bool) (opts : CreateOptions)
    (t t1 t2 t3 : Trace) (vpc : Vpc) (subnets : List Subnet) (routeTables : RouteTableMap)
    (rtPublic : RouteTable) (igw : InternetGateway) (e : Error)
    (h1 : createVPC v (withDefaultSubnets v opts) t = (.ret (some vpc, none), t1))
    (h2 : createSubnets v vpc.VpcId (withDefaultSubnets v opts) t1 = (.ret (subnets, none), t2))
    (h3 : createRouteTables v subnets (withDefaultSubnets v opts) t2 =
      (.ret (routeTables, none), t3))
    (hrt : routeTables.get SubnetTypePublic = some rtPublic)
    (h4 : Answers v t3
      [Event.ok (.CreateInternetGateway
          (flattenTags [⟨"Name", opts.Name⟩] (withDefaultSubnets v opts))) igw,
        Event.ok (.AttachInternetGateway igw.InternetGatewayId vpc.VpcId) (),
        Event.failed (.CreateRoute rtPublic.RouteTableId "0.0.0.0/0"
          (some igw.InternetGatewayId) none) e]) :
    Create v rev opts t =
      (.ret (⟨some vpc, subnets, loValues rev routeTables, none, none⟩, some e),
        t3 ++ [Event.ok (.CreateInternetGateway
            (flattenTags [⟨"Name", opts.Name⟩] (withDefaultSubnets v opts))) igw,
          Event.ok (.AttachInternetGateway igw.InternetGatewayId vpc.VpcId) (),
          Event.failed (.CreateRoute rtPublic.RouteTableId "0.0.0.0/0"
            (some igw.InternetGatewayId) none) e]) := by
  have hname : (withDefaultSubnets v opts).Name = opts.Name := by
    simp only [withDefaultSubnets]
    split <;> rfl
  rw [← hname] at h4 ⊢
  have h5 := createIGW_route_rejected v vpc.VpcId rtPublic (withDefaultSubnets v opts) igw e t3 h4
  simp only [Create, bind_apply, h1, h2, h3, hrt, h5, pure_apply]

theorem Create_igw_route_rejected_witness :
    Create (clientOf (failFrom 10 (.provider "denied") (okProvider true false demoWorld))) false
        demoOptions [] =
      (.ret (⟨some createdVpc,
          [createdPrivateSubnet, { createdPublicSubnet with MapPublicIpOnLaunch := true }],
          loValues false [(SubnetTypePublic, createdRouteTable "PUBLIC"),
            (SubnetTypePrivate, createdRouteTable "PRIVATE")],
          none, none⟩, some (.provider "denied")),
        [Event.ok (createVpcCall demoOptions) createdVpc,
          Event.ok (createSubnetCall demoOptions "vpc-1" ⟨"us-west-2a", "10.0.0.0/18", false⟩)
            createdPrivateSubnet,
          Event.ok (createSubnetCall demoOptions "vpc-1" ⟨"us-west-2a", "10.0.192.0/20", true⟩)
            createdPublicSubnet,
          Event.ok (.ModifySubnetAttribute "subnet-10.0.192.0/20" true) (),
          Event.ok (createRouteTableCall demoOptions "PUBLIC" (some "vpc-1"))
            (createdRouteTable "PUBLIC"),
          Event.ok (.AssociateRouteTable "rtb-vpcctldemo-PUBLIC" "subnet-10.0.192.0/20") (),
          Event.ok (createRouteTableCall demoOptions "PRIVATE" (some "vpc-1"))
            (createdRouteTable "PRIVATE"),
          Event.ok (.AssociateRouteTable "rtb-vpcctldemo-PRIVATE" "subnet-10.0.0.0/18") ()] ++
        [Event.ok (.CreateInternetGateway (flattenTags [⟨"Name", demoOptions.Name⟩]
            (withDefaultSubnets (clientOf (failFrom 10 (.provider "denied")
              (okProvider true false demoWorld))) demoOptions))) createdIGW,
          Event.ok (.AttachInternetGateway createdIGW.InternetGatewayId createdVpc.VpcId) (),
          Event.failed (.CreateRoute (createdRouteTable "PUBLIC").RouteTableId "0.0.0.0/0"
            (some createdIGW.InternetGatewayId) none) (.provider "denied")]) :=
  Create_igw_route_rejected (clientOf (failFrom 10 (.provider "denied")
      (okProvider true false demoWorld))) false demoOptions [] _ _ _ createdVpc _ _
    (createdRouteTable "PUBLIC") createdIGW (.provider "denied") rfl rfl rfl rfl
    ⟨rfl, rfl, rfl, trivial⟩

/-- C10 as stated fails.  The gateway `igw-1` is created and attached and the
default route is rejected: the returned `InternetGateway` is absent.  With no
public route table, `Create` returns nothing at all: it panics after the
attachment. -/
theorem Create_igw_route_rejected_counterexample :
    ((Create (clientOf (failFrom 10 (.provider "denied") (okProvider true false demoWorld)))
        false demoOptions []).1 =
      .ret (⟨some createdVpc,
          [createdPrivateSubnet, { createdPublicSubnet with MapPublicIpOnLaunch := true }],
          [createdRouteTable "PUBLIC", createdRouteTable "PRIVATE"], none, none⟩,
        some (.provider "denied")) ∧
      (calls (Create (clientOf (failFrom 10 (.provider "denied")
          (okProvider true false demoWorld))) false demoOptions []).2).drop 8 =
        [.CreateInternetGateway [⟨"CreatedBy", "vpcctl"⟩, ⟨"Name", "demo"⟩],
          .AttachInternetGateway "igw-1" "vpc-1",
          .CreateRoute "rtb-vpcctldemo-PUBLIC" "0.0.0.0/0" (some "igw-1") none] ∧
      ((Create (clientOf (failFrom 10 (.provider "denied")
          (okProvider true false demoWorld))) false demoOptions []).2.drop 8).map
          Event.succeeded = [true, true, false]) ∧
    ((Create (clientOf (okProvider true false demoWorld)) false privateOnlyOptions []).1 = .crash ∧
      (calls (Create (clientOf (okProvider true false demoWorld)) false
          privateOnlyOptions []).2).getLast? = some (.AttachInternetGateway "igw-1" "vpc-1")) := by
  decide

/-! ## The NAT-gateway step has no precondition check -/

/-- The NAT-gateway step called with no public subnet in the list, which
`Create` never does (without a public subnet there is no public table, and
the internet-gateway step before it does not return): it allocates the
address and panics on `publicSubnets[0]`, or hands back the provider's error
when the allocation is rejected. -/
theorem createNATGW_no_public_subnet (v : Client) (subnets : List Subnet)
    (routeTable : Option RouteTable) (opts : CreateOptions) (t : Trace)
    (hp : subnets.filter (fun s => s.MapPublicIpOnLaunch) = []) :
    (∀ eip, Answers v t
        [Event.ok (.AllocateAddress (flattenTags [⟨"Name", opts.Name⟩] opts)) eip] →
      createNATGW v subnets routeTable opts t =
        (.crash, t ++
          [Event.ok (.AllocateAddress (flattenTags [⟨"Name", opts.Name⟩] opts)) eip])) ∧
    (∀ e, Answers v t
        [Event.failed (.AllocateAddress (flattenTags [⟨"Name", opts.Name⟩] opts)) e] →
      createNATGW v subnets routeTable opts t =
        (.ret (none, some e), t ++
          [Event.failed (.AllocateAddress (flattenTags [⟨"Name", opts.Name⟩] opts)) e])) := by
  constructor
  · intro eip h
    simp only [Answers, Event.ok] at h
    simp only [createNATGW, bind_apply, ec2_apply, h.1, hp, crash_apply, Event.ok]
  · intro e h
    simp only [Answers, Event.failed] at h
    simp only [createNATGW, bind_apply, ec2_apply, h.1, pure_apply, Event.failed]

/-- C11 (the code on the claim's inputs). The NAT-gateway step has no
precondition check.  Whatever its arguments, the first thing it does is issue
`AllocateAddress`.  Called with a public subnet and no private route table,
which is how `Create` calls it for a spec whose subnets are all public, it
allocates the address, creates the gateway, waits for it, and panics reading
the id of the missing table: it returns no error, and three provider calls
were issued. -/
theorem createNATGW_unchecked (v : Client) (subnets : List Subnet)
    (routeTable : Option RouteTable) (opts : CreateOptions) (t : Trace) :
    (∃ rest, (createNATGW v subnets routeTable opts t).2 =
      t ++ ⟨.AllocateAddress (flattenTags [⟨"Name", opts.Name⟩] opts),
        v.ec2Client.respond t (.AllocateAddress (flattenTags [⟨"Name", opts.Name⟩] opts))⟩ ::
        rest) ∧
    (routeTable = none →
      ∀ publicSubnet rest eip natGW,
        subnets.filter (fun s => s.MapPublicIpOnLaunch) = publicSubnet :: rest →
        Answers v t
          [Event.ok (.AllocateAddress (flattenTags [⟨"Name", opts.Name⟩] opts)) eip,
            Event.ok (.CreateNatGateway eip.AllocationId publicSubnet.SubnetId
              (flattenTags [⟨"Name", opts.Name⟩] opts)) natGW,
            Event.ok (.WaitNatGatewayAvailable natGW.NatGatewayId) ()] →
        createNATGW v subnets routeTable opts t =
          (.crash, t ++
            [Event.ok (.AllocateAddress (flattenTags [⟨"Name", opts.Name⟩] opts)) eip,
              Event.ok (.CreateNatGateway eip.AllocationId publicSubnet.SubnetId
                (flattenTags [⟨"Name", opts.Name⟩] opts)) natGW,
              Event.ok (.WaitNatGatewayAvailable natGW.NatGatewayId) ()])) := by
  refine ⟨?_, ?_⟩
  · simp only [createNATGW, bind_apply, ec2_apply]
    cases v.ec2Client.respond t (.AllocateAddress (flattenTags [⟨"Name", opts.Name⟩] opts)) with
    | error e => exact ⟨[], rfl⟩
    | ok eip =>
      cases subnets.filter (fun s => s.MapPublicIpOnLaunch) with
      | nil => exact ⟨[], rfl⟩
      | cons p ps =>
        simp only [bind_apply, ec2_apply]
        cases v.ec2Client.respond _ (.CreateNatGateway eip.AllocationId p.SubnetId
            (flattenTags [⟨"Name", opts.Name⟩] opts)) with
        | error e => exact ⟨[_], by simp only [pure_apply, List.append_assoc]; rfl⟩
        | ok natGW =>
          simp only [bind_apply, ec2_apply]
          cases v.ec2Client.respond _ (.WaitNatGatewayAvailable natGW.NatGatewayId) with
          | error e => exact ⟨[_, _], by simp only [pure_apply, List.append_assoc]; rfl⟩
          | ok u =>
            cases routeTable with
            | none => exact ⟨[_, _], by simp only [crash_apply, List.append_assoc]; rfl⟩
            | some rt =>
              simp only [bind_apply, ec2_apply]
              cases v.ec2Client.respond _ (.CreateRoute rt.RouteTableId "0.0.0.0/0" none
                  (some natGW.NatGatewayId)) with
              | error e => exact ⟨[_, _, _], by simp only [pure_apply, List.append_assoc]; rfl⟩
              | ok u2 => exact ⟨[_, _, _], by simp only [pure_apply, List.append_assoc]; rfl⟩
  · intro hrt publicSubnet rest eip natGW hp h
    subst hrt
    simp only [Answers, Event.ok] at h
    simp only [createNATGW, bind_apply, ec2_apply, h.1, hp, h.2.1, h.2.2.1, crash_apply]
    simp only [Event.ok, List.append_assoc, List.singleton_append, List.cons_append,
      List.nil_append]

theorem createNATGW_unchecked_witness :
    createNATGW (clientOf (okProvider true false demoWorld))
        [{ createdPublicSubnet with MapPublicIpOnLaunch := true }] none publicOnlyOptions
        publicOnlyLog =
      (.crash, publicOnlyLog ++
        [Event.ok (.AllocateAddress
            (flattenTags [⟨"Name", publicOnlyOptions.Name⟩] publicOnlyOptions))
            ⟨some "eipalloc-1"⟩,
          Event.ok (.CreateNatGateway (some "eipalloc-1") "subnet-10.0.192.0/20"
            (flattenTags [⟨"Name", publicOnlyOptions.Name⟩] publicOnlyOptions)) createdNATGW,
          Event.ok (.WaitNatGatewayAvailable "nat-1") ()]) :=
  (createNATGW_unchecked (clientOf (okProvider true false demoWorld))
    [{ createdPublicSubnet with MapPublicIpOnLaunch := true }] none publicOnlyOptions
    publicOnlyLog).2 rfl { createdPublicSubnet with MapPublicIpOnLaunch := true } []
    ⟨some "eipalloc-1"⟩ createdNATGW rfl ⟨rfl, rfl, rfl, trivial⟩

/-- The run of `Create` on `publicOnlyOptions`: the first four steps succeed
and leave `publicOnlyLog`; the NAT-gateway step is called with the one public
subnet and no private table, issues three calls and panics. -/
theorem Create_public_only_run :
    createIGW (clientOf (okProvider true false demoWorld)) "vpc-1"
        (some (createdRouteTable "PUBLIC")) publicOnlyOptions
        (publicOnlyLog.take 5) = (.ret (some createdIGW, none), publicOnlyLog) ∧
    Create (clientOf (okProvider true false demoWorld)) false publicOnlyOptions [] =
      (.crash, publicOnlyLog ++
        [Event.ok (.AllocateAddress [⟨"CreatedBy", "vpcctl"⟩, ⟨"Name", "demo"⟩])
            ⟨some "eipalloc-1"⟩,
          Event.ok (.CreateNatGateway (some "eipalloc-1") "subnet-10.0.192.0/20"
            [⟨"CreatedBy", "vpcctl"⟩, ⟨"Name", "demo"⟩]) createdNATGW,
          Event.ok (.WaitNatGatewayAvailable "nat-1") ()]) ∧
    calls (Create (clientOf (okProvider true false demoWorld)) false publicOnlyOptions []).2 =
      [createVpcCall publicOnlyOptions,
        createSubnetCall publicOnlyOptions "vpc-1" ⟨"us-west-2a", "10.0.192.0/20", true⟩,
        .ModifySubnetAttribute "subnet-10.0.192.0/20" true,
        createRouteTableCall publicOnlyOptions "PUBLIC" (some "vpc-1"),
        .AssociateRouteTable "rtb-vpcctldemo-PUBLIC" "subnet-10.0.192.0/20",
        .CreateInternetGateway [⟨"CreatedBy", "vpcctl"⟩, ⟨"Name", "demo"⟩],
        .AttachInternetGateway "igw-1" "vpc-1",
        .CreateRoute "rtb-vpcctldemo-PUBLIC" "0.0.0.0/0" (some "igw-1") none,
        .AllocateAddress [⟨"CreatedBy", "vpcctl"⟩, ⟨"Name", "demo"⟩],
        .CreateNatGateway (some "eipalloc-1") "subnet-10.0.192.0/20"
          [⟨"CreatedBy", "vpcctl"⟩, ⟨"Name", "demo"⟩],
        .WaitNatGatewayAvailable "nat-1"] :=
  ⟨rfl, rfl, rfl⟩

/-! ## DefaultSubnets -/

/-- C13. For every region `r`, `DefaultSubnets r` has exactly six entries: the
first three are private with /18 blocks in the zones `r ++ "a"`, `r ++ "b"`,
`r ++ "c"`, the last three are public with /20 blocks in the same three zones;
read as address ranges the six blocks are pairwise disjoint and each lies
within `10.0.0.0/16`. -/
theorem DefaultSubnets_layout (r : String) :
    (DefaultSubnets r).length = 6 ∧
    (DefaultSubnets r).map (fun s => s.AZ) =
      [r ++ "a", r ++ "b", r ++ "c", r ++ "a", r ++ "b", r ++ "c"] ∧
    (DefaultSubnets r).map (fun s => s.Public) = [false, false, false, true, true, true] ∧
    (DefaultSubnets r).map (fun s => (parseCIDR s.CIDR).map Prod.snd) =
      [some 18, some 18, some 18, some 20, some 20, some 20] ∧
    (DefaultSubnets r).Pairwise (fun a b => cidrDisjoint a.CIDR b.CIDR = true) ∧
    ∀ s ∈ DefaultSubnets r, cidrWithin s.CIDR "10.0.0.0/16" = true := by
  refine ⟨rfl, rfl, rfl, ?_, ?_, ?_⟩
  · simp only [DefaultSubnets, List.map_cons, List.map_nil]
    decide
  · simp only [DefaultSubnets, List.pairwise_cons, List.mem_cons, List.mem_singleton,
      List.not_mem_nil, forall_eq_or_imp, forall_eq, List.Pairwise.nil, and_true,
      IsEmpty.forall_iff, implies_true]
    decide
  · simp only [DefaultSubnets, List.mem_cons, List.mem_singleton, List.not_mem_nil, or_false,
      forall_eq_or_imp, forall_eq]
    decide

/-! ## List -/

theorem listedNames_eq (vpcs : List Vpc) :
    (vpcs.map (fun vpc =>
        match vpc.Tags.find? (fun tag => tag.Key == "Name") with
        | some tag => tag.Value
        | none => "")).filter (fun name => name != "") = listedNames vpcs := by
  induction vpcs with
  | nil => rfl
  | cons vpc rest ih =>
    simp only [List.map_cons, List.filter_cons, listedNames, List.filterMap_cons, nameTag]
    simp only [listedNames, nameTag] at ih
    cases hf : vpc.Tags.find? (fun tag => tag.Key == "Name") with
    | none => simpa using ih
    | some tag =>
      by_cases hv : tag.Value = ""
      · simp [Option.filter, hv, ih]
      · simp [Option.filter, hv, ih]

theorem listedNames_filter (vpcs : List Vpc) :
    listedNames vpcs =
      (vpcs.filter (fun vpc => (nameTag vpc).isSome && nameTag vpc != some "")).map
        (fun vpc => (nameTag vpc).getD "") := by
  simp only [listedNames]
  induction vpcs with
  | nil => rfl
  | cons vpc rest ih =>
    simp only [List.filterMap_cons, List.filter_cons]
    cases hn : nameTag vpc with
    | none => simpa [Option.filter] using ih
    | some name =>
      by_cases hv : name = ""
      · simpa [Option.filter, hv] using ih
      · simpa [Option.filter, hv, hn] using ih

theorem List_apply (v : Client) (t : Trace) :
    Client.List v t =
      (match v.ec2Client.respond t queryManaged with
        | .error e => .ret ([], some e)
        | .ok vpcs => .ret (listedNames vpcs, none),
       t ++ [⟨queryManaged, v.ec2Client.respond t queryManaged⟩]) := by
  simp only [Client.List, bind_apply, ec2_apply]
  cases v.ec2Client.respond t queryManaged with
  | error e => rfl
  | ok vpcs => simp only [pure_apply, listedNames_eq]

/-- C17 (amended). For every sequence of networks the managed-networks query
returns, `List` returns without error the values of the `Name` tags of
exactly those networks that have a `Name` tag with a non-empty value, one name
per such network, in the provider's order.  A network with no `Name` tag
contributes nothing and causes no error, and an empty provider result gives
the empty sequence and no error. -/
theorem List_names (v : Client) (t : Trace) (vpcs : List Vpc)
    (h : Answers v t [Event.ok queryManaged vpcs]) :
    Client.List v t = (.ret (listedNames vpcs, none), t ++ [Event.ok queryManaged vpcs]) ∧
    listedNames vpcs =
      (vpcs.filter (fun vpc => (nameTag vpc).isSome && nameTag vpc != some "")).map
        (fun vpc => (nameTag vpc).getD "") ∧
    (∀ vpc ∈ vpcs, nameTag vpc = none → listedNames [vpc] = []) ∧
    (vpcs = [] → listedNames vpcs = []) := by
  refine ⟨?_, ?_, ?_, ?_⟩
  · simp only [Answers, Event.ok] at h
    simp only [List_apply, h.1, Event.ok]
  · exact listedNames_filter vpcs
  · intro vpc _ hn
    simp [listedNames, hn, Option.filter]
  · intro hv
    rw [hv]
    rfl

theorem List_names_witness :
    Client.List (clientOf (vpcsProvider [demoVpc, { VpcId := "vpc-9" }])) [] =
      (.ret (listedNames [demoVpc, { VpcId := "vpc-9" }], none),
        [] ++ [Event.ok queryManaged [demoVpc, { VpcId := "vpc-9" }]]) :=
  (List_names (clientOf (vpcsProvider [demoVpc, { VpcId := "vpc-9" }])) []
    [demoVpc, { VpcId := "vpc-9" }] ⟨rfl, trivial⟩).1

/-- C17 as stated fails.  A managed network whose `Name` tag has the empty
value has a `Name` tag, yet `List` reports no name for it. -/
theorem List_names_counterexample :
    nameTag { VpcId := "vpc-7", Tags := [⟨"CreatedBy", "vpcctl"⟩, ⟨"Name", ""⟩] } = some "" ∧
    Client.List (clientOf (vpcsProvider
        [{ VpcId := "vpc-7", Tags := [⟨"CreatedBy", "vpcctl"⟩, ⟨"Name", ""⟩] }])) [] =
      (.ret ([], none),
        [Event.ok queryManaged
          [{ VpcId := "vpc-7", Tags := [⟨"CreatedBy", "vpcctl"⟩, ⟨"Name", ""⟩] }]]) :=
  ⟨rfl, rfl⟩

/-! ## Tags on the calls `Create` issues -/

theorem Issues_pure {α : Type} (Q : Call → Prop) (a : α) : Issues Q (pure a : M α) :=
  fun t => ⟨[], by simp [pure_apply], by simp⟩

theorem Issues_crash {α : Type} (Q : Call → Prop) : Issues Q (crash : M α) :=
  fun t => ⟨[], by simp [crash_apply], by simp⟩

theorem Issues_ec2 (Q : Call → Prop) (v : Client) (c : Call) (h : Q c) : Issues Q (ec2 v c) :=
  fun t => ⟨[⟨c, v.ec2Client.respond t c⟩], rfl, by simpa using h⟩

theorem Issues_bind {α β : Type} (Q : Call → Prop) (m : M α) (f : α → M β)
    (hm : Issues Q m) (hf : ∀ a, Issues Q (f a)) : Issues Q (m >>= f) := by
  intro t
  obtain ⟨evs, h1, h2⟩ := hm t
  rw [bind_apply]
  rcases hmt : m t with ⟨o, t1⟩
  rw [hmt] at h1
  simp only at h1
  subst h1
  cases o with
  | crash => exact ⟨evs, rfl, h2⟩
  | ret a =>
    obtain ⟨evs2, h3, h4⟩ := hf a (t ++ evs)
    refine ⟨evs ++ evs2, by simp only [h3, List.append_assoc], ?_⟩
    intro ev hev
    rcases List.mem_append.1 hev with h | h
    · exact h2 ev h
    · exact h4 ev h

theorem createVPC_issues (v : Client) (o : CreateOptions) :
    Issues (Prescribed o) (createVPC v o) := by
  unfold createVPC
  refine Issues_bind _ _ _ (Issues_ec2 _ _ _ ⟨rfl, rfl⟩) (fun r => ?_)
  cases r <;> exact Issues_pure _ _

theorem createSubnetsLoop_issues (v : Client) (vpcID : String) (o : CreateOptions)
    (specs : List CreateSubnetOptions) (hs : ∀ sn ∈ specs, sn ∈ o.Subnets) (acc : List Subnet) :
    Issues (Prescribed o) (createSubnetsLoop v vpcID o specs acc) := by
  induction specs generalizing acc with
  | nil => exact Issues_pure _ _
  | cons sn rest ih =>
    unfold createSubnetsLoop
    refine Issues_bind _ _ _ (Issues_ec2 _ _ _ ⟨sn, hs sn (by simp), rfl, rfl, rfl⟩) (fun r => ?_)
    cases r with
    | error e => exact Issues_pure _ _
    | ok out => exact ih (fun x hx => hs x (by simp [hx])) _

theorem modifySubnetsLoop_issues (v : Client) (o : CreateOptions) (subnets : List Subnet) :
    Issues (Prescribed o) (modifySubnetsLoop v o subnets) := by
  induction subnets with
  | nil => exact Issues_pure _ _
  | cons s rest ih =>
    unfold modifySubnetsLoop
    split
    · exact Issues_pure _ _
    · split
      · refine Issues_bind _ _ _ (Issues_ec2 _ _ _ rfl) (fun r => ?_)
        cases r with
        | error e => exact Issues_pure _ _
        | ok u => exact ih
      · exact ih

theorem createSubnets_issues (v : Client) (vpcID : String) (o : CreateOptions) :
    Issues (Prescribed o) (createSubnets v vpcID o) := by
  unfold createSubnets
  refine Issues_bind _ _ _ (createSubnetsLoop_issues v vpcID o _ (fun _ h => h) _) (fun r => ?_)
  cases r with
  | error e => exact Issues_pure _ _
  | ok outs =>
    refine Issues_bind _ _ _ (modifySubnetsLoop_issues v o _) (fun e => ?_)
    cases e <;> exact Issues_pure _ _

theorem routeTableLoop_issues (v : Client) (o : CreateOptions) (subnetType : String)
    (ht : subnetType = SubnetTypePublic ∨ subnetType = SubnetTypePrivate)
    (i : Nat) (subnets : List Subnet) (out : Option RouteTable) (m : RouteTableMap) :
    Issues (Prescribed o) (routeTableLoop v o subnetType i subnets out m) := by
  induction subnets generalizing i out m with
  | nil => exact Issues_pure _ _
  | cons s rest ih =>
    unfold routeTableLoop
    refine Issues_bind _ _ _ ?_ (fun r => ?_)
    · split
      · refine Issues_bind _ _ _ (Issues_ec2 _ _ _ ?_) (fun r => ?_)
        · rcases ht with rfl | rfl
          · exact Or.inl rfl
          · exact Or.inr rfl
        · cases r <;> exact Issues_pure _ _
      · exact Issues_pure _ _
    · cases r with
      | error e => exact Issues_pure _ _
      | ok p =>
        obtain ⟨out2, m2⟩ := p
        cases out2 with
        | none => exact Issues_crash _
        | some rt =>
          refine Issues_bind _ _ _ (Issues_ec2 _ _ _ trivial) (fun r => ?_)
          cases r with
          | error e => exact Issues_pure _ _
          | ok u => exact ih _ _ _

theorem createRouteTables_issues (v : Client) (subnets : List Subnet) (o : CreateOptions) :
    Issues (Prescribed o) (createRouteTables v subnets o) := by
  unfold createRouteTables
  refine Issues_bind _ _ _ (routeTableLoop_issues v o _ (Or.inl rfl) _ _ _ _) (fun r => ?_)
  cases r with
  | error e => exact Issues_pure _ _
  | ok m =>
    refine Issues_bind _ _ _ (routeTableLoop_issues v o _ (Or.inr rfl) _ _ _ _) (fun r => ?_)
    cases r <;> exact Issues_pure _ _

theorem createIGW_issues (v : Client) (vpcID : String) (routeTable : Option RouteTable)
    (o : CreateOptions) : Issues (Prescribed o) (createIGW v vpcID routeTable o) := by
  unfold createIGW
  refine Issues_bind _ _ _ (Issues_ec2 _ _ _ rfl) (fun r => ?_)
  cases r with
  | error e => exact Issues_pure _ _
  | ok igw =>
    refine Issues_bind _ _ _ (Issues_ec2 _ _ _ trivial) (fun r => ?_)
    cases r with
    | error e => exact Issues_pure _ _
    | ok u =>
      cases routeTable with
      | none => exact Issues_crash _
      | some rt =>
        refine Issues_bind _ _ _ (Issues_ec2 _ _ _ rfl) (fun r => ?_)
        cases r <;> exact Issues_pure _ _

theorem createNATGW_issues (v : Client) (subnets : List Subnet) (routeTable : Option RouteTable)
    (o : CreateOptions) : Issues (Prescribed o) (createNATGW v subnets routeTable o) := by
  unfold createNATGW
  refine Issues_bind _ _ _ (Issues_ec2 _ _ _ rfl) (fun r => ?_)
  cases r with
  | error e => exact Issues_pure _ _
  | ok eip =>
    simp only []
    split
    · exact Issues_crash _
    · refine Issues_bind _ _ _ (Issues_ec2 _ _ _ rfl) (fun r => ?_)
      cases r with
      | error e => exact Issues_pure _ _
      | ok natGW =>
        refine Issues_bind _ _ _ (Issues_ec2 _ _ _ trivial) (fun r => ?_)
        cases r with
        | error e => exact Issues_pure _ _
        | ok u =>
          cases routeTable with
          | none => exact Issues_crash _
          | some rt =>
            refine Issues_bind _ _ _ (Issues_ec2 _ _ _ rfl) (fun r => ?_)
            cases r <;> exact Issues_pure _ _

/-- Every call `Create` issues has the prescribed shape. -/
theorem Create_issues (v : Client) (rev : Bool) (opts : CreateOptions) :
    Issues (Prescribed (withDefaultSubnets v opts)) (Create v rev opts) := by
  unfold Create
  refine Issues_bind _ _ _ (createVPC_issues v _) (fun r => ?_)
  obtain ⟨vpc, err⟩ := r
  cases err with
  | some e => exact Issues_pure _ _
  | none =>
    cases vpc with
    | none => exact Issues_crash _
    | some vpc =>
      refine Issues_bind _ _ _ (createSubnets_issues v _ _) (fun r => ?_)
      obtain ⟨subnets, err⟩ := r
      cases err with
      | some e => exact Issues_pure _ _
      | none =>
        refine Issues_bind _ _ _ (createRouteTables_issues v _ _) (fun r => ?_)
        obtain ⟨routeTables, err⟩ := r
        cases err with
        | some e => exact Issues_pure _ _
        | none =>
          refine Issues_bind _ _ _ (createIGW_issues v _ _ _) (fun r => ?_)
          obtain ⟨igw, err⟩ := r
          cases err with
          | some e => exact Issues_pure _ _
          | none =>
            cases igw with
            | none => exact Issues_crash _
            | some igw =>
              refine Issues_bind _ _ _ (createNATGW_issues v _ _ _) (fun r => ?_)
              obtain ⟨natGW, err⟩ := r
              cases err with
              | some e => exact Issues_pure _ _
              | none =>
                cases natGW with
                | none => exact Issues_crash _
                | some n => exact Issues_pure _ _

theorem hasTag_flattenTags_default (extra : List Tag) (o : CreateOptions) :
    hasTag (flattenTags extra o) CreatedByTagKey CreatedByTagValue = true := by
  simp [hasTag, flattenTags, defaultTags]

theorem hasTag_flattenTags_head (tag : Tag) (extra : List Tag) (o : CreateOptions) :
    hasTag (flattenTags (tag :: extra) o) tag.Key tag.Value = true := by
  simp [hasTag, flattenTags]

theorem hasTagKey_flattenTags_name (value : String) (o : CreateOptions) :
    hasTagKey (flattenTags [⟨"Name", value⟩] o) "Type" = hasTagKey (userTags o) "Type" := by
  have h1 : (CreatedByTagKey == "Type") = false := by decide
  have h2 : ("Name" == "Type") = false := by decide
  simp [hasTagKey, flattenTags, defaultTags, h1, h2]

/-- C15 (amended). Every resource-creating call `Create` issues, on every
provider and whether or not the run succeeds, carries the managed-by tag
`CreatedBy = vpcctl` and a `Name` tag.  The value of the `Name` tag is
`opts.Name` for the network, the internet gateway, the address and the NAT
gateway; it is `opts.Name-AZ-TYPE` for a subnet and `opts.Name-TYPE` for a
route table, with `TYPE` one of `PUBLIC`, `PRIVATE`. -/
theorem Create_name_tags (v : Client) (rev : Bool) (opts : CreateOptions) (t : Trace) :
    ∃ evs, (Create v rev opts t).2 = t ++ evs ∧ ∀ ev ∈ evs, NameTagged opts.Name ev.call := by
  obtain ⟨evs, h1, h2⟩ := Create_issues v rev opts t
  refine ⟨evs, h1, fun ev hev => ?_⟩
  have hname : (withDefaultSubnets v opts).Name = opts.Name := by
    simp only [withDefaultSubnets]
    split <;> rfl
  have hp := h2 ev hev
  rw [← hname]
  generalize withDefaultSubnets v opts = o at hp ⊢
  cases hc : ev.call <;> rw [hc] at hp <;> simp only [Prescribed, NameTagged] at hp ⊢
  case CreateVpc cidr tags =>
    rw [hp.2]
    exact ⟨hasTag_flattenTags_default _ _, hasTag_flattenTags_head ⟨"Name", o.Name⟩ [] o⟩
  case CreateSubnet vpcId az cidr tags =>
    obtain ⟨sn, _, rfl, _, rfl⟩ := hp
    refine ⟨hasTag_flattenTags_default _ _, ?_⟩
    cases hpub : sn.Public
    · exact Or.inr (by
        have := hasTag_flattenTags_head
          ⟨"Name", o.Name ++ "-" ++ sn.AZ ++ "-" ++ sn.subnetType⟩ [⟨"Type", sn.subnetType⟩] o
        simpa [CreateSubnetOptions.subnetType, hpub] using this)
    · exact Or.inl (by
        have := hasTag_flattenTags_head
          ⟨"Name", o.Name ++ "-" ++ sn.AZ ++ "-" ++ sn.subnetType⟩ [⟨"Type", sn.subnetType⟩] o
        simpa [CreateSubnetOptions.subnetType, hpub] using this)
  case CreateRouteTable vpcId tags =>
    rcases hp with rfl | rfl
    · exact ⟨hasTag_flattenTags_default _ _,
        Or.inl (hasTag_flattenTags_head ⟨"Name", o.Name ++ "-" ++ SubnetTypePublic⟩ [] o)⟩
    · exact ⟨hasTag_flattenTags_default _ _,
        Or.inr (hasTag_flattenTags_head ⟨"Name", o.Name ++ "-" ++ SubnetTypePrivate⟩ [] o)⟩
  case CreateInternetGateway tags =>
    rw [hp]
    exact ⟨hasTag_flattenTags_default _ _, hasTag_flattenTags_head ⟨"Name", o.Name⟩ [] o⟩
  case AllocateAddress tags =>
    rw [hp]
    exact ⟨hasTag_flattenTags_default _ _, hasTag_flattenTags_head ⟨"Name", o.Name⟩ [] o⟩
  case CreateNatGateway alloc sn tags =>
    rw [hp]
    exact ⟨hasTag_flattenTags_default _ _, hasTag_flattenTags_head ⟨"Name", o.Name⟩ [] o⟩

/-- C15 as stated fails.  In the run of `Create` on `demoOptions`, of the
seven creating calls for network, subnets, route tables and gateways only the
network and the two gateways carry `Name = demo`; the two subnets and the
two route tables carry another `Name`. -/
theorem Create_name_tags_counterexample :
    ((calls (Create (clientOf (okProvider true false demoWorld)) false demoOptions []).2).filterMap
        Call.createTags).map (fun tags => hasTag tags "Name" demoOptions.Name) =
      [true, false, false, false, false, true, true] := by
  decide

/-- C16 (amended). Every `CreateSubnet` call `Create` issues carries a `Type`
tag whose value is `PUBLIC` or `PRIVATE`, the classification of the spec
entry the subnet is created for.  A `CreateRouteTable` call carries no `Type`
tag of its own: its tag list has the key `Type` only when the user tags
supply it (the partition is the suffix of its `Name` tag). -/
theorem Create_type_tags (v : Client) (rev : Bool) (opts : CreateOptions) (t : Trace) :
    ∃ evs, (Create v rev opts t).2 = t ++ evs ∧
      ∀ ev ∈ evs, TypeTagged (withDefaultSubnets v opts) ev.call := by
  obtain ⟨evs, h1, h2⟩ := Create_issues v rev opts t
  refine ⟨evs, h1, fun ev hev => ?_⟩
  have hp := h2 ev hev
  generalize withDefaultSubnets v opts = o at hp ⊢
  cases hc : ev.call <;> rw [hc] at hp <;> simp only [Prescribed, TypeTagged] at hp ⊢
  case CreateSubnet vpcId az cidr tags =>
    obtain ⟨sn, hsn, rfl, rfl, rfl⟩ := hp
    refine ⟨sn, hsn, rfl, rfl, ?_⟩
    have := hasTag_flattenTags_head ⟨"Type", sn.subnetType⟩ [] o
    simp only [hasTag, flattenTags, List.any_append, List.any_cons, List.any_nil,
      CreateSubnetOptions.subnetType] at this ⊢
    simp only [Bool.or_false, Bool.or_eq_true] at this ⊢
    rcases this with (h | h) | h
    · exact Or.inl (Or.inl h)
    · exact Or.inl (Or.inr (Or.inr h))
    · exact Or.inr h
  case CreateRouteTable vpcId tags =>
    rcases hp with rfl | rfl <;> exact hasTagKey_flattenTags_name _ _

/-- C16 as stated fails.  In the run of `Create` on `demoOptions` neither of
the two `CreateRouteTable` calls carries a tag with the key `Type`. -/
theorem Create_type_tags_counterexample :
    (calls (Create (clientOf (okProvider true false demoWorld)) false demoOptions []).2).filterMap
        (fun c => match c with
          | .CreateRouteTable _ tags => some (hasTagKey tags "Type")
          | _ => none) = [false, false] := by
  decide

/-! ## The two passes of the subnet step -/

theorem Answers_subnetEvents_block (v : Client)
    (hok : ∀ t c, ∃ r, v.ec2Client.respond t c = .ok r)
    (hecho : ∀ t vpcId az cidr tags (out : Subnet),
      v.ec2Client.respond t (.CreateSubnet vpcId az cidr tags) = .ok out → out.CidrBlock = cidr)
    (opts : CreateOptions) (vpcID : String) (specs : List CreateSubnetOptions) (t : Trace) :
    ∃ outs, List.Forall₂ (fun sn (out : Subnet) => out.CidrBlock = sn.CIDR) specs outs ∧
      Answers v t (subnetEvents opts vpcID specs outs) := by
  induction specs generalizing t with
  | nil => exact ⟨[], List.Forall₂.nil, trivial⟩
  | cons sn rest ih =>
    obtain ⟨out, hout⟩ := hok t (createSubnetCall opts vpcID sn)
    obtain ⟨outs, hf, ha⟩ := ih (t ++ [Event.ok (createSubnetCall opts vpcID sn) out])
    exact ⟨out :: outs, List.Forall₂.cons (hecho _ _ _ _ _ _ hout) hf, hout, ha⟩

/-- With pairwise distinct address blocks, the spec entry found for a subnet
that reports the block of the entry `sn` is `sn` itself. -/
theorem specOf_own (opts : CreateOptions)
    (hnodup : (opts.Subnets.map (fun sn => sn.CIDR)).Nodup) (sn : CreateSubnetOptions)
    (hsn : sn ∈ opts.Subnets) (s : Subnet) (hs : s.CidrBlock = sn.CIDR) :
    specOf opts s = some sn := by
  have hsome := specOf_isSome opts s ⟨sn, hsn, hs⟩
  obtain ⟨x, hx⟩ := Option.isSome_iff_exists.1 hsome
  have hxmem : x ∈ opts.Subnets := List.mem_of_find?_eq_some hx
  have hxc : x.CIDR = s.CidrBlock := by
    have := List.find?_some hx
    simpa using this
  have : x = sn := List.inj_on_of_nodup_map hnodup hxmem hsn (by rw [hxc, hs])
  rw [hx, this]

theorem modifyEvents_own (opts : CreateOptions)
    (hnodup : (opts.Subnets.map (fun sn => sn.CIDR)).Nodup)
    (specs : List CreateSubnetOptions) (outs : List Subnet)
    (hmem : ∀ sn ∈ specs, sn ∈ opts.Subnets)
    (hf : List.Forall₂ (fun sn (out : Subnet) => out.CidrBlock = sn.CIDR) specs outs) :
    modifyEvents opts (recordedSubnets specs outs) = ownModifyEvents specs outs ∧
    ∀ s ∈ recordedSubnets specs outs, (specOf opts s).isSome = true := by
  induction hf with
  | nil => exact ⟨rfl, by simp [recordedSubnets]⟩
  | @cons sn out specs outs h _ ih =>
    obtain ⟨ih1, ih2⟩ := ih (fun x hx => hmem x (by simp [hx]))
    have hsn : sn ∈ opts.Subnets := hmem sn (by simp)
    cases hp : sn.Public with
    | false =>
      have hown : specOf opts out = some sn := specOf_own opts hnodup sn hsn out h
      constructor
      · simp only [recordedSubnets, ownModifyEvents, hp, Bool.false_eq_true, if_false]
        rw [modifyEvents_cons, ih1]
        simp only [needsModify, hown, hp, Bool.false_eq_true, if_false]
      · intro s hs
        simp only [recordedSubnets, hp, Bool.false_eq_true, if_false, List.mem_cons] at hs
        rcases hs with rfl | hs
        · rw [hown]; rfl
        · exact ih2 s hs
    | true =>
      have hown : specOf opts { out with MapPublicIpOnLaunch := true } = some sn :=
        specOf_own opts hnodup sn hsn _ h
      constructor
      · simp only [recordedSubnets, ownModifyEvents, hp, if_true]
        rw [modifyEvents_cons, ih1]
        simp only [needsModify, hown, hp, if_true]
      · intro s hs
        simp only [recordedSubnets, hp, if_true, List.mem_cons] at hs
        rcases hs with rfl | hs
        · rw [hown]; rfl
        · exact ih2 s hs

/-- C18 (amended). For every `CreateOptions` whose subnets ask for pairwise
distinct address blocks and every provider on which all calls succeed and
which reports on each created subnet the block that was requested, the subnet
step succeeds, issues every `CreateSubnet` call before any
`ModifySubnetAttribute` call, and issues a `ModifySubnetAttribute` call
(setting public-IP-on-launch) for exactly those created subnets whose own
spec entry is flagged public, one call each in spec order, and none for a
subnet whose spec entry is private. -/
theorem createSubnets_two_passes (v : Client) (vpcID : String) (opts : CreateOptions)
    (t : Trace) (hnodup : (opts.Subnets.map (fun sn => sn.CIDR)).Nodup)
    (hok : ∀ t c, ∃ r, v.ec2Client.respond t c = .ok r)
    (hecho : ∀ t vpcId az cidr tags (out : Subnet),
      v.ec2Client.respond t (.CreateSubnet vpcId az cidr tags) = .ok out →
        out.CidrBlock = cidr) :
    ∃ outs, outs.length = opts.Subnets.length ∧
      createSubnets v vpcID opts t =
        (.ret (recordedSubnets opts.Subnets outs, none),
          t ++ (subnetEvents opts vpcID opts.Subnets outs ++
            ownModifyEvents opts.Subnets outs)) := by
  obtain ⟨outs, hf, hA⟩ := Answers_subnetEvents_block v hok hecho opts vpcID opts.Subnets t
  obtain ⟨hown, hspec⟩ := modifyEvents_own opts hnodup opts.Subnets outs (fun _ h => h) hf
  have hA2 := Answers_modifyEvents v hok opts (recordedSubnets opts.Subnets outs)
    (t ++ subnetEvents opts vpcID opts.Subnets outs)
  refine ⟨outs, hf.length_eq.symm, ?_⟩
  rw [← hown]
  exact createSubnets_ok v vpcID opts outs t hf.length_eq.symm hspec
    ((Answers_append _ _ _ _).2 ⟨hA, hA2⟩)

theorem createSubnets_two_passes_witness :
    ∃ outs, outs.length = demoOptions.Subnets.length ∧
      createSubnets (clientOf (okProvider true false demoWorld)) "vpc-1" demoOptions [] =
        (.ret (recordedSubnets demoOptions.Subnets outs, none),
          [] ++ (subnetEvents demoOptions "vpc-1" demoOptions.Subnets outs ++
            ownModifyEvents demoOptions.Subnets outs)) :=
  createSubnets_two_passes (clientOf (okProvider true false demoWorld)) "vpc-1" demoOptions []
    (by decide) (by intro t c; cases c <;> exact ⟨_, rfl⟩)
    (by intro t vpcId az cidr tags out h; cases h; rfl)

/-- C18 as stated fails.  All calls succeed and each created subnet reports
the requested block, but two spec entries ask for the same block, the first
private and the second public: the lookup by block finds the first entry for
both subnets and no `ModifySubnetAttribute` call is issued, although the
second subnet's own spec entry is public. -/
theorem createSubnets_two_passes_counterexample :
    (∀ t c, ∃ r, (okProvider true false demoWorld).respond t c = .ok r) ∧
    (∀ t vpcId az cidr tags (out : Subnet),
      (okProvider true false demoWorld).respond t (.CreateSubnet vpcId az cidr tags) = .ok out →
        out.CidrBlock = cidr) ∧
    sameBlockOptions.Subnets.map (fun sn => sn.Public) = [false, true] ∧
    calls (createSubnets (clientOf (okProvider true false demoWorld)) "vpc-1"
        sameBlockOptions []).2 =
      [createSubnetCall sameBlockOptions "vpc-1" ⟨"us-west-2a", "10.0.0.0/18", false⟩,
        createSubnetCall sameBlockOptions "vpc-1" ⟨"us-west-2b", "10.0.0.0/18", true⟩] := by
  refine ⟨?_, ?_, rfl, by decide⟩
  · intro t c; cases c <;> exact ⟨_, rfl⟩
  · intro t vpcId az cidr tags out h; cases h; rfl

/-! ## The route-table step -/

theorem loValues_length (rev : Bool) (m : RouteTableMap) : (loValues rev m).length = m.length := by
  cases rev <;> simp [loValues]

theorem tablesOf_length (subnets : List Subnet) (rtPublic rtPrivate : RouteTable) :
    (tablesOf subnets rtPublic rtPrivate).length =
      (if (subnets.filter (fun s => s.MapPublicIpOnLaunch)).isEmpty then 0 else 1) +
      (if (subnets.filter (fun s => !s.MapPublicIpOnLaunch)).isEmpty then 0 else 1) := by
  simp only [tablesOf]
  cases (subnets.filter (fun s => s.MapPublicIpOnLaunch)).isEmpty <;>
    cases (subnets.filter (fun s => !s.MapPublicIpOnLaunch)).isEmpty <;> rfl

/-- C14 (amended). For every list of created subnets, on a provider on which
every call succeeds, the route-table step partitions the subnets by their
public-IP-on-launch attribute and issues, for the public partition and then
for the private one, nothing when the partition is empty and otherwise one
`CreateRouteTable` followed by one `AssociateRouteTable` per subnet of the
partition, each pairing the subnet with the table of its own partition.  So
exactly one table is created per non-empty partition, and the `RouteTables`
that `Create` records from the returned map has as many entries as there are
non-empty partitions, at most two. -/
theorem createRouteTables_partition (v : Client) (subnets : List Subnet) (opts : CreateOptions)
    (t : Trace) (hok : ∀ t c, ∃ r, v.ec2Client.respond t c = .ok r) :
    ∃ rtPublic rtPrivate routeTables,
      createRouteTables v subnets opts t =
        (.ret (routeTables, none), t ++
          (tableEvents opts SubnetTypePublic rtPublic
              (subnets.filter (fun s => s.MapPublicIpOnLaunch)) ++
            tableEvents opts SubnetTypePrivate rtPrivate
              (subnets.filter (fun s => !s.MapPublicIpOnLaunch)))) ∧
      routeTables.get SubnetTypePublic =
        (if (subnets.filter (fun s => s.MapPublicIpOnLaunch)).isEmpty then none
          else some rtPublic) ∧
      routeTables.get SubnetTypePrivate =
        (if (subnets.filter (fun s => !s.MapPublicIpOnLaunch)).isEmpty then none
          else some rtPrivate) ∧
      (∀ rev, (loValues rev routeTables).length =
        (if (subnets.filter (fun s => s.MapPublicIpOnLaunch)).isEmpty then 0 else 1) +
        (if (subnets.filter (fun s => !s.MapPublicIpOnLaunch)).isEmpty then 0 else 1)) ∧
      (∀ rev, (loValues rev routeTables).length ≤ 2) := by
  obtain ⟨rtPublic, hA1⟩ := Answers_tableEvents v hok opts SubnetTypePublic
    (subnets.filter (fun s => s.MapPublicIpOnLaunch)) t
  obtain ⟨rtPrivate, hA2⟩ := Answers_tableEvents v hok opts SubnetTypePrivate
    (subnets.filter (fun s => !s.MapPublicIpOnLaunch))
    (t ++ tableEvents opts SubnetTypePublic rtPublic
      (subnets.filter (fun s => s.MapPublicIpOnLaunch)))
  refine ⟨rtPublic, rtPrivate, tablesOf subnets rtPublic rtPrivate,
    createRouteTables_ok v subnets opts rtPublic rtPrivate t
      ((Answers_append _ _ _ _).2 ⟨hA1, hA2⟩),
    tablesOf_get_public _ _ _, tablesOf_get_private _ _ _, ?_, ?_⟩
  · intro rev
    rw [loValues_length, tablesOf_length]
  · intro rev
    rw [loValues_length, tablesOf_length]
    split <;> split <;> decide

theorem createRouteTables_partition_witness :
    ∃ rtPublic rtPrivate routeTables,
      createRouteTables (clientOf (okProvider true false demoWorld))
          [createdPrivateSubnet, { createdPublicSubnet with MapPublicIpOnLaunch := true }]
          demoOptions [] =
        (.ret (routeTables, none), [] ++
          (tableEvents demoOptions SubnetTypePublic rtPublic
              ([createdPrivateSubnet,
                  { createdPublicSubnet with MapPublicIpOnLaunch := true }].filter
                (fun s => s.MapPublicIpOnLaunch)) ++
            tableEvents demoOptions SubnetTypePrivate rtPrivate
              ([createdPrivateSubnet,
                  { createdPublicSubnet with MapPublicIpOnLaunch := true }].filter
                (fun s => !s.MapPublicIpOnLaunch)))) ∧
      routeTables.get SubnetTypePublic =
        (if ([createdPrivateSubnet,
            { createdPublicSubnet with MapPublicIpOnLaunch := true }].filter
              (fun s => s.MapPublicIpOnLaunch)).isEmpty then none
          else some rtPublic) ∧
      routeTables.get SubnetTypePrivate =
        (if ([createdPrivateSubnet,
            { createdPublicSubnet with MapPublicIpOnLaunch := true }].filter
              (fun s => !s.MapPublicIpOnLaunch)).isEmpty then none
          else some rtPrivate) ∧
      (∀ rev, (loValues rev routeTables).length =
        (if ([createdPrivateSubnet,
            { createdPublicSubnet with MapPublicIpOnLaunch := true }].filter
              (fun s => s.MapPublicIpOnLaunch)).isEmpty then 0 else 1) +
        (if ([createdPrivateSubnet,
            { createdPublicSubnet with MapPublicIpOnLaunch := true }].filter
              (fun s => !s.MapPublicIpOnLaunch)).isEmpty then 0 else 1)) ∧
      (∀ rev, (loValues rev routeTables).length ≤ 2) :=
  createRouteTables_partition (clientOf (okProvider true false demoWorld))
    [createdPrivateSubnet, { createdPublicSubnet with MapPublicIpOnLaunch := true }]
    demoOptions [] (by intro t c; cases c <;> exact ⟨_, rfl⟩)

/-- C14 as stated fails.  Both partitions are non-empty and the provider
rejects `CreateRouteTable`: the step issues that one call and stops, so no
table is created for either partition, the map it returns is empty, and no
subnet is associated. -/
theorem createRouteTables_partition_counterexample :
    [createdPrivateSubnet, { createdPublicSubnet with MapPublicIpOnLaunch := true }].map
        (fun s => s.MapPublicIpOnLaunch) = [false, true] ∧
    createRouteTables (clientOf (failFrom 0 (.provider "denied")
          (okProvider true false demoWorld)))
        [createdPrivateSubnet, { createdPublicSubnet with MapPublicIpOnLaunch := true }]
        demoOptions [] =
      (.ret ([], some (.provider "denied")),
        [Event.failed (createRouteTableCall demoOptions "PUBLIC" (some "vpc-1"))
          (.provider "denied")]) :=
  ⟨rfl, rfl⟩

/-! ## What a `Create` that returned without error has done -/

theorem createVPC_returned (v : Client) (opts : CreateOptions) (t t1 : Trace)
    (r : Option Vpc) (h : createVPC v opts t = (.ret (r, none), t1)) :
    ∃ vpc, v.ec2Client.respond t (createVpcCall opts) = .ok vpc := by
  rw [createVPC_apply] at h
  cases hr : v.ec2Client.respond t (createVpcCall opts) with
  | error e =>
    rw [hr] at h
    simp at h
  | ok vpc => exact ⟨vpc, rfl⟩

theorem createSubnetsLoop_returned (v : Client) (vpcID : String) (opts : CreateOptions)
    (specs : List CreateSubnetOptions) (acc res : List Subnet) (t t1 : Trace)
    (h : createSubnetsLoop v vpcID opts specs acc t = (.ret (.ok res), t1)) :
    ∃ outs, outs.length = specs.length ∧ Answers v t (subnetEvents opts vpcID specs outs) := by
  induction specs generalizing acc t with
  | nil => exact ⟨[], rfl, trivial⟩
  | cons subnet specs ih =>
    simp only [createSubnetsLoop, bind_apply, ec2_apply, subnetType_eq_public] at h
    cases hr : v.ec2Client.respond t (createSubnetCall opts vpcID subnet) with
    | error e =>
      simp only [createSubnetCall, CreateSubnetOptions.subnetType] at hr
      simp only [hr, pure_apply] at h
      simp at h
    | ok out =>
      have hr2 := hr
      simp only [createSubnetCall, CreateSubnetOptions.subnetType] at hr2
      simp only [hr2] at h
      obtain ⟨outs, hlen, hA⟩ := ih _ _ h
      refine ⟨out :: outs, by simp [hlen], hr, ?_⟩
      simpa only [Event.ok, createSubnetCall, CreateSubnetOptions.subnetType] using hA

theorem modifySubnetsLoop_returned (v : Client) (opts : CreateOptions) (subnets : List Subnet)
    (t t1 : Trace) (h : modifySubnetsLoop v opts subnets t = (.ret none, t1)) :
    (∀ s ∈ subnets, (specOf opts s).isSome = true) ∧
      Answers v t (modifyEvents opts subnets) := by
  induction subnets generalizing t with
  | nil => exact ⟨fun s hs => absurd hs (List.not_mem_nil s), trivial⟩
  | cons subnet rest ih =>
    cases hso : specOf opts subnet with
    | none =>
      have hso2 : opts.Subnets.find? (fun subnetOpts => subnetOpts.CIDR == subnet.CidrBlock)
          = none := hso
      simp only [modifySubnetsLoop, hso2, pure_apply] at h
      simp at h
    | some so =>
      have hso2 : opts.Subnets.find? (fun subnetOpts => subnetOpts.CIDR == subnet.CidrBlock)
          = some so := hso
      have hnm : needsModify opts subnet = so.Public := by simp [needsModify, hso]
      simp only [modifySubnetsLoop, hso2] at h
      rw [modifyEvents_cons, hnm]
      cases hp : so.Public with
      | false =>
        simp only [hp, Bool.false_eq_true, if_false, List.nil_append] at h ⊢
        obtain ⟨h1, h2⟩ := ih t h
        refine ⟨?_, h2⟩
        intro s hs
        rcases List.mem_cons.1 hs with rfl | hs
        · rw [hso]; rfl
        · exact h1 s hs
      | true =>
        simp only [hp, if_true, bind_apply, ec2_apply] at h
        cases hr : v.ec2Client.respond t (.ModifySubnetAttribute subnet.SubnetId true) with
        | error e =>
          simp only [hr, pure_apply] at h
          simp at h
        | ok u =>
          simp only [hr] at h
          obtain ⟨h1, h2⟩ := ih _ h
          refine ⟨?_, ?_⟩
          · intro s hs
            rcases List.mem_cons.1 hs with rfl | hs
            · rw [hso]; rfl
            · exact h1 s hs
          · simp only [if_true, List.singleton_append]
            exact ⟨hr, h2⟩

theorem createSubnets_returned (v : Client) (vpcID : String) (opts : CreateOptions)
    (subnets : List Subnet) (t t1 : Trace)
    (h : createSubnets v vpcID opts t = (.ret (subnets, none), t1)) :
    ∃ outs, outs.length = opts.Subnets.length ∧
      (∀ s ∈ recordedSubnets opts.Subnets outs, (specOf opts s).isSome = true) ∧
      Answers v t (subnetEvents opts vpcID opts.Subnets outs ++
        modifyEvents opts (recordedSubnets opts.Subnets outs)) := by
  simp only [createSubnets, bind_apply] at h
  generalize hl : createSubnetsLoop v vpcID opts opts.Subnets [] t = r at h
  rcases r with ⟨⟨r⟩ | _, tl⟩
  · cases r with
    | error e => simp [pure_apply] at h
    | ok res =>
      obtain ⟨outs, hlen, hA⟩ := createSubnetsLoop_returned v vpcID opts _ _ _ _ _ hl
      have hl2 := createSubnetsLoop_ok v vpcID opts opts.Subnets outs [] t hlen hA
      rw [hl] at hl2
      simp only [List.nil_append, Prod.mk.injEq, Outcome.ret.injEq, Except.ok.injEq] at hl2
      obtain ⟨rfl, rfl⟩ := hl2
      simp only [bind_apply] at h
      generalize hm : modifySubnetsLoop v opts (recordedSubnets opts.Subnets outs)
        (t ++ subnetEvents opts vpcID opts.Subnets outs) = r2 at h
      rcases r2 with ⟨⟨e⟩ | _, tm⟩
      · cases e with
        | some e =>
          simp only [hm, pure_apply] at h
          simp at h
        | none =>
          obtain ⟨hspec, hA2⟩ := modifySubnetsLoop_returned v opts _ _ _ hm
          exact ⟨outs, hlen, hspec, (Answers_append _ _ _ _).2 ⟨hA, hA2⟩⟩
      · simp only [hm] at h
        cases h
  · cases h

theorem routeTableLoop_succ_returned (v : Client) (opts : CreateOptions) (subnetType : String)
    (rt : RouteTable) (i : Nat) (subnets : List Subnet) (m res : RouteTableMap) (t t1 : Trace)
    (h : routeTableLoop v opts subnetType (i + 1) subnets (some rt) m t = (.ret (.ok res), t1)) :
    Answers v t (subnets.map
      (fun s => Event.ok (.AssociateRouteTable rt.RouteTableId s.SubnetId) ())) := by
  induction subnets generalizing i t with
  | nil => trivial
  | cons s rest ih =>
    have hi : (i + 1 == 0) = false := by simp
    simp only [routeTableLoop, hi, Bool.false_eq_true, if_false, bind_apply, pure_apply,
      ec2_apply] at h
    cases hr : v.ec2Client.respond t (.AssociateRouteTable rt.RouteTableId s.SubnetId) with
    | error e =>
      simp only [hr, pure_apply] at h
      simp at h
    | ok u =>
      simp only [hr] at h
      exact ⟨hr, ih (i + 1) _ h⟩

theorem routeTableLoop_returned (v : Client) (opts : CreateOptions) (subnetType : String)
    (subnets : List Subnet) (m res : RouteTableMap) (t t1 : Trace)
    (h : routeTableLoop v opts subnetType 0 subnets none m t = (.ret (.ok res), t1)) :
    ∃ rt, Answers v t (tableEvents opts subnetType rt subnets) := by
  cases subnets with
  | nil => exact ⟨⟨"", none, [], [], []⟩, trivial⟩
  | cons s rest =>
    simp only [routeTableLoop, beq_self_eq_true, if_true, bind_apply, pure_apply,
      ec2_apply] at h
    cases hr : v.ec2Client.respond t (createRouteTableCall opts subnetType s.VpcId) with
    | error e =>
      simp only [createRouteTableCall] at hr
      simp [hr, pure_apply] at h
    | ok rt =>
      have hr2 := hr
      simp only [createRouteTableCall] at hr2
      simp only [hr2, pure_apply, bind_apply, ec2_apply] at h
      cases hs : v.ec2Client.respond
          (t ++ [⟨.CreateRouteTable s.VpcId
            (flattenTags [⟨"Name", opts.Name ++ "-" ++ subnetType⟩] opts), .ok rt⟩])
          (.AssociateRouteTable rt.RouteTableId s.SubnetId) with
      | error e =>
        simp only [hs, pure_apply] at h
        simp at h
      | ok u =>
        simp only [hs] at h
        exact ⟨rt, hr, hs, routeTableLoop_succ_returned v opts subnetType rt 0 rest _ _ _ _ h⟩

theorem createRouteTables_returned (v : Client) (subnets : List Subnet) (opts : CreateOptions)
    (res : RouteTableMap) (t t1 : Trace)
    (h : createRouteTables v subnets opts t = (.ret (res, none), t1)) :
    ∃ rtPublic rtPrivate, Answers v t
      (tableEvents opts SubnetTypePublic rtPublic (subnets.filter (fun s => s.MapPublicIpOnLaunch))
        ++ tableEvents opts SubnetTypePrivate rtPrivate
          (subnets.filter (fun s => !s.MapPublicIpOnLaunch))) := by
  simp only [createRouteTables, bind_apply] at h
  generalize hl : routeTableLoop v opts SubnetTypePublic 0
    (subnets.filter (fun s => s.MapPublicIpOnLaunch)) none [] t = r at h
  rcases r with ⟨⟨r⟩ | _, tl⟩
  · cases r with
    | error e => simp [pure_apply] at h
    | ok m1 =>
      obtain ⟨rtPublic, hA1⟩ := routeTableLoop_returned v opts _ _ _ _ _ _ hl
      have hl2 := routeTableLoop_ok v opts SubnetTypePublic rtPublic _ [] t hA1
      rw [hl] at hl2
      simp only [Prod.mk.injEq, Outcome.ret.injEq, Except.ok.injEq] at hl2
      obtain ⟨rfl, rfl⟩ := hl2
      simp only [bind_apply] at h
      generalize hl3 : routeTableLoop v opts SubnetTypePrivate 0
        (subnets.filter (fun s => !s.MapPublicIpOnLaunch)) none _ _ = r2 at h
      rcases r2 with ⟨⟨r2⟩ | _, tl2⟩
      · cases r2 with
        | error e => simp [pure_apply] at h
        | ok m2 =>
          obtain ⟨rtPrivate, hA2⟩ := routeTableLoop_returned v opts _ _ _ _ _ _ hl3
          exact ⟨rtPublic, rtPrivate, (Answers_append _ _ _ _).2 ⟨hA1, hA2⟩⟩
      · cases h
  · cases h

theorem createIGW_returned (v : Client) (vpcID : String) (routeTable : Option RouteTable)
    (opts : CreateOptions) (r : Option InternetGateway) (t t1 : Trace)
    (h : createIGW v vpcID routeTable opts t = (.ret (r, none), t1)) :
    ∃ rtPublic igw, routeTable = some rtPublic ∧
      Answers v t (igwEvents opts vpcID rtPublic igw) := by
  simp only [createIGW, bind_apply, ec2_apply] at h
  cases h1 : v.ec2Client.respond t
      (.CreateInternetGateway (flattenTags [⟨"Name", opts.Name⟩] opts)) with
  | error e =>
    simp only [h1, pure_apply] at h
    simp at h
  | ok igw =>
    simp only [h1, bind_apply, ec2_apply] at h
    cases h2 : v.ec2Client.respond
        (t ++ [⟨.CreateInternetGateway (flattenTags [⟨"Name", opts.Name⟩] opts), .ok igw⟩])
        (.AttachInternetGateway igw.InternetGatewayId vpcID) with
    | error e =>
      simp only [h2, pure_apply] at h
      simp at h
    | ok u =>
      simp only [h2] at h
      cases routeTable with
      | none =>
        simp only [crash_apply] at h
        cases h
      | some rt =>
        simp only [bind_apply, ec2_apply] at h
        cases h3 : v.ec2Client.respond
            (t ++ [⟨.CreateInternetGateway (flattenTags [⟨"Name", opts.Name⟩] opts), .ok igw⟩] ++
              [⟨.AttachInternetGateway igw.InternetGatewayId vpcID, .ok u⟩])
            (.CreateRoute rt.RouteTableId "0.0.0.0/0" (some igw.InternetGatewayId) none) with
        | error e =>
          simp only [h3, pure_apply] at h
          simp at h
        | ok u2 => exact ⟨rt, igw, rfl, h1, h2, h3, trivial⟩

theorem createNATGW_returned (v : Client) (subnets : List Subnet)
    (routeTable : Option RouteTable) (opts : CreateOptions) (r : Option NatGateway)
    (t t1 : Trace) (h : createNATGW v subnets routeTable opts t = (.ret (r, none), t1)) :
    ∃ publicSubnet rest rtPrivate eip natGW,
      subnets.filter (fun s => s.MapPublicIpOnLaunch) = publicSubnet :: rest ∧
      routeTable = some rtPrivate ∧
      Answers v t (natEvents opts publicSubnet rtPrivate eip natGW) := by
  simp only [createNATGW, bind_apply, ec2_apply] at h
  cases h1 : v.ec2Client.respond t
      (.AllocateAddress (flattenTags [⟨"Name", opts.Name⟩] opts)) with
  | error e =>
    simp only [h1, pure_apply] at h
    simp at h
  | ok eip =>
    simp only [h1] at h
    cases hp : subnets.filter (fun s => s.MapPublicIpOnLaunch) with
    | nil =>
      simp only [hp, crash_apply] at h
      cases h
    | cons p ps =>
      simp only [hp, bind_apply, ec2_apply] at h
      cases h2 : v.ec2Client.respond
          (t ++ [⟨.AllocateAddress (flattenTags [⟨"Name", opts.Name⟩] opts), .ok eip⟩])
          (.CreateNatGateway eip.AllocationId p.SubnetId
            (flattenTags [⟨"Name", opts.Name⟩] opts)) with
      | error e =>
        simp only [h2, pure_apply] at h
        simp at h
      | ok natGW =>
        simp only [h2, bind_apply, ec2_apply] at h
        cases h3 : v.ec2Client.respond
            (t ++ [⟨.AllocateAddress (flattenTags [⟨"Name", opts.Name⟩] opts), .ok eip⟩] ++
              [⟨.CreateNatGateway eip.AllocationId p.SubnetId
                (flattenTags [⟨"Name", opts.Name⟩] opts), .ok natGW⟩])
            (.WaitNatGatewayAvailable natGW.NatGatewayId) with
        | error e =>
          simp only [h3, pure_apply] at h
          simp at h
        | ok u =>
          simp only [h3] at h
          cases routeTable with
          | none =>
            simp only [crash_apply] at h
            cases h
          | some rt =>
            simp only [bind_apply, ec2_apply] at h
            cases h4 : v.ec2Client.respond
                (t ++ [⟨.AllocateAddress (flattenTags [⟨"Name", opts.Name⟩] opts), .ok eip⟩] ++
                  [⟨.CreateNatGateway eip.AllocationId p.SubnetId
                    (flattenTags [⟨"Name", opts.Name⟩] opts), .ok natGW⟩] ++
                  [⟨.WaitNatGatewayAvailable natGW.NatGatewayId, .ok u⟩])
                (.CreateRoute rt.RouteTableId "0.0.0.0/0" none (some natGW.NatGatewayId)) with
            | error e =>
              simp only [h4, pure_apply] at h
              simp at h
            | ok u2 => exact ⟨p, ps, rt, eip, natGW, rfl, rfl, h1, h2, h3, h4, trivial⟩

/-- A `Create` that returned without error: every call of the run was
answered, the log is the reference sequence, and `Details` holds what the
calls handed back. -/
theorem Create_returned (v : Client) (rev : Bool) (opts : CreateOptions) (t t1 : Trace)
    (built : Details) (hne : opts.Subnets ≠ [])
    (h : Create v rev opts t = (.ret (built, none), t1)) :
    ∃ vpc outs rtPublic rtPrivate igw eip natGW publicSubnet rest,
      outs.length = opts.Subnets.length ∧
      (recordedSubnets opts.Subnets outs).filter (fun s => s.MapPublicIpOnLaunch)
        = publicSubnet :: rest ∧
      (recordedSubnets opts.Subnets outs).filter (fun s => !s.MapPublicIpOnLaunch) ≠ [] ∧
      Answers v t (createEvents opts vpc outs rtPublic rtPrivate igw eip natGW publicSubnet) ∧
      built = ⟨some vpc, recordedSubnets opts.Subnets outs,
        loValues rev [(SubnetTypePublic, rtPublic), (SubnetTypePrivate, rtPrivate)],
        some igw, some natGW⟩ ∧
      t1 = t ++ createEvents opts vpc outs rtPublic rtPrivate igw eip natGW publicSubnet := by
  have ho := withDefaultSubnets_of_ne v opts hne
  have h0 := h
  simp only [Create, bind_apply, ho] at h
  -- the network
  generalize h1 : createVPC v opts t = r1 at h
  rcases r1 with ⟨⟨r, e⟩ | _, s1⟩
  swap
  · cases h
  cases e with
  | some e =>
    simp only [pure_apply] at h
    simp at h
  | none =>
  obtain ⟨vpc, hv⟩ := createVPC_returned v opts t s1 r h1
  have h1b := createVPC_ok v opts vpc t hv
  rw [h1] at h1b
  simp only [Prod.mk.injEq, Outcome.ret.injEq] at h1b
  obtain ⟨⟨rfl, _⟩, rfl⟩ := h1b
  simp only [bind_apply] at h
  -- the subnets
  generalize h2 : createSubnets v vpc.VpcId opts (t ++ [Event.ok (createVpcCall opts) vpc]) = r2
    at h
  rcases r2 with ⟨⟨subnets, e⟩ | _, s2⟩
  swap
  · cases h
  cases e with
  | some e =>
    simp only [pure_apply] at h
    simp at h
  | none =>
  obtain ⟨outs, hlen, hspec, hA2⟩ := createSubnets_returned v vpc.VpcId opts subnets _ s2 h2
  have h2b := createSubnets_ok v vpc.VpcId opts outs _ hlen hspec hA2
  rw [h2] at h2b
  simp only [Prod.mk.injEq, Outcome.ret.injEq] at h2b
  obtain ⟨⟨rfl, _⟩, rfl⟩ := h2b
  simp only [bind_apply] at h
  -- the route tables
  generalize h3 : createRouteTables v (recordedSubnets opts.Subnets outs) opts
    (t ++ [Event.ok (createVpcCall opts) vpc] ++
      (subnetEvents opts vpc.VpcId opts.Subnets outs ++
        modifyEvents opts (recordedSubnets opts.Subnets outs))) = r3 at h
  rcases r3 with ⟨⟨rts, e⟩ | _, s3⟩
  swap
  · cases h
  cases e with
  | some e =>
    simp only [pure_apply] at h
    simp at h
  | none =>
  obtain ⟨rtPublic, rtPrivate, hA3⟩ := createRouteTables_returned v _ opts rts _ s3 h3
  have h3b := createRouteTables_ok v _ opts rtPublic rtPrivate _ hA3
  rw [h3] at h3b
  simp only [Prod.mk.injEq, Outcome.ret.injEq] at h3b
  obtain ⟨⟨rfl, _⟩, rfl⟩ := h3b
  simp only [bind_apply] at h
  -- the internet gateway
  generalize h4 : createIGW v vpc.VpcId
    ((tablesOf (recordedSubnets opts.Subnets outs) rtPublic rtPrivate).get SubnetTypePublic)
    opts _ = r4 at h
  rcases r4 with ⟨⟨igwO, e⟩ | _, s4⟩
  swap
  · cases h
  cases e with
  | some e =>
    simp only [pure_apply] at h
    simp at h
  | none =>
  obtain ⟨rtp, igw, hrtp, hA4⟩ := createIGW_returned v _ _ opts igwO _ s4 h4
  have hgp := tablesOf_get_public (recordedSubnets opts.Subnets outs) rtPublic rtPrivate
  rw [hrtp] at hgp h4
  have hpe : ((recordedSubnets opts.Subnets outs).filter
      (fun s => s.MapPublicIpOnLaunch)).isEmpty = false := by
    cases hc : ((recordedSubnets opts.Subnets outs).filter
      (fun s => s.MapPublicIpOnLaunch)).isEmpty with
    | false => rfl
    | true => simp [hc] at hgp
  simp only [hpe, Bool.false_eq_true, if_false, Option.some.injEq] at hgp
  subst hgp
  have h4b := createIGW_ok v vpc.VpcId rtp opts igw _ hA4
  rw [h4] at h4b
  simp only [Prod.mk.injEq, Outcome.ret.injEq] at h4b
  obtain ⟨⟨rfl, _⟩, rfl⟩ := h4b
  simp only [bind_apply] at h
  -- the NAT gateway
  generalize h5 : createNATGW v (recordedSubnets opts.Subnets outs)
    ((tablesOf (recordedSubnets opts.Subnets outs) rtp rtPrivate).get SubnetTypePrivate)
    opts _ = r5 at h
  rcases r5 with ⟨⟨natO, e⟩ | _, s5⟩
  swap
  · cases h
  cases e with
  | some e =>
    simp only [pure_apply] at h
    simp at h
  | none =>
  obtain ⟨publicSubnet, rest, rtq, eip, natGW, hpl, hrtq, hA5⟩ :=
    createNATGW_returned v _ _ opts natO _ s5 h5
  have hgq := tablesOf_get_private (recordedSubnets opts.Subnets outs) rtp rtPrivate
  rw [hrtq] at hgq
  have hqe : ((recordedSubnets opts.Subnets outs).filter
      (fun s => !s.MapPublicIpOnLaunch)).isEmpty = false := by
    cases hc : ((recordedSubnets opts.Subnets outs).filter
      (fun s => !s.MapPublicIpOnLaunch)).isEmpty with
    | false => rfl
    | true => simp [hc] at hgq
  simp only [hqe, Bool.false_eq_true, if_false, Option.some.injEq] at hgq
  subst hgq
  have hql : (recordedSubnets opts.Subnets outs).filter (fun s => !s.MapPublicIpOnLaunch)
      ≠ [] := by
    intro hc
    rw [hc] at hqe
    cases hqe
  have hA : Answers v t
      (createEvents opts vpc outs rtp rtq igw eip natGW publicSubnet) := by
    simp only [createEvents, Answers_append]
    rw [Answers_append] at hA2 hA3
    exact ⟨⟨hv, trivial⟩, hA2.1, hA2.2, by simpa only [List.append_assoc] using hA3.1,
      by simpa only [List.append_assoc] using hA3.2,
      by simpa only [List.append_assoc] using hA4,
      by simpa only [List.append_assoc] using hA5⟩
  have hC := Create_run v rev opts t vpc outs rtp rtq igw eip natGW publicSubnet rest hne
    hlen hspec hpl hql hA
  rw [h0] at hC
  simp only [Prod.mk.injEq, Outcome.ret.injEq] at hC
  exact ⟨vpc, outs, rtp, rtq, igw, eip, natGW, publicSubnet, rest, hlen, hpl, hql, hA,
    hC.1.1, hC.2⟩

/-! ## Create followed by Get, on a provider that keeps what was created -/

theorem record_keep (rs : List Resource) (ev : Event) (h : ev.removes = fun _ => false) :
    record rs ev = rs ++ (ev.resource rs).toList := by
  simp [record, h]

theorem onRecord_append (a b : Trace) : onRecord (a ++ b) = b.foldl record (onRecord a) :=
  List.foldl_append _ _ _ _

theorem record_createVpc (rs : List Resource) (cidr : String) (tags : List Tag) (x : Vpc) :
    record rs (Event.ok (.CreateVpc cidr tags) x) = rs ++ [Resource.vpc tags x] :=
  record_keep rs _ rfl

theorem record_createSubnet (rs : List Resource) (vpcId az cidr : String) (tags : List Tag)
    (x : Subnet) :
    record rs (Event.ok (.CreateSubnet vpcId az cidr tags) x) =
      rs ++ [Resource.subnet vpcId tags x] :=
  record_keep rs _ rfl

theorem record_createRouteTable (rs : List Resource) (vpcId : Option String) (tags : List Tag)
    (x : RouteTable) :
    record rs (Event.ok (.CreateRouteTable vpcId tags) x) =
      rs ++ [Resource.routeTable vpcId tags x] :=
  record_keep rs _ rfl

theorem record_createInternetGateway (rs : List Resource) (tags : List Tag)
    (x : InternetGateway) :
    record rs (Event.ok (.CreateInternetGateway tags) x) = rs ++ [Resource.igw tags x] :=
  record_keep rs _ rfl

theorem record_attachInternetGateway (rs : List Resource) (igwId vpcId : String) :
    record rs (Event.ok (.AttachInternetGateway igwId vpcId) ()) =
      rs ++ [Resource.attachment igwId vpcId] :=
  record_keep rs _ rfl

theorem record_createNatGateway (rs : List Resource) (alloc : Option String) (subnetId : String)
    (tags : List Tag) (x : NatGateway) :
    record rs (Event.ok (.CreateNatGateway alloc subnetId tags) x) =
      rs ++ [Resource.natGW (networkOf rs subnetId) tags x] :=
  record_keep rs _ rfl

/-- A call that neither creates nor removes leaves the record as it is. -/
theorem record_silent (rs : List Resource) (ev : Event) (h1 : ev.removes = fun _ => false)
    (h2 : ev.resource rs = none) : record rs ev = rs := by
  rw [record_keep rs ev h1, h2]
  exact List.append_nil rs

theorem record_modifySubnetAttribute (rs : List Resource) (subnetId : String) (value : Bool) :
    record rs (Event.ok (.ModifySubnetAttribute subnetId value) ()) = rs :=
  record_silent rs _ rfl rfl

theorem record_associateRouteTable (rs : List Resource) (rtId subnetId : String) :
    record rs (Event.ok (.AssociateRouteTable rtId subnetId) ()) = rs :=
  record_silent rs _ rfl rfl

theorem record_createRoute (rs : List Resource) (rtId dest : String) (g n : Option String) :
    record rs (Event.ok (.CreateRoute rtId dest g n) ()) = rs :=
  record_silent rs _ rfl rfl

theorem record_allocateAddress (rs : List Resource) (tags : List Tag)
    (x : AllocateAddressOutput) :
    record rs (Event.ok (.AllocateAddress tags) x) = rs :=
  record_silent rs _ rfl rfl

theorem record_waitNatGatewayAvailable (rs : List Resource) (natId : String) :
    record rs (Event.ok (.WaitNatGatewayAvailable natId) ()) = rs :=
  record_silent rs _ rfl rfl

theorem record_describeVpcs (rs : List Resource) (filters : List Filter) (xs : List Vpc) :
    record rs (Event.ok (.DescribeVpcs filters) xs) = rs :=
  record_silent rs _ rfl rfl

theorem record_describeSubnets (rs : List Resource) (filters : List Filter) (xs : List Subnet) :
    record rs (Event.ok (.DescribeSubnets filters) xs) = rs :=
  record_silent rs _ rfl rfl

theorem record_describeRouteTables (rs : List Resource) (filters : List Filter)
    (xs : List RouteTable) :
    record rs (Event.ok (.DescribeRouteTables filters) xs) = rs :=
  record_silent rs _ rfl rfl

theorem record_describeInternetGateways (rs : List Resource) (filters : List Filter)
    (xs : List InternetGateway) :
    record rs (Event.ok (.DescribeInternetGateways filters) xs) = rs :=
  record_silent rs _ rfl rfl

theorem foldl_record_subnetEvents (opts : CreateOptions) (vpcID : String)
    (specs : List CreateSubnetOptions) (outs : List Subnet) (rs : List Resource) :
    (subnetEvents opts vpcID specs outs).foldl record rs =
      rs ++ subnetResources opts vpcID specs outs := by
  induction specs generalizing outs rs with
  | nil => cases outs <;> simp [subnetEvents, subnetResources]
  | cons sn specs ih =>
    cases outs with
    | nil => simp [subnetEvents, subnetResources]
    | cons out outs =>
      rw [subnetEvents, List.foldl_cons, record_createSubnet, ih]
      simp only [subnetResources, List.append_assoc, List.singleton_append]

theorem foldl_record_modifyEvents (opts : CreateOptions) (subnets : List Subnet)
    (rs : List Resource) : (modifyEvents opts subnets).foldl record rs = rs := by
  rw [modifyEvents]
  induction (subnets.filter (needsModify opts)) generalizing rs with
  | nil => rfl
  | cons s rest ih => rw [List.map_cons, List.foldl_cons, record_modifySubnetAttribute, ih]

theorem foldl_record_tableEvents (opts : CreateOptions) (subnetType : String) (rt : RouteTable)
    (subnet : Subnet) (rest : List Subnet) (rs : List Resource) :
    (tableEvents opts subnetType rt (subnet :: rest)).foldl record rs =
      rs ++ [Resource.routeTable subnet.VpcId
        (flattenTags [⟨"Name", opts.Name ++ "-" ++ subnetType⟩] opts) rt] := by
  rw [tableEvents, List.foldl_cons, record_createRouteTable]
  generalize rs ++ [Resource.routeTable subnet.VpcId
    (flattenTags [⟨"Name", opts.Name ++ "-" ++ subnetType⟩] opts) rt] = rs2
  induction (subnet :: rest) generalizing rs2 with
  | nil => rfl
  | cons s l ih => rw [List.map_cons, List.foldl_cons, record_associateRouteTable, ih]

theorem foldl_record_igwEvents (opts : CreateOptions) (vpcID : String) (rt : RouteTable)
    (igw : InternetGateway) (rs : List Resource) :
    (igwEvents opts vpcID rt igw).foldl record rs =
      rs ++ [Resource.igw (flattenTags [⟨"Name", opts.Name⟩] opts) igw,
        Resource.attachment igw.InternetGatewayId vpcID] := by
  simp only [igwEvents, List.foldl_cons, List.foldl_nil, record_createInternetGateway,
    record_attachInternetGateway, record_createRoute, List.append_assoc, List.singleton_append]

theorem foldl_record_natEvents (opts : CreateOptions) (publicSubnet : Subnet) (rt : RouteTable)
    (eip : AllocateAddressOutput) (natGW : NatGateway) (rs : List Resource) :
    (natEvents opts publicSubnet rt eip natGW).foldl record rs =
      rs ++ [Resource.natGW (networkOf rs publicSubnet.SubnetId)
        (flattenTags [⟨"Name", opts.Name⟩] opts) natGW] := by
  simp only [natEvents, List.foldl_cons, List.foldl_nil, record_allocateAddress,
    record_createNatGateway, record_waitNatGatewayAvailable, record_createRoute]

theorem findSome?_of_all {α β : Type} (f : α → Option β) (l : List α) (b : β)
    (h1 : ∀ a ∈ l, f a = none ∨ f a = some b) (h2 : ∃ a ∈ l, f a = some b) :
    l.findSome? f = some b := by
  induction l with
  | nil =>
    obtain ⟨a, ha, _⟩ := h2
    cases ha
  | cons x xs ih =>
    rw [List.findSome?_cons]
    rcases h1 x (List.mem_cons_self _ _) with hx | hx
    · rw [hx]
      apply ih (fun a ha => h1 a (List.mem_cons_of_mem _ ha))
      obtain ⟨a, ha, hab⟩ := h2
      rcases List.mem_cons.1 ha with rfl | ha
      · rw [hx] at hab
        cases hab
      · exact ⟨a, ha, hab⟩
    · rw [hx]

theorem subnetResources_mem (opts : CreateOptions) (vpcID : String)
    (specs : List CreateSubnetOptions) (outs : List Subnet) :
    ∀ r ∈ subnetResources opts vpcID specs outs,
      ∃ extra out, out ∈ outs ∧ r = Resource.subnet vpcID (flattenTags extra opts) out := by
  induction specs generalizing outs with
  | nil => intro r hr; cases outs <;> cases hr
  | cons sn specs ih =>
    cases outs with
    | nil => intro r hr; cases hr
    | cons out outs =>
      intro r hr
      simp only [subnetResources, List.mem_cons] at hr
      rcases hr with rfl | hr
      · exact ⟨_, out, List.mem_cons_self _ _, rfl⟩
      · obtain ⟨extra, o, ho, h⟩ := ih outs r hr
        exact ⟨extra, o, List.mem_cons_of_mem _ ho, h⟩

theorem mem_subnetResources (opts : CreateOptions) (vpcID : String)
    (specs : List CreateSubnetOptions) (outs : List Subnet) (hlen : outs.length = specs.length) :
    ∀ out ∈ outs, ∃ tags, Resource.subnet vpcID tags out ∈ subnetResources opts vpcID specs outs := by
  induction specs generalizing outs with
  | nil =>
    cases outs with
    | nil => intro o ho; cases ho
    | cons out outs => cases hlen
  | cons sn specs ih =>
    cases outs with
    | nil => cases hlen
    | cons out outs =>
      intro o ho
      rcases List.mem_cons.1 ho with rfl | ho
      · exact ⟨_, List.mem_cons_self _ _⟩
      · obtain ⟨tags, h⟩ := ih outs (by simpa using hlen) o ho
        exact ⟨tags, List.mem_cons_of_mem _ h⟩

/-- The network of a subnet that is among the subnets created last. -/
theorem networkOf_built (old pre post : List Resource) (opts : CreateOptions) (vpcID : String)
    (specs : List CreateSubnetOptions) (outs : List Subnet) (subnetId : String)
    (hlen : outs.length = specs.length)
    (hpost : ∀ r ∈ post, r.subnetNetwork subnetId = none)
    (hex : ∃ out ∈ outs, out.SubnetId = subnetId) :
    networkOf (old ++ (pre ++ (subnetResources opts vpcID specs outs ++ post))) subnetId =
      some vpcID := by
  have hp : post.reverse.findSome? (Resource.subnetNetwork subnetId) = none := by
    rw [List.findSome?_eq_none_iff]
    intro r hr
    exact hpost r (List.mem_reverse.1 hr)
  have hn : (subnetResources opts vpcID specs outs).reverse.findSome?
      (Resource.subnetNetwork subnetId) = some vpcID := by
    apply findSome?_of_all
    · intro r hr
      obtain ⟨extra, o, _, rfl⟩ := subnetResources_mem opts vpcID specs outs r
        (List.mem_reverse.1 hr)
      simp only [Resource.subnetNetwork]
      split
      · exact Or.inr rfl
      · exact Or.inl rfl
    · obtain ⟨o, ho, hid⟩ := hex
      obtain ⟨tags, hm⟩ := mem_subnetResources opts vpcID specs outs hlen o ho
      exact ⟨_, List.mem_reverse.2 hm, by simp [Resource.subnetNetwork, hid]⟩
  simp only [networkOf, List.reverse_append, List.findSome?_append, hp, hn, Option.none_or,
    List.append_assoc]
  rfl

theorem tagsMatch_name (name : String) (extra : List Tag) (opts : CreateOptions) :
    tagsMatch [⟨"tag:Name", [name]⟩, managedByFilter]
      (flattenTags (⟨"Name", name⟩ :: extra) opts) = true := by
  have h1 : ("tag:Name" == "tag-key") = false := by decide
  have h2 : stringsHasPrefix "tag:Name" "tag:" = true := by decide
  have h3 : ("tag:CreatedBy" == "tag-key") = false := by decide
  have h4 : stringsHasPrefix "tag:CreatedBy" "tag:" = true := by decide
  have h5 : ("tag:" ++ "Name" == "tag:Name") = true := by decide
  have h6 : ("tag:" ++ "CreatedBy" == "tag:CreatedBy") = true := by decide
  simp [tagsMatch, managedByFilter_eq, flattenTags, defaultTags, CreatedByTagKey,
    CreatedByTagValue, h1, h2, h3, h4, h5, h6]

theorem tagsMatch_scoped (key id : String) (hkey : key = "vpc-id" ∨ key = "attachment.vpc-id")
    (extra : List Tag) (opts : CreateOptions) :
    tagsMatch [⟨key, [id]⟩, managedByFilter] (flattenTags extra opts) = true := by
  have h3 : ("tag:CreatedBy" == "tag-key") = false := by decide
  have h4 : stringsHasPrefix "tag:CreatedBy" "tag:" = true := by decide
  have h6 : ("tag:" ++ "CreatedBy" == "tag:CreatedBy") = true := by decide
  have h1 : key ≠ "tag-key" := by rcases hkey with rfl | rfl <;> decide
  have h2 : stringsHasPrefix key "tag:" = false := by rcases hkey with rfl | rfl <;> decide
  simp [tagsMatch, managedByFilter_eq, flattenTags, defaultTags, CreatedByTagKey,
    CreatedByTagValue, h1, h2, h3, h4, h6]

theorem scopeMatch_scoped (key id : String) (hkey : key = "vpc-id" ∨ key = "attachment.vpc-id")
    (ids : List String) :
    scopeMatch key [⟨key, [id]⟩, managedByFilter] ids = ids.contains id := by
  have h1 : "tag:CreatedBy" ≠ key := by rcases hkey with rfl | rfl <;> decide
  simp only [scopeMatch, managedByFilter_eq, List.all_cons, List.all_nil, beq_self_eq_true,
    if_true, beq_iff_eq, h1, if_false, Bool.and_true]
  rw [Bool.eq_iff_iff]
  simp [List.any_eq_true]

theorem recordedSubnets_like (specs : List CreateSubnetOptions) (outs : List Subnet) :
    ∀ s ∈ recordedSubnets specs outs,
      ∃ out ∈ outs, s.SubnetId = out.SubnetId ∧ s.VpcId = out.VpcId := by
  induction specs generalizing outs with
  | nil => intro s hs; cases outs <;> cases hs
  | cons sn specs ih =>
    cases outs with
    | nil => intro s hs; cases hs
    | cons out outs =>
      intro s hs
      simp only [recordedSubnets, List.mem_cons] at hs
      rcases hs with rfl | hs
      · refine ⟨out, List.mem_cons_self _ _, ?_⟩
        split <;> exact ⟨rfl, rfl⟩
      · obtain ⟨o, ho, h⟩ := ih outs s hs
        exact ⟨o, List.mem_cons_of_mem _ ho, h⟩

theorem recordedSubnets_ids (specs : List CreateSubnetOptions) (outs : List Subnet)
    (hlen : outs.length = specs.length) :
    (recordedSubnets specs outs).map (fun x => x.SubnetId) = outs.map (fun x => x.SubnetId) := by
  induction specs generalizing outs with
  | nil =>
    cases outs with
    | nil => rfl
    | cons out outs => cases hlen
  | cons sn specs ih =>
    cases outs with
    | nil => cases hlen
    | cons out outs =>
      simp only [recordedSubnets, List.map_cons, ih outs (by simpa using hlen)]
      congr 1
      split <;> rfl


theorem head?_of_all_eq {α : Type} (l : List α) (a : α) (h : ∀ x ∈ l, x = a) (hne : l ≠ []) :
    l.head? = some a := by
  cases l with
  | nil => exact absurd rfl hne
  | cons x xs => rw [List.head?_cons, h x (List.mem_cons_self _ _)]

theorem eq_nil_of_no_ids {α β : Type} (f : α → β) (l : List α)
    (h : ∀ b, b ∈ ([] : List β) ↔ b ∈ l.map f) : l = [] := by
  cases l with
  | nil => rfl
  | cons x xs => exact absurd ((h (f x)).2 (by simp)) (List.not_mem_nil _)

/-- What a successful `Create` run adds to the record. -/
theorem foldl_record_createEvents (opts : CreateOptions) (vpc : Vpc) (outs : List Subnet)
    (rtPublic rtPrivate : RouteTable) (igw : InternetGateway) (eip : AllocateAddressOutput)
    (natGW : NatGateway) (publicSubnet : Subnet) (rest : List Subnet) (old : List Resource)
    (hlen : outs.length = opts.Subnets.length)
    (hpub : (recordedSubnets opts.Subnets outs).filter (fun s => s.MapPublicIpOnLaunch)
      = publicSubnet :: rest)
    (hpriv : (recordedSubnets opts.Subnets outs).filter (fun s => !s.MapPublicIpOnLaunch) ≠ [])
    (hV : ∀ s ∈ recordedSubnets opts.Subnets outs, s.VpcId = some vpc.VpcId) :
    (createEvents opts vpc outs rtPublic rtPrivate igw eip natGW publicSubnet).foldl record old =
      old ++ builtRecord opts vpc outs rtPublic rtPrivate igw natGW := by
  obtain ⟨q, qs, hq⟩ : ∃ q qs,
      (recordedSubnets opts.Subnets outs).filter (fun s => !s.MapPublicIpOnLaunch) = q :: qs := by
    cases h : (recordedSubnets opts.Subnets outs).filter (fun s => !s.MapPublicIpOnLaunch) with
    | nil => exact absurd h hpriv
    | cons a b => exact ⟨a, b, rfl⟩
  have hpm : publicSubnet ∈ recordedSubnets opts.Subnets outs := by
    have : publicSubnet ∈ (recordedSubnets opts.Subnets outs).filter
        (fun s => s.MapPublicIpOnLaunch) := by
      rw [hpub]
      exact List.mem_cons_self _ _
    exact (List.mem_filter.1 this).1
  have hqm : q ∈ recordedSubnets opts.Subnets outs := by
    have : q ∈ (recordedSubnets opts.Subnets outs).filter
        (fun s => !s.MapPublicIpOnLaunch) := by
      rw [hq]
      exact List.mem_cons_self _ _
    exact (List.mem_filter.1 this).1
  have hnet : networkOf
      (old ++ Resource.vpc (flattenTags [⟨"Name", opts.Name⟩] opts) vpc ::
        (subnetResources opts vpc.VpcId opts.Subnets outs ++
          [Resource.routeTable (some vpc.VpcId)
              (flattenTags [⟨"Name", opts.Name ++ "-" ++ SubnetTypePublic⟩] opts) rtPublic,
            Resource.routeTable (some vpc.VpcId)
              (flattenTags [⟨"Name", opts.Name ++ "-" ++ SubnetTypePrivate⟩] opts) rtPrivate,
            Resource.igw (flattenTags [⟨"Name", opts.Name⟩] opts) igw,
            Resource.attachment igw.InternetGatewayId vpc.VpcId]))
      publicSubnet.SubnetId = some vpc.VpcId := by
    apply networkOf_built old [Resource.vpc (flattenTags [⟨"Name", opts.Name⟩] opts) vpc] _
      opts vpc.VpcId opts.Subnets outs publicSubnet.SubnetId hlen
    · intro r hr
      simp only [List.mem_cons, List.mem_singleton, List.not_mem_nil, or_false] at hr
      rcases hr with rfl | rfl | rfl | rfl <;> rfl
    · obtain ⟨o, ho, h1, _⟩ := recordedSubnets_like _ _ publicSubnet hpm
      exact ⟨o, ho, h1.symm⟩
  simp only [createEvents, List.foldl_append, List.foldl_cons, List.foldl_nil, record_createVpc,
    foldl_record_subnetEvents, foldl_record_modifyEvents, hpub, hq, foldl_record_tableEvents,
    foldl_record_igwEvents, foldl_record_natEvents, hV _ hpm, hV _ hqm, List.append_assoc,
    List.singleton_append, List.cons_append, List.nil_append, hnet]
  rfl

theorem filterMap_builtRecord {α : Type} (f : Resource → Option α)
    (h : ∀ vpcId tags x, f (Resource.subnet vpcId tags x) = none) (opts : CreateOptions)
    (vpc : Vpc) (outs : List Subnet) (rtPublic rtPrivate : RouteTable) (igw : InternetGateway)
    (natGW : NatGateway) :
    (builtRecord opts vpc outs rtPublic rtPrivate igw natGW).filterMap f =
      (f (Resource.vpc (flattenTags [⟨"Name", opts.Name⟩] opts) vpc)).toList ++
      [Resource.routeTable (some vpc.VpcId)
          (flattenTags [⟨"Name", opts.Name ++ "-" ++ SubnetTypePublic⟩] opts) rtPublic,
        Resource.routeTable (some vpc.VpcId)
          (flattenTags [⟨"Name", opts.Name ++ "-" ++ SubnetTypePrivate⟩] opts) rtPrivate,
        Resource.igw (flattenTags [⟨"Name", opts.Name⟩] opts) igw,
        Resource.attachment igw.InternetGatewayId vpc.VpcId,
        Resource.natGW (some vpc.VpcId) (flattenTags [⟨"Name", opts.Name⟩] opts)
          natGW].filterMap f := by
  have hs : (subnetResources opts vpc.VpcId opts.Subnets outs).filterMap f = [] := by
    rw [List.filterMap_eq_nil_iff]
    intro r hr
    obtain ⟨extra, o, _, rfl⟩ := subnetResources_mem opts vpc.VpcId opts.Subnets outs r hr
    exact h _ _ _
  rw [builtRecord, List.filterMap_cons, List.filterMap_append, hs, List.nil_append]
  cases f (Resource.vpc (flattenTags [⟨"Name", opts.Name⟩] opts) vpc) <;> rfl

theorem matchingVpcs_built (opts : CreateOptions) (old : List Resource) (vpc : Vpc)
    (outs : List Subnet) (rtPublic rtPrivate : RouteTable) (igw : InternetGateway)
    (natGW : NatGateway) :
    matchingVpcs (old ++ builtRecord opts vpc outs rtPublic rtPrivate igw natGW)
      [⟨"tag:Name", [opts.Name]⟩, managedByFilter] =
      matchingVpcs old [⟨"tag:Name", [opts.Name]⟩, managedByFilter] ++ [vpc] := by
  rw [matchingVpcs, List.filterMap_append, filterMap_builtRecord _ (fun _ _ _ => rfl)]
  simp only [Resource.matchVpc, tagsMatch_name, if_true, List.filterMap_cons,
    List.filterMap_nil, Option.toList, List.append_nil]
  rfl

theorem filterMap_subnetResources_match (opts : CreateOptions) (vpcID : String)
    (specs : List CreateSubnetOptions) (outs : List Subnet) (hlen : outs.length = specs.length) :
    (subnetResources opts vpcID specs outs).filterMap
      (Resource.matchSubnet [⟨"vpc-id", [vpcID]⟩, managedByFilter]) = outs := by
  induction specs generalizing outs with
  | nil =>
    cases outs with
    | nil => rfl
    | cons out outs => cases hlen
  | cons sn specs ih =>
    cases outs with
    | nil => cases hlen
    | cons out outs =>
      rw [subnetResources, List.filterMap_cons, ih outs (by simpa using hlen)]
      simp [Resource.matchSubnet, tagsMatch_scoped _ _ (Or.inl rfl),
        scopeMatch_scoped _ _ (Or.inl rfl)]

theorem matchingSubnets_built (opts : CreateOptions) (old : List Resource) (vpc : Vpc)
    (outs : List Subnet) (rtPublic rtPrivate : RouteTable) (igw : InternetGateway)
    (natGW : NatGateway) (hlen : outs.length = opts.Subnets.length) :
    matchingSubnets (old ++ builtRecord opts vpc outs rtPublic rtPrivate igw natGW)
      [⟨"vpc-id", [vpc.VpcId]⟩, managedByFilter] =
      matchingSubnets old [⟨"vpc-id", [vpc.VpcId]⟩, managedByFilter] ++ outs := by
  rw [matchingSubnets, List.filterMap_append, builtRecord, List.filterMap_cons,
    List.filterMap_append, filterMap_subnetResources_match opts vpc.VpcId opts.Subnets outs hlen]
  simp only [Resource.matchSubnet, List.filterMap_cons, List.filterMap_nil, List.append_nil]
  rfl

theorem matchingRouteTables_built (opts : CreateOptions) (old : List Resource) (vpc : Vpc)
    (outs : List Subnet) (rtPublic rtPrivate : RouteTable) (igw : InternetGateway)
    (natGW : NatGateway) :
    matchingRouteTables (old ++ builtRecord opts vpc outs rtPublic rtPrivate igw natGW)
      [⟨"vpc-id", [vpc.VpcId]⟩, managedByFilter] =
      matchingRouteTables old [⟨"vpc-id", [vpc.VpcId]⟩, managedByFilter] ++
        [rtPublic, rtPrivate] := by
  rw [matchingRouteTables, List.filterMap_append, filterMap_builtRecord _ (fun _ _ _ => rfl)]
  simp [Resource.matchRouteTable, tagsMatch_scoped _ _ (Or.inl rfl),
    scopeMatch_scoped _ _ (Or.inl rfl), matchingRouteTables]

theorem matchingNATGWs_built (opts : CreateOptions) (old : List Resource) (vpc : Vpc)
    (outs : List Subnet) (rtPublic rtPrivate : RouteTable) (igw : InternetGateway)
    (natGW : NatGateway) :
    matchingNATGWs (old ++ builtRecord opts vpc outs rtPublic rtPrivate igw natGW)
      [⟨"vpc-id", [vpc.VpcId]⟩, managedByFilter] =
      matchingNATGWs old [⟨"vpc-id", [vpc.VpcId]⟩, managedByFilter] ++ [natGW] := by
  rw [matchingNATGWs, List.filterMap_append, filterMap_builtRecord _ (fun _ _ _ => rfl)]
  simp [Resource.matchNATGW, tagsMatch_scoped _ _ (Or.inl rfl),
    scopeMatch_scoped _ _ (Or.inl rfl), matchingNATGWs]

theorem attachedTo_built (opts : CreateOptions) (old : List Resource) (vpc : Vpc)
    (outs : List Subnet) (rtPublic rtPrivate : RouteTable) (igw : InternetGateway)
    (natGW : NatGateway) (igwId : String) :
    attachedTo (old ++ builtRecord opts vpc outs rtPublic rtPrivate igw natGW) igwId =
      attachedTo old igwId ++ if igw.InternetGatewayId == igwId then [vpc.VpcId] else [] := by
  rw [attachedTo, List.filterMap_append, filterMap_builtRecord _ (fun _ _ _ => rfl)]
  cases h : igw.InternetGatewayId == igwId <;>
    simp [attachedTo, Resource.attachedNetwork, h]

/-- The internet-gateway query after a successful `Create` selects the created
gateway, and besides it only gateways with the same id. -/
theorem matchingIGWs_built (opts : CreateOptions) (old : List Resource) (vpc : Vpc)
    (outs : List Subnet) (rtPublic rtPrivate : RouteTable) (igw : InternetGateway)
    (natGW : NatGateway)
    (hold : matchingIGWs old [⟨"attachment.vpc-id", [vpc.VpcId]⟩, managedByFilter] = []) :
    igw ∈ matchingIGWs (old ++ builtRecord opts vpc outs rtPublic rtPrivate igw natGW)
      [⟨"attachment.vpc-id", [vpc.VpcId]⟩, managedByFilter] ∧
    ∀ g ∈ matchingIGWs (old ++ builtRecord opts vpc outs rtPublic rtPrivate igw natGW)
      [⟨"attachment.vpc-id", [vpc.VpcId]⟩, managedByFilter],
      g.InternetGatewayId = igw.InternetGatewayId := by
  constructor
  · rw [matchingIGWs, List.mem_filterMap]
    refine ⟨Resource.igw (flattenTags [⟨"Name", opts.Name⟩] opts) igw, ?_, ?_⟩
    · simp [builtRecord]
    · simp [Resource.matchIGW, tagsMatch_scoped _ _ (Or.inr rfl),
        scopeMatch_scoped _ _ (Or.inr rfl), attachedTo_built]
  · intro g hg
    rw [matchingIGWs, List.mem_filterMap] at hg
    obtain ⟨r, hr, hm⟩ := hg
    cases r with
    | igw tags x =>
      cases hid : igw.InternetGatewayId == x.InternetGatewayId with
      | true =>
        simp only [Resource.matchIGW] at hm
        split at hm
        · cases hm
          exact (beq_iff_eq.1 hid).symm
        · cases hm
      | false =>
        exfalso
        simp only [Resource.matchIGW, attachedTo_built, hid, Bool.false_eq_true, if_false,
          List.append_nil] at hm
        rcases List.mem_append.1 hr with ho | hn
        · have : g ∈ matchingIGWs old
              [⟨"attachment.vpc-id", [vpc.VpcId]⟩, managedByFilter] := by
            rw [matchingIGWs, List.mem_filterMap]
            exact ⟨_, ho, by simpa only [Resource.matchIGW] using hm⟩
          rw [hold] at this
          cases this
        · have hb : Resource.igw tags x ∈ builtRecord opts vpc outs rtPublic rtPrivate igw
              natGW := hn
          simp only [builtRecord, List.mem_cons, List.mem_append, List.mem_singleton,
            List.not_mem_nil, or_false, Resource.igw.injEq, false_or, reduceCtorEq] at hb
          rcases hb with hb | hb
          · obtain ⟨extra, o, _, h⟩ := subnetResources_mem _ _ _ _ _ hb
            cases h
          · rw [hb.2] at hid
            simp at hid
    | vpc _ _ => cases hm
    | subnet _ _ _ => cases hm
    | routeTable _ _ _ => cases hm
    | attachment _ _ => cases hm
    | natGW _ _ _ => cases hm

theorem onRecord_snoc_describeVpcs (t : Trace) (filters : List Filter) (xs : List Vpc) :
    onRecord (t ++ [Event.ok (.DescribeVpcs filters) xs]) = onRecord t := by
  rw [onRecord_append, List.foldl_cons, List.foldl_nil, record_describeVpcs]

theorem onRecord_snoc_describeSubnets (t : Trace) (filters : List Filter) (xs : List Subnet) :
    onRecord (t ++ [Event.ok (.DescribeSubnets filters) xs]) = onRecord t := by
  rw [onRecord_append, List.foldl_cons, List.foldl_nil, record_describeSubnets]

theorem onRecord_snoc_describeRouteTables (t : Trace) (filters : List Filter)
    (xs : List RouteTable) :
    onRecord (t ++ [Event.ok (.DescribeRouteTables filters) xs]) = onRecord t := by
  rw [onRecord_append, List.foldl_cons, List.foldl_nil, record_describeRouteTables]

theorem onRecord_snoc_describeIGWs (t : Trace) (filters : List Filter)
    (xs : List InternetGateway) :
    onRecord (t ++ [Event.ok (.DescribeInternetGateways filters) xs]) = onRecord t := by
  rw [onRecord_append, List.foldl_cons, List.foldl_nil, record_describeInternetGateways]

/-- On a provider whose subnets report their network, the subnets a
successful subnet step created report the network they were created in. -/
theorem subnetEvents_reports (v : Client) (hN : ReportsNetwork v.ec2Client)
    (opts : CreateOptions) (vpcID : String) (specs : List CreateSubnetOptions)
    (outs : List Subnet) (t : Trace) (hlen : outs.length = specs.length)
    (hA : Answers v t (subnetEvents opts vpcID specs outs)) :
    ∀ out ∈ outs, out.VpcId = some vpcID := by
  induction specs generalizing outs t with
  | nil =>
    cases outs with
    | nil => intro o ho; cases ho
    | cons out outs => cases hlen
  | cons sn specs ih =>
    cases outs with
    | nil => cases hlen
    | cons out outs =>
      obtain ⟨h1, h2⟩ := hA
      intro o ho
      rcases List.mem_cons.1 ho with rfl | ho
      · exact hN _ _ _ _ _ _ h1
      · exact ih outs _ (by simpa using hlen) h2 o ho

theorem cloudWith_keeps (freshNetworkIds reportNetwork : Bool) :
    Keeps (cloudWith freshNetworkIds reportNetwork) where
  describeVpcs := fun _ _ => ⟨_, rfl, fun _ => Iff.rfl⟩
  describeSubnets := fun _ _ => ⟨_, rfl, fun _ => Iff.rfl⟩
  describeRouteTables := fun _ _ => ⟨_, rfl, fun _ => Iff.rfl⟩
  describeInternetGateways := fun _ _ => ⟨_, rfl, fun _ => Iff.rfl⟩
  describeNatGateways := fun _ _ => ⟨_, rfl, fun _ => Iff.rfl⟩

theorem cloudWith_reportsNetwork (freshNetworkIds : Bool) :
    ReportsNetwork (cloudWith freshNetworkIds true) := by
  intro t vpcId az cidr tags x h
  cases h
  rfl

/-- C12 (amended). For every `CreateOptions` with at least one public and at
least one private subnet, over a provider that keeps what was created (every
describe query returns, in some order, exactly the resources created and not
since deleted whose creation tags and network match it) and on which a
created subnet reports the network it was created in: when before the run no
managed network carries the name and no managed resource is scoped to the
identifier of the new network, a `Create` that returned without error,
followed immediately by `Get` on the same name, gives a `Get` that returns
without error a `Details` with the same network id, the same set of subnet
ids, the same set of route-table ids, the same internet-gateway id and the
same NAT-gateway id as the `Details` that `Create` returned. -/
theorem Create_then_Get (v : Client) (rev : Bool) (opts : CreateOptions) (t t1 : Trace)
    (built : Details)
    (hK : Keeps v.ec2Client) (hN : ReportsNetwork v.ec2Client)
    (hpub : ∃ sn ∈ opts.Subnets, sn.Public = true)
    (hpriv : ∃ sn ∈ opts.Subnets, sn.Public = false)
    (hrun : Create v rev opts t = (.ret (built, none), t1))
    (hname : v.ec2Client.respond t (queryVpcs opts.Name) = .ok [])
    (hfresh : ∀ vpc, built.VPC = some vpc →
      v.ec2Client.respond t (querySubnets vpc.VpcId) = .ok [] ∧
      v.ec2Client.respond t (queryRouteTables vpc.VpcId) = .ok [] ∧
      v.ec2Client.respond t (queryIGWs vpc.VpcId) = .ok [] ∧
      v.ec2Client.respond t (queryNATGWs vpc.VpcId) = .ok []) :
    ∃ found t2,
      Get v ⟨opts.Name⟩ t1 = (.ret (found, none), t2) ∧
      built.VPC.isSome = true ∧
      built.InternetGateway.isSome = true ∧
      built.NATGateway.isSome = true ∧
      found.VPC.map (fun x => x.VpcId) = built.VPC.map (fun x => x.VpcId) ∧
      (∀ id, id ∈ found.Subnets.map (fun x => x.SubnetId) ↔
        id ∈ built.Subnets.map (fun x => x.SubnetId)) ∧
      (∀ id, id ∈ found.RouteTables.map (fun x => x.RouteTableId) ↔
        id ∈ built.RouteTables.map (fun x => x.RouteTableId)) ∧
      found.InternetGateway.map (fun x => x.InternetGatewayId) =
        built.InternetGateway.map (fun x => x.InternetGatewayId) ∧
      found.NATGateway.map (fun x => x.NatGatewayId) =
        built.NATGateway.map (fun x => x.NatGatewayId) := by
  have hne : opts.Subnets ≠ [] := by
    obtain ⟨sn, hsn, _⟩ := hpub
    obtain ⟨_, _, _⟩ := hpriv
    exact List.ne_nil_of_mem hsn
  obtain ⟨vpc, outs, rtPublic, rtPrivate, igw, eip, natGW, publicSubnet, rest, hlen, hpl, hql,
      hA, rfl, rfl⟩ := Create_returned v rev opts t t1 built hne hrun
  obtain ⟨hf2, hf3, hf4, hf5⟩ := hfresh vpc rfl
  -- what the run put on record
  have hA2 : Answers v (t ++ [Event.ok (createVpcCall opts) vpc])
      (subnetEvents opts vpc.VpcId opts.Subnets outs) := by
    simp only [createEvents, Answers_append] at hA
    exact hA.2.1
  have houts := subnetEvents_reports v hN opts vpc.VpcId opts.Subnets outs _ hlen hA2
  have hV : ∀ s ∈ recordedSubnets opts.Subnets outs, s.VpcId = some vpc.VpcId := by
    intro s hs
    obtain ⟨o, ho, _, h2⟩ := recordedSubnets_like _ _ s hs
    rw [h2]
    exact houts o ho
  have hR : onRecord (t ++ createEvents opts vpc outs rtPublic rtPrivate igw eip natGW
      publicSubnet) = onRecord t ++ builtRecord opts vpc outs rtPublic rtPrivate igw natGW := by
    rw [onRecord_append, foldl_record_createEvents opts vpc outs rtPublic rtPrivate igw eip
      natGW publicSubnet rest (onRecord t) hlen hpl hql hV]
  -- nothing of the new network was on record before
  have hold1 : matchingVpcs (onRecord t) [⟨"tag:Name", [opts.Name]⟩, managedByFilter] = [] := by
    obtain ⟨xs, hx, hm⟩ := hK.describeVpcs t [⟨"tag:Name", [opts.Name]⟩, managedByFilter]
    have h := hx.symm.trans hname
    cases h
    exact eq_nil_of_no_ids _ _ hm
  have hold2 : matchingSubnets (onRecord t) [⟨"vpc-id", [vpc.VpcId]⟩, managedByFilter] = [] := by
    obtain ⟨xs, hx, hm⟩ := hK.describeSubnets t [⟨"vpc-id", [vpc.VpcId]⟩, managedByFilter]
    have h := hx.symm.trans hf2
    cases h
    exact eq_nil_of_no_ids _ _ hm
  have hold3 : matchingRouteTables (onRecord t) [⟨"vpc-id", [vpc.VpcId]⟩, managedByFilter]
      = [] := by
    obtain ⟨xs, hx, hm⟩ := hK.describeRouteTables t [⟨"vpc-id", [vpc.VpcId]⟩, managedByFilter]
    have h := hx.symm.trans hf3
    cases h
    exact eq_nil_of_no_ids _ _ hm
  have hold4 : matchingIGWs (onRecord t) [⟨"attachment.vpc-id", [vpc.VpcId]⟩, managedByFilter]
      = [] := by
    obtain ⟨xs, hx, hm⟩ := hK.describeInternetGateways t
      [⟨"attachment.vpc-id", [vpc.VpcId]⟩, managedByFilter]
    have h := hx.symm.trans hf4
    cases h
    exact eq_nil_of_no_ids _ _ hm
  have hold5 : matchingNATGWs (onRecord t) [⟨"vpc-id", [vpc.VpcId]⟩, managedByFilter] = [] := by
    obtain ⟨xs, hx, hm⟩ := hK.describeNatGateways t [⟨"vpc-id", [vpc.VpcId]⟩, managedByFilter]
    have h := hx.symm.trans hf5
    cases h
    exact eq_nil_of_no_ids _ _ hm
  -- the five queries of `Get`
  obtain ⟨xs1, hq1, hm1⟩ := hK.describeVpcs
    (t ++ createEvents opts vpc outs rtPublic rtPrivate igw eip natGW publicSubnet)
    [⟨"tag:Name", [opts.Name]⟩, managedByFilter]
  rw [hR, matchingVpcs_built, hold1, List.nil_append] at hm1
  obtain ⟨x1, r1, rfl, hx1⟩ : ∃ x1 r1, xs1 = x1 :: r1 ∧ x1.VpcId = vpc.VpcId := by
    cases xs1 with
    | nil => exact absurd ((hm1 vpc.VpcId).2 (by simp)) (List.not_mem_nil _)
    | cons a r => exact ⟨a, r, rfl, by simpa using (hm1 a.VpcId).1 (by simp)⟩
  obtain ⟨xs2, hq2, hm2⟩ := hK.describeSubnets
    (t ++ createEvents opts vpc outs rtPublic rtPrivate igw eip natGW publicSubnet ++
      [Event.ok (queryVpcs opts.Name) (x1 :: r1)])
    [⟨"vpc-id", [x1.VpcId]⟩, managedByFilter]
  rw [onRecord_snoc_describeVpcs, hR, hx1, matchingSubnets_built opts _ vpc outs rtPublic
    rtPrivate igw natGW hlen, hold2, List.nil_append] at hm2
  obtain ⟨xs3, hq3, hm3⟩ := hK.describeRouteTables
    (t ++ createEvents opts vpc outs rtPublic rtPrivate igw eip natGW publicSubnet ++
      [Event.ok (queryVpcs opts.Name) (x1 :: r1)] ++ [Event.ok (querySubnets x1.VpcId) xs2])
    [⟨"vpc-id", [x1.VpcId]⟩, managedByFilter]
  rw [onRecord_snoc_describeSubnets, onRecord_snoc_describeVpcs, hR, hx1,
    matchingRouteTables_built, hold3, List.nil_append] at hm3
  obtain ⟨xs4, hq4, hm4⟩ := hK.describeInternetGateways
    (t ++ createEvents opts vpc outs rtPublic rtPrivate igw eip natGW publicSubnet ++
      [Event.ok (queryVpcs opts.Name) (x1 :: r1)] ++ [Event.ok (querySubnets x1.VpcId) xs2] ++
      [Event.ok (queryRouteTables x1.VpcId) xs3])
    [⟨"attachment.vpc-id", [x1.VpcId]⟩, managedByFilter]
  rw [onRecord_snoc_describeRouteTables, onRecord_snoc_describeSubnets,
    onRecord_snoc_describeVpcs, hR, hx1] at hm4
  obtain ⟨xs5, hq5, hm5⟩ := hK.describeNatGateways
    (t ++ createEvents opts vpc outs rtPublic rtPrivate igw eip natGW publicSubnet ++
      [Event.ok (queryVpcs opts.Name) (x1 :: r1)] ++ [Event.ok (querySubnets x1.VpcId) xs2] ++
      [Event.ok (queryRouteTables x1.VpcId) xs3] ++ [Event.ok (queryIGWs x1.VpcId) xs4])
    [⟨"vpc-id", [x1.VpcId]⟩, managedByFilter]
  rw [onRecord_snoc_describeIGWs, onRecord_snoc_describeRouteTables,
    onRecord_snoc_describeSubnets, onRecord_snoc_describeVpcs, hR, hx1,
    matchingNATGWs_built, hold5, List.nil_append] at hm5
  obtain ⟨hig1, hig2⟩ := matchingIGWs_built opts (onRecord t) vpc outs rtPublic rtPrivate igw
    natGW hold4
  have hG := Get_all_answered v ⟨opts.Name⟩
    (t ++ createEvents opts vpc outs rtPublic rtPrivate igw eip natGW publicSubnet)
    x1 r1 xs2 xs3 xs4 xs5 ⟨hq1, hq2, hq3, hq4, hq5, trivial⟩
  refine ⟨_, _, hG, rfl, rfl, rfl, congrArg some hx1, ?_, ?_, ?_, ?_⟩
  · intro id
    rw [hm2 id]
    show id ∈ outs.map (fun x => x.SubnetId) ↔
      id ∈ (recordedSubnets opts.Subnets outs).map (fun x => x.SubnetId)
    rw [recordedSubnets_ids opts.Subnets outs hlen]
  · intro id
    rw [hm3 id]
    cases rev <;> simp [loValues, or_comm]
  · show xs4.head?.map (fun x => x.InternetGatewayId) = some igw.InternetGatewayId
    rw [← List.head?_map]
    apply head?_of_all_eq
    · intro x hx
      obtain ⟨g, hg, rfl⟩ := List.mem_map.1 ((hm4 x).1 hx)
      exact hig2 g hg
    · intro h
      have := (hm4 igw.InternetGatewayId).2 (List.mem_map.2 ⟨igw, hig1, rfl⟩)
      rw [h] at this
      cases this
  · show xs5.head?.map (fun x => x.NatGatewayId) = some natGW.NatGatewayId
    rw [← List.head?_map]
    apply head?_of_all_eq
    · intro x hx
      simpa using (hm5 x).1 hx
    · intro h
      have := (hm5 natGW.NatGatewayId).2 (by simp)
      rw [h] at this
      cases this

theorem Create_then_Get_witness :
    ∃ found t2,
      Get (clientOf cloud) ⟨otherOptions.Name⟩
        (Create (clientOf cloud) true otherOptions (demoLog cloud)).2 = (.ret (found, none), t2) ∧
      (returnedDetails (Create (clientOf cloud) true otherOptions (demoLog cloud))).VPC.isSome
        = true ∧
      (returnedDetails
        (Create (clientOf cloud) true otherOptions (demoLog cloud))).InternetGateway.isSome
        = true ∧
      (returnedDetails
        (Create (clientOf cloud) true otherOptions (demoLog cloud))).NATGateway.isSome = true ∧
      found.VPC.map (fun x => x.VpcId) =
        (returnedDetails (Create (clientOf cloud) true otherOptions (demoLog cloud))).VPC.map
          (fun x => x.VpcId) ∧
      (∀ id, id ∈ found.Subnets.map (fun x => x.SubnetId) ↔
        id ∈ (returnedDetails
          (Create (clientOf cloud) true otherOptions (demoLog cloud))).Subnets.map
            (fun x => x.SubnetId)) ∧
      (∀ id, id ∈ found.RouteTables.map (fun x => x.RouteTableId) ↔
        id ∈ (returnedDetails
          (Create (clientOf cloud) true otherOptions (demoLog cloud))).RouteTables.map
            (fun x => x.RouteTableId)) ∧
      found.InternetGateway.map (fun x => x.InternetGatewayId) =
        (returnedDetails
          (Create (clientOf cloud) true otherOptions (demoLog cloud))).InternetGateway.map
            (fun x => x.InternetGatewayId) ∧
      found.NATGateway.map (fun x => x.NatGatewayId) =
        (returnedDetails
          (Create (clientOf cloud) true otherOptions (demoLog cloud))).NATGateway.map
            (fun x => x.NatGatewayId) :=
  Create_then_Get (clientOf cloud) true otherOptions (demoLog cloud)
    (Create (clientOf cloud) true otherOptions (demoLog cloud)).2
    (returnedDetails (Create (clientOf cloud) true otherOptions (demoLog cloud)))
    (cloudWith_keeps true true) (cloudWith_reportsNetwork true)
    ⟨_, List.mem_cons_of_mem _ (List.mem_singleton.2 rfl), rfl⟩
    ⟨_, List.mem_cons_self _ _, rfl⟩
    rfl rfl
    (by intro vpc h; cases h; exact ⟨rfl, rfl, rfl, rfl⟩)

/-- C12 as stated fails, in three ways; every provider below keeps what was
created and every `Create` below returns without error.
(1) On `cloud`, `Create` builds the network `demo` a second time: `Get` on
`demo` returns the identifiers of the first network, because the network
query finds both and `getVPC` takes the first.
(2) On a provider whose subnets do not report their network, the route tables
are created in no network (`createRouteTables` passes on the subnet's
`VpcId`): `Get` finds no route table.
(3) On a provider that gives the new network `other` the id of the network
`demo` it already holds, `Get` on `other` returns the subnets, route tables
and gateways of both. -/
theorem Create_then_Get_counterexample :
    (Keeps cloud ∧ ReportsNetwork cloud ∧
      demoOptions.Subnets.map (fun sn => sn.Public) = [false, true] ∧
      returnedIds (Create (clientOf cloud) false demoOptions (demoLog cloud)) =
        some (some "vpc-15", ["subnet-16", "subnet-17"], ["rtb-19", "rtb-21"], some "igw-23",
          some "nat-27") ∧
      returnedIds (Get (clientOf cloud) ⟨demoOptions.Name⟩
          (Create (clientOf cloud) false demoOptions (demoLog cloud)).2) =
        some (some "vpc-0", ["subnet-1", "subnet-2"], ["rtb-4", "rtb-6"], some "igw-8",
          some "nat-12")) ∧
    (Keeps (cloudWith true false) ∧
      returnedIds (Create (clientOf (cloudWith true false)) false demoOptions []) =
        some (some "vpc-0", ["subnet-1", "subnet-2"], ["rtb-4", "rtb-6"], some "igw-8",
          some "nat-12") ∧
      returnedIds (Get (clientOf (cloudWith true false)) ⟨demoOptions.Name⟩
          (Create (clientOf (cloudWith true false)) false demoOptions []).2) =
        some (some "vpc-0", ["subnet-1", "subnet-2"], [], some "igw-8", some "nat-12")) ∧
    (Keeps (cloudWith false true) ∧ ReportsNetwork (cloudWith false true) ∧
      (cloudWith false true).respond (demoLog (cloudWith false true))
        (queryVpcs otherOptions.Name) = .ok [] ∧
      returnedIds (Create (clientOf (cloudWith false true)) false otherOptions
          (demoLog (cloudWith false true))) =
        some (some "vpc-0", ["subnet-16", "subnet-17"], ["rtb-19", "rtb-21"], some "igw-23",
          some "nat-27") ∧
      returnedIds (Get (clientOf (cloudWith false true)) ⟨otherOptions.Name⟩
          (Create (clientOf (cloudWith false true)) false otherOptions
            (demoLog (cloudWith false true))).2) =
        some (some "vpc-0", ["subnet-1", "subnet-2", "subnet-16", "subnet-17"],
          ["rtb-4", "rtb-6", "rtb-19", "rtb-21"], some "igw-8", some "nat-12")) :=
  ⟨⟨cloudWith_keeps true true, cloudWith_reportsNetwork true, rfl, by decide, by decide⟩,
    ⟨cloudWith_keeps true false, by decide, by decide⟩,
    ⟨cloudWith_keeps false true, cloudWith_reportsNetwork false, rfl, by decide, by decide⟩⟩

end Vpcctl
